import Mathlib

/-!
# saiboVolleyball: the rally orchestrator and the set controller

A shallow embedding of the rally orchestrator of `src/game.cpp`
(convertDefenseToReceive, processRallyFromServe, processRallyFromReceive) and of
the set controller (rotateTeam, the update after a rally, the set-end test and
playSet of `src/game.cpp`; the same update and test in
`GameDisplay::simulateRound` of `src/gameDisplay.cpp`).

Conventions of the embedding.

* C++ `int` values are `Int`; the counters are incremented once per rally and
  are taken without overflow.
* The arrays `rotateA/B` (6 entries) and `faultA/B`, `scoredA/B` (7 entries)
  are functions on `Fin 6` and `Fin 7`; an index expression that leaves the
  array (undefined behaviour in C++) makes the embedded function return
  `Except.error`.
* The phase simulators (Serve, ReceiveServe, Setter, Spiker, Blocker,
  Defender) and `rand()` are not part of `game.cpp`; they are parameters of the
  embedding. Each one maps the state of the random source and its arguments
  to an outcome and the next state of the random source, and reads the match
  state without writing to it.
* `playSet` is a `while(true)` loop; it is embedded with a bound on the number
  of rallies played and returns `none` when the bound is reached first.
* `liberoReplaceA/B` is `none` until it is assigned; `rotateTeam` reading it
  before that is reported as an error.
* `emitUIEvent`/`sprintf` only produce display text and are left out. In their
  place the embedding records, in order, every simulator call with the
  arguments it received (`PhaseCall`), and tags each `return` of the rally
  functions with the transition that reached it (`Ending`).
-/

namespace Volleyball

/-! ## Data model -/

/-- Modelled from the spec: the Player record of the missing header `game.h`
(name, position tag, attributes); the fields are the ones assigned in
`GameDisplay::ensureTeamsLoaded`. -/
structure Player where
  name : String
  position : String
  gender : Int
  spike : Int
  block : Int
  serve : Int
  pass : Int
  defense : Int
  adjust : Int
  stamina : Int
  mental : List Int
  wisdom : Int
deriving DecidableEq

/-- A roster: the global array `teamA` or `teamB`, seven players. -/
abbrev Roster := Fin 7 → Player

/-- A rotation: `rotateA` or `rotateB`, six roster indices (index 0 is zone 1,
the server). -/
abbrev Rotation := Fin 6 → Int

/-- A per-player counter array: `faultA`, `faultB`, `scoredA` or `scoredB`. -/
abbrev Counters := Fin 7 → Int

/-- What C++ leaves undefined and the embedding reports as an error. -/
inductive Undefined where
  | indexOutOfBounds
  | indeterminateRead
deriving DecidableEq

/-- Modelled from the spec: the MatchState record (`GameState` of the missing
header `game.h`), with the fields `game.cpp` reads and writes. `liberoReplaceA/B`
is `none` while it has never been assigned. -/
structure GameState where
  scoreA : Int
  scoreB : Int
  setNum : Int
  serveSide : Int
  rotateA : Rotation
  rotateB : Rotation
  faultA : Counters
  faultB : Counters
  scoredA : Counters
  scoredB : Counters
  liberoReplaceA : Option Int
  liberoReplaceB : Option Int

inductive ServeType where
  | STABLE_SERVE
  | AGGRESSIVE_SERVE
deriving DecidableEq

inductive ReceiveQuality where
  | RECEIVE_PERFECT
  | RECEIVE_GOOD
  | RECEIVE_BAD
  | RECEIVE_FAULT
deriving DecidableEq

inductive PassTarget where
  | FRONT_SPIKER
  | FRONT_BLOCKER
  | BACK_SPIKER
  | OPPOSITE
  | SETTER_DUMP
  | ADJUST_ATTACK
deriving DecidableEq

inductive PassQuality where
  | GOOD_PASS
  | POOR_PASS
deriving DecidableEq

inductive SpikeStrategy where
  | STRONG_ATTACK
  | AVOID_BLOCK
  | DROP_SHOT
  | QUICK_ATTACK
  | ADJUST_SPIKE
  | TRANSITION_ATTACK
  | SETTER_SPIKE
deriving DecidableEq

inductive BlockResult where
  | BLOCK_BACK
  | BLOCK_BREAK
  | LIMIT_PATH
  | BLOCK_TOUCH
  | NO_TOUCH
deriving DecidableEq

inductive DefenseQuality where
  | DEFENSE_PERFECT
  | DEFENSE_GOOD
  | DEFENSE_BAD
  | DEFENSE_FAULT
deriving DecidableEq

structure ServeResult where
  success : Bool
  type : ServeType
  effectiveness : Int
deriving DecidableEq

structure ReceiveResult where
  quality : ReceiveQuality
  qualityValue : Int
  receiver : Player
  position : Int
  description : String
deriving DecidableEq

structure PassResult where
  target : PassTarget
  quality : PassQuality
  targetPlayer : Player
  isSetterDump : Bool
  dumpEffectiveness : Int
  qualityValue : Int
  description : String
deriving DecidableEq

structure SpikeResult where
  attacker : Player
  strategy : SpikeStrategy
  spikePower : Int
  blockCoefficient : ℚ
  isError : Bool
  isOut : Bool
  isSetterDump : Bool
  description : String
deriving DecidableEq

structure BlockResultInfo where
  result : BlockResult
  blockPower : Int
  blockEffect : ℚ
  increasedSpikePower : Int
  reducedSpikePower : Int
  blockBackPower : Int
  description : String
deriving DecidableEq

structure DefenseResult where
  quality : DefenseQuality
  qualityValue : Int
  defender : Player
  description : String
deriving DecidableEq

/-- One call of a phase simulator: the arguments the orchestrator handed to it
and the outcome it returned. -/
inductive PhaseCall where
  | serve (server : Player) (result : ServeResult)
  | receive (team : Int) (effectiveness : Int) (result : ReceiveResult)
  | set (setter : Player) (team : Int) (input : ReceiveResult) (result : PassResult)
  | setterDump (setter : Player) (dumpEffectiveness : Int) (result : SpikeResult)
  | spike (target : Player) (team : Int) (pass : PassResult) (result : SpikeResult)
  | block (defendingTeam attackingTeam : Int) (spike : SpikeResult)
      (result : BlockResultInfo)
  | defenseBlockBack (defendingTeam attackingTeam : Int) (block : BlockResultInfo)
      (result : DefenseResult)
  | defenseSpike (defendingTeam attackingTeam : Int) (spike : SpikeResult)
      (block : BlockResultInfo) (result : DefenseResult)
deriving DecidableEq

/-- The `return` statement of the rally functions that ended the rally. -/
inductive Ending where
  | serveFault
  | receiveFault
  | setFault
  | dumpError
  | spikeError
  | blockBackDefenseFault
  | defenseFault
  | ceiling
deriving DecidableEq

/-- The phase simulators and `rand()`, over a random source with states `R`. -/
structure Simulators (R : Type) where
  serve : R → Player → GameState → ServeResult × R
  receive : R → GameState → Int → Int → ReceiveResult × R
  simulateSet : R → Player → GameState → Int → ReceiveResult → PassResult × R
  createSetterDumpResult : R → Player → Int → SpikeResult × R
  simulateSpike : R → Player → GameState → Int → PassResult → SpikeResult × R
  simulateBlock : R → GameState → Int → Int → SpikeResult → BlockResultInfo × R
  simulateDefenseAgainstBlockBack : R → GameState → Int → Int → BlockResultInfo →
    DefenseResult × R
  simulateDefenseAgainstSpike : R → GameState → Int → Int → SpikeResult →
    BlockResultInfo → DefenseResult × R
  rand : R → Nat × R

/-- What the rally functions read besides the match state: the two global
rosters, the constant `MAX_RALLY_COUNT` of the missing `config.h`, and the
value of a default-constructed `Player`. -/
structure Env where
  teamA : Roster
  teamB : Roster
  maxRallyCount : Nat
  blank : Player

/-- The result of a rally: the returned team, the match state after the rally,
the random source, the simulator calls made and the `return` reached. -/
structure RallyResult (R : Type) where
  winner : Int
  game : GameState
  rng : R
  trace : List PhaseCall
  ending : Ending

/-- The local variables of `processRallyFromReceive` at the head of a loop
iteration. -/
structure LoopState (R : Type) where
  currentAttackingTeam : Int
  currentDefendingTeam : Int
  currentReceiveResult : ReceiveResult
  rng : R
  trace : List PhaseCall

/-- The outcome of one loop iteration: a `return`, or the state at the head of
the next iteration. -/
inductive Step (R : Type) where
  | done (res : RallyResult R)
  | next (ls : LoopState R)

/-- The simulator calls made up to the end of an iteration. -/
def Step.trace {R : Type} : Step R → List PhaseCall
  | .done res => res.trace
  | .next ls => ls.trace

/-! ## Array access -/

/-- The player `team[k]` for an index inside the array. -/
def Roster.player (team : Roster) (k : Int) : Player :=
  team ⟨k.toNat % 7, Nat.mod_lt _ (by decide)⟩

/-- The expression `team[k]`. -/
def Roster.at (team : Roster) (k : Int) : Except Undefined Player :=
  if 0 ≤ k ∧ k < 7 then .ok (team.player k) else .error .indexOutOfBounds

/-- The array `counters` after `counters[k]++` for an index inside the array. -/
def Counters.bump (c : Counters) (k : Int) : Counters :=
  fun j => if (j.val : Int) = k then c j + 1 else c j

/-- The sum of the seven entries of a counter array. -/
def Counters.total (c : Counters) : Int :=
  c 0 + c 1 + c 2 + c 3 + c 4 + c 5 + c 6

/-- The sum of all fault and score-credit counters of both teams. -/
def GameState.counterSum (g : GameState) : Int :=
  g.faultA.total + g.faultB.total + g.scoredA.total + g.scoredB.total

/-- The expression `(team == 0) ? game.rotateA : game.rotateB`. -/
def GameState.rotationOf (g : GameState) (team : Int) : Rotation :=
  if team = 0 then g.rotateA else g.rotateB

/-- The expression `(team == 0) ? teamA : teamB`. -/
def Env.rosterOf (env : Env) (team : Int) : Roster :=
  if team = 0 then env.teamA else env.teamB

/-- The match state after `faultA[k]++` (team 0) or `faultB[k]++` (otherwise). -/
def GameState.creditFault (g : GameState) (team : Int) (k : Int) : GameState :=
  if team = 0 then { g with faultA := g.faultA.bump k } else { g with faultB := g.faultB.bump k }

/-- The match state after `scoredA[k]++` (team 0) or `scoredB[k]++` (otherwise). -/
def GameState.creditScored (g : GameState) (team : Int) (k : Int) : GameState :=
  if team = 0 then { g with scoredA := g.scoredA.bump k }
  else { g with scoredB := g.scoredB.bump k }

/-- The pattern `if (team == 0) game.faultA[k]++; else game.faultB[k]++;`. -/
def GameState.incrFault (g : GameState) (team : Int) (k : Int) : Except Undefined GameState :=
  if 0 ≤ k ∧ k < 7 then .ok (g.creditFault team k) else .error .indexOutOfBounds

/-- The pattern `if (team == 0) game.scoredA[k]++; else game.scoredB[k]++;`. -/
def GameState.incrScored (g : GameState) (team : Int) (k : Int) : Except Undefined GameState :=
  if 0 ≤ k ∧ k < 7 then .ok (g.creditScored team k) else .error .indexOutOfBounds

/-- The test `position == "S" || position == "二传"` of the setter scan. -/
def Player.isSetter (p : Player) : Bool :=
  p.position == "S" || p.position == "二传"

/-! ## game.cpp -/

/-- The function `convertDefenseToReceive` (game.cpp 47-80). -/
def convertDefenseToReceive (defenseResult : DefenseResult) : ReceiveResult :=
  match defenseResult.quality with
  | .DEFENSE_PERFECT =>
    { quality := .RECEIVE_PERFECT, qualityValue := defenseResult.qualityValue,
      description := "完美防守，可以组织快攻", receiver := defenseResult.defender, position := -1 }
  | .DEFENSE_GOOD =>
    { quality := .RECEIVE_GOOD, qualityValue := defenseResult.qualityValue,
      description := "好防守，可以组织进攻", receiver := defenseResult.defender, position := -1 }
  | .DEFENSE_BAD =>
    { quality := .RECEIVE_BAD, qualityValue := defenseResult.qualityValue,
      description := "防守不到位，只能调整攻", receiver := defenseResult.defender, position := -1 }
  | .DEFENSE_FAULT =>
    { quality := .RECEIVE_FAULT, qualityValue := defenseResult.qualityValue,
      description := "防守失误", receiver := defenseResult.defender, position := -1 }

/-- The six rotation slots in the order the `for (int i = 0; i < 6; i++)` loops
visit them. -/
def slots : List (Fin 6) := [0, 1, 2, 3, 4, 5]

/-- The setter scan of `processRallyFromReceive` (game.cpp 207-215) over the
rotation slots still to visit: the first slot whose player has position "S" or
"二传" gives `setter` and `setter_id`; without one they keep their initial
values, a default-constructed player and -1. -/
def scanSetter (team : Roster) (rotation : Rotation) (blank : Player) :
    List (Fin 6) → Except Undefined (Player × Int)
  | [] => .ok (blank, -1)
  | i :: rest =>
    match team.at (rotation i) with
    | .error e => .error e
    | .ok p =>
      if p.isSetter = true then .ok (p, rotation i)
      else scanSetter team rotation blank rest

/-- The attacker lookup of `processRallyFromReceive` (game.cpp 343-355) over the
rotation slots still to visit: the first slot whose player has the name of the
attacker gives `attackerID`; without one it keeps its initial value 0. -/
def scanAttacker (team : Roster) (rotation : Rotation) (name : String) :
    List (Fin 6) → Except Undefined Int
  | [] => .ok 0
  | i :: rest =>
    match team.at (rotation i) with
    | .error e => .error e
    | .ok p =>
      if name = p.name then .ok (rotation i)
      else scanAttacker team rotation name rest

/-- The defense against a block-back ball and what follows it (game.cpp
434-474). `attackingTeam` and `defendingTeam` are the values of
`currentAttackingTeam` and `currentDefendingTeam` at the head of the iteration:
the first `std::swap` makes the team that attacked the defending one, a Fault
returns the (swapped) attacking team without touching a counter, and otherwise
the second `std::swap` restores the roles before `continue`. -/
def defendBlockBack {R : Type} (sim : Simulators R) (game : GameState)
    (attackingTeam defendingTeam : Int) (blockResult : BlockResultInfo) (rng : R)
    (trace : List PhaseCall) : Except Undefined (Step R) :=
  let swappedAttacking := defendingTeam
  let swappedDefending := attackingTeam
  let d := sim.simulateDefenseAgainstBlockBack rng game swappedDefending swappedAttacking
    blockResult
  let trace1 := trace ++
    [PhaseCall.defenseBlockBack swappedDefending swappedAttacking blockResult d.1]
  if d.1.quality = DefenseQuality.DEFENSE_FAULT then
    .ok (.done ⟨swappedAttacking, game, d.2, trace1, .blockBackDefenseFault⟩)
  else
    .ok (.next ⟨swappedDefending, swappedAttacking, convertDefenseToReceive d.1, d.2, trace1⟩)

/-- The defense against a direct attack and what follows it (game.cpp 532-566):
a Fault credits `scored[attackerID]` of the attacking team and returns that
team; otherwise the roles are swapped and the converted outcome is the input
of the next iteration. -/
def defendSpike {R : Type} (sim : Simulators R) (game : GameState)
    (attackingTeam defendingTeam : Int) (attackerID : Int) (spikeResult : SpikeResult)
    (blockResult : BlockResultInfo) (rng : R) (trace : List PhaseCall) :
    Except Undefined (Step R) :=
  let d := sim.simulateDefenseAgainstSpike rng game defendingTeam attackingTeam spikeResult
    blockResult
  let trace1 := trace ++
    [PhaseCall.defenseSpike defendingTeam attackingTeam spikeResult blockResult d.1]
  if d.1.quality = DefenseQuality.DEFENSE_FAULT then
    match game.incrScored attackingTeam attackerID with
    | .error e => .error e
    | .ok game1 => .ok (.done ⟨attackingTeam, game1, d.2, trace1, .defenseFault⟩)
  else
    .ok (.next ⟨defendingTeam, attackingTeam, convertDefenseToReceive d.1, d.2, trace1⟩)

/-- The block phase and the switch on its result (game.cpp 418-526), followed by
the defense. -/
def blockPhase {R : Type} (sim : Simulators R) (game : GameState)
    (attackingTeam defendingTeam : Int) (attackerID : Int) (spikeResult : SpikeResult)
    (rng : R) (trace : List PhaseCall) : Except Undefined (Step R) :=
  let b := sim.simulateBlock rng game defendingTeam attackingTeam spikeResult
  let trace1 := trace ++ [PhaseCall.block defendingTeam attackingTeam spikeResult b.1]
  match b.1.result with
  | .BLOCK_BACK =>
    defendBlockBack sim game attackingTeam defendingTeam b.1 b.2 trace1
  | .BLOCK_BREAK =>
    defendSpike sim game attackingTeam defendingTeam attackerID
      { spikeResult with spikePower := b.1.increasedSpikePower } b.1 b.2 trace1
  | .LIMIT_PATH =>
    defendSpike sim game attackingTeam defendingTeam attackerID
      { spikeResult with spikePower := b.1.reducedSpikePower } b.1 b.2 trace1
  | .BLOCK_TOUCH =>
    defendSpike sim game attackingTeam defendingTeam attackerID
      { spikeResult with spikePower := b.1.reducedSpikePower } b.1 b.2 trace1
  | .NO_TOUCH =>
    defendSpike sim game attackingTeam defendingTeam attackerID spikeResult b.1 b.2 trace1

/-- The body of the `while` loop of `processRallyFromReceive` (game.cpp 201-573):
set, attack, block and defense of one iteration. -/
def rallyStep {R : Type} (env : Env) (sim : Simulators R) (game : GameState)
    (ls : LoopState R) : Except Undefined (Step R) :=
  let rotation := game.rotationOf ls.currentAttackingTeam
  let team := env.rosterOf ls.currentAttackingTeam
  match scanSetter team rotation env.blank slots with
  | .error e => .error e
  | .ok s =>
    let p := sim.simulateSet ls.rng s.1 game ls.currentAttackingTeam ls.currentReceiveResult
    let trace1 := ls.trace ++
      [PhaseCall.set s.1 ls.currentAttackingTeam ls.currentReceiveResult p.1]
    if p.1.quality = PassQuality.POOR_PASS ∧ p.1.isSetterDump = false then
      match game.incrFault ls.currentAttackingTeam s.2 with
      | .error e => .error e
      | .ok game1 => .ok (.done ⟨ls.currentDefendingTeam, game1, p.2, trace1, .setFault⟩)
    else if p.1.isSetterDump = true then
      let sp := sim.createSetterDumpResult p.2 s.1 p.1.dumpEffectiveness
      let trace2 := trace1 ++ [PhaseCall.setterDump s.1 p.1.dumpEffectiveness sp.1]
      if sp.1.isError = true then
        match game.incrFault ls.currentAttackingTeam s.2 with
        | .error e => .error e
        | .ok game1 => .ok (.done ⟨ls.currentDefendingTeam, game1, sp.2, trace2, .dumpError⟩)
      else
        blockPhase sim game ls.currentAttackingTeam ls.currentDefendingTeam 0 sp.1 sp.2 trace2
    else
      let sp := sim.simulateSpike p.2 p.1.targetPlayer game ls.currentAttackingTeam p.1
      let trace2 := trace1 ++
        [PhaseCall.spike p.1.targetPlayer ls.currentAttackingTeam p.1 sp.1]
      match scanAttacker team rotation sp.1.attacker.name slots with
      | .error e => .error e
      | .ok attackerID =>
        if sp.1.isError = true then
          match game.incrFault ls.currentAttackingTeam attackerID with
          | .error e => .error e
          | .ok game1 =>
            .ok (.done ⟨ls.currentDefendingTeam, game1, sp.2, trace2, .spikeError⟩)
        else
          blockPhase sim game ls.currentAttackingTeam ls.currentDefendingTeam attackerID
            sp.1 sp.2 trace2

/-- The `while (rallyCount < MAX_RALLY_COUNT)` loop of `processRallyFromReceive`
and the fallback after it (game.cpp 200-580); the first argument is the number
of iterations left, `MAX_RALLY_COUNT - rallyCount`. -/
def rallyLoop {R : Type} (env : Env) (sim : Simulators R) (game : GameState) :
    Nat → LoopState R → Except Undefined (RallyResult R)
  | 0, ls =>
    let rd := sim.rand ls.rng
    .ok ⟨if rd.1 % 2 = 0 then ls.currentAttackingTeam else ls.currentDefendingTeam,
      game, rd.2, ls.trace, .ceiling⟩
  | n + 1, ls =>
    match rallyStep env sim game ls with
    | .error e => .error e
    | .ok (.done res) => .ok res
    | .ok (.next ls1) => rallyLoop env sim game n ls1

/-- The function `processRallyFromReceive` (game.cpp 189-581); `rng` and `trace`
are the random source and the calls made so far. -/
def processRallyFromReceive {R : Type} (env : Env) (sim : Simulators R) (game : GameState)
    (attackingTeam defendingTeam : Int) (receiveResult : ReceiveResult) (rng : R)
    (trace : List PhaseCall) : Except Undefined (RallyResult R) :=
  rallyLoop env sim game env.maxRallyCount
    ⟨attackingTeam, defendingTeam, receiveResult, rng, trace⟩

/-- The serve and the reception of `processRallyFromServe` (game.cpp 100-178): a
`return`, or the arguments with which `processRallyFromReceive` is called. -/
def serveAndReceive {R : Type} (env : Env) (sim : Simulators R) (game : GameState)
    (rng : R) : Except Undefined (Step R) :=
  let attackingTeam := 1 - game.serveSide
  let defendingTeam := game.serveSide
  match (env.rosterOf game.serveSide).at (game.rotationOf game.serveSide 0) with
  | .error e => .error e
  | .ok server =>
    let sv := sim.serve rng server game
    let trace1 := [PhaseCall.serve server sv.1]
    if sv.1.success = false then
      match game.incrFault game.serveSide (game.rotationOf game.serveSide 0) with
      | .error e => .error e
      | .ok game1 => .ok (.done ⟨attackingTeam, game1, sv.2, trace1, .serveFault⟩)
    else
      let rc := sim.receive sv.2 game attackingTeam sv.1.effectiveness
      let trace2 := trace1 ++ [PhaseCall.receive attackingTeam sv.1.effectiveness rc.1]
      if rc.1.quality = ReceiveQuality.RECEIVE_FAULT then
        match game.incrScored game.serveSide (game.rotationOf game.serveSide 0) with
        | .error e => .error e
        | .ok game1 => .ok (.done ⟨defendingTeam, game1, rc.2, trace2, .receiveFault⟩)
      else
        .ok (.next ⟨attackingTeam, defendingTeam, rc.1, rc.2, trace2⟩)

/-- The function `processRallyFromServe` (game.cpp 99-186). -/
def processRallyFromServe {R : Type} (env : Env) (sim : Simulators R) (game : GameState)
    (rng : R) : Except Undefined (RallyResult R) :=
  match serveAndReceive env sim game rng with
  | .error e => .error e
  | .ok (.done res) => .ok res
  | .ok (.next ls) =>
    processRallyFromReceive env sim game ls.currentAttackingTeam ls.currentDefendingTeam
      ls.currentReceiveResult ls.rng ls.trace

/-- The local variables at the head of the iteration that follows `k` completed
iterations of the loop entered with `ls`; `none` when the rally has returned
before. -/
def loopStateAt {R : Type} (env : Env) (sim : Simulators R) (game : GameState)
    (ls : LoopState R) : Nat → Option (LoopState R)
  | 0 => some ls
  | k + 1 =>
    match loopStateAt env sim game ls k with
    | none => none
    | some ls1 =>
      match rallyStep env sim game ls1 with
      | .ok (.next ls2) => some ls2
      | _ => none

/-! ## Well-formed match states -/

/-- Every entry of a rotation is a roster index in [0,6]. -/
def Rotation.Valid (r : Rotation) : Prop :=
  ∀ i : Fin 6, 0 ≤ r i ∧ r i < 7

/-- Slot `j` is the first rotation slot whose player has the Setter position. -/
def FirstSetterSlot (team : Roster) (r : Rotation) (j : Fin 6) : Prop :=
  (team.player (r j)).isSetter = true ∧ ∀ i : Fin 6, i < j → (team.player (r i)).isSetter = false

/-- Slot `j` is the first rotation slot whose player has the given name. -/
def FirstNamedSlot (team : Roster) (r : Rotation) (name : String) (j : Fin 6) : Prop :=
  (team.player (r j)).name = name ∧ ∀ i : Fin 6, i < j → (team.player (r i)).name ≠ name

/-- The rotations hold roster indices and each of them contains a player with
the Setter position. -/
def Env.WellFormed (env : Env) (g : GameState) : Prop :=
  g.rotateA.Valid ∧ g.rotateB.Valid ∧
  (∃ j, FirstSetterSlot env.teamA g.rotateA j) ∧ (∃ j, FirstSetterSlot env.teamB g.rotateB j)

instance (r : Rotation) : Decidable r.Valid := by
  unfold Rotation.Valid; infer_instance

instance (team : Roster) (r : Rotation) (j : Fin 6) : Decidable (FirstSetterSlot team r j) := by
  unfold FirstSetterSlot; infer_instance

instance (team : Roster) (r : Rotation) (name : String) (j : Fin 6) :
    Decidable (FirstNamedSlot team r name j) := by
  unfold FirstNamedSlot; infer_instance

instance (env : Env) (g : GameState) : Decidable (env.WellFormed g) := by
  unfold Env.WellFormed; infer_instance

/-- The match state `g1` is `g` with exactly one counter entry, at an index
inside its array, increased by 1. -/
def Credited (g g1 : GameState) : Prop :=
  ∃ team k : Int, 0 ≤ k ∧ k < 7 ∧ (g1 = g.creditFault team k ∨ g1 = g.creditScored team k)

/-! ## Concrete rosters, states and simulators -/

/-- The lambda `makeP` of `GameDisplay::ensureTeamsLoaded` (gameDisplay.cpp
1036-1044). -/
def makeP (n pos : String) : Player :=
  { name := n, position := pos, gender := 1, spike := 60, block := 60, serve := 60,
    pass := 60, defense := 60, adjust := 60, stamina := 80, mental := [60, 60, 60, 60, 40],
    wisdom := 60 }

/-- The default roster `ta` of `GameDisplay::ensureTeamsLoaded` (gameDisplay.cpp
1046-1050). -/
def defaultTeamA : Roster := fun i =>
  match i.val with
  | 0 => makeP "A1" "OH"
  | 1 => makeP "A2" "S"
  | 2 => makeP "A3" "MB"
  | 3 => makeP "A4" "OH"
  | 4 => makeP "A5" "MB"
  | 5 => makeP "A6" "OP"
  | _ => makeP "AL" "L"

/-- The default roster `tb` of `GameDisplay::ensureTeamsLoaded` (gameDisplay.cpp
1051-1055). -/
def defaultTeamB : Roster := fun i =>
  match i.val with
  | 0 => makeP "B1" "OH"
  | 1 => makeP "B2" "S"
  | 2 => makeP "B3" "MB"
  | 3 => makeP "B4" "OH"
  | 4 => makeP "B5" "MB"
  | 5 => makeP "B6" "OP"
  | _ => makeP "BL" "L"

/-- A default-constructed player: empty strings, attributes 0. -/
def blankPlayer : Player :=
  { name := "", position := "", gender := 0, spike := 0, block := 0, serve := 0,
    pass := 0, defense := 0, adjust := 0, stamina := 0, mental := [], wisdom := 0 }

/-- The default rosters with a ceiling of 50 loop iterations. -/
def exampleEnv : Env :=
  { teamA := defaultTeamA, teamB := defaultTeamB, maxRallyCount := 50, blank := blankPlayer }

/-- The rotation 0,1,2,3,6,5: the identity order with the libero (6) in place of
the middle blocker at index 4. -/
def exampleRotation : Rotation := fun i =>
  match i.val with
  | 0 => 0
  | 1 => 1
  | 2 => 2
  | 3 => 3
  | 4 => 6
  | _ => 5

/-- A match state at 0-0 in set 1 with the given serve side and all counters 0. -/
def exampleGame (serveSide : Int) : GameState :=
  { scoreA := 0, scoreB := 0, setNum := 1, serveSide := serveSide,
    rotateA := exampleRotation, rotateB := exampleRotation,
    faultA := fun _ => 0, faultB := fun _ => 0, scoredA := fun _ => 0, scoredB := fun _ => 0,
    liberoReplaceA := some 4, liberoReplaceB := some 4 }

/-- Simulators that return the same outcome at every call and do not use the
random source; `rand()` returns `rnd`. -/
def constSim (sv : ServeResult) (rc : ReceiveResult) (ps : PassResult) (dump : SpikeResult)
    (sp : SpikeResult) (bl : BlockResultInfo) (dbb : DefenseResult) (dsp : DefenseResult)
    (rnd : Nat) : Simulators Unit :=
  { serve := fun r _ _ => (sv, r)
    receive := fun r _ _ _ => (rc, r)
    simulateSet := fun r _ _ _ _ => (ps, r)
    createSetterDumpResult := fun r _ _ => (dump, r)
    simulateSpike := fun r _ _ _ _ => (sp, r)
    simulateBlock := fun r _ _ _ _ => (bl, r)
    simulateDefenseAgainstBlockBack := fun r _ _ _ _ => (dbb, r)
    simulateDefenseAgainstSpike := fun r _ _ _ _ _ => (dsp, r)
    rand := fun r => (rnd, r) }

/-- A successful stable serve of effectiveness 50. -/
def serveIn : ServeResult := ⟨true, .STABLE_SERVE, 50⟩

/-- A failed serve. -/
def serveOut : ServeResult := ⟨false, .AGGRESSIVE_SERVE, 0⟩

/-- A Good reception of value 70 by B1. -/
def receiveGood : ReceiveResult := ⟨.RECEIVE_GOOD, 70, makeP "B1" "OH", 0, "到位"⟩

/-- A reception Fault by B1. -/
def receiveFault : ReceiveResult := ⟨.RECEIVE_FAULT, 0, makeP "B1" "OH", 0, "接飞"⟩

/-- A good set to the front spiker B4, not a dump. -/
def setGood : PassResult := ⟨.FRONT_SPIKER, .GOOD_PASS, makeP "B4" "OH", false, 0, 75, "好球"⟩

/-- A poor set to the front spiker B4, not a dump. -/
def setPoor : PassResult := ⟨.FRONT_SPIKER, .POOR_PASS, makeP "B4" "OH", false, 0, 10, "失误"⟩

/-- A setter dump of effectiveness 40. -/
def setDump : PassResult := ⟨.SETTER_DUMP, .GOOD_PASS, makeP "B2" "S", true, 40, 60, "二次"⟩

/-- A Strong attack of power 80 by B4, no error. -/
def spikeStrong : SpikeResult := ⟨makeP "B4" "OH", .STRONG_ATTACK, 80, 1, false, false, false, "强攻"⟩

/-- An attack error by B4. -/
def spikeError : SpikeResult := ⟨makeP "B4" "OH", .STRONG_ATTACK, 80, 1, true, true, false, "出界"⟩

/-- A setter dump by B2 of power 40, no error. -/
def dumpIn : SpikeResult := ⟨makeP "B2" "S", .SETTER_SPIKE, 40, 1, false, false, true, "二次进攻"⟩

/-- A setter dump error by B2. -/
def dumpError : SpikeResult := ⟨makeP "B2" "S", .SETTER_SPIKE, 40, 1, true, false, true, "二次失误"⟩

/-- A block outcome with the given result, increased power 90, reduced power 60
and block-back power 50. -/
def blockOf (r : BlockResult) : BlockResultInfo := ⟨r, 55, 1, 90, 60, 50, "拦网"⟩

/-- A defense outcome of the given tier and value 65 by A6. -/
def defenseOf (q : DefenseQuality) : DefenseResult := ⟨q, 65, makeP "A6" "OP", "防守"⟩

/-- Constant simulators for a rally that ends with a Fault of the defense
against a direct attack. -/
def simDefenseFault : Simulators Unit :=
  constSim serveIn receiveGood setGood dumpIn spikeStrong (blockOf .NO_TOUCH)
    (defenseOf .DEFENSE_GOOD) (defenseOf .DEFENSE_FAULT) 0

/-- Constant simulators for a rally in which every iteration loops back. -/
def simLoopBack : Simulators Unit :=
  constSim serveIn receiveGood setGood dumpIn spikeStrong (blockOf .NO_TOUCH)
    (defenseOf .DEFENSE_GOOD) (defenseOf .DEFENSE_GOOD) 0

/-- Constant simulators for a rally that ends with a Fault of the defense
against a block-back ball. -/
def simBlockBackFault : Simulators Unit :=
  constSim serveIn receiveGood setGood dumpIn spikeStrong (blockOf .BLOCK_BACK)
    (defenseOf .DEFENSE_FAULT) (defenseOf .DEFENSE_GOOD) 0

/-- Constant simulators for a failed serve. -/
def simServeFault : Simulators Unit :=
  constSim serveOut receiveGood setGood dumpIn spikeStrong (blockOf .NO_TOUCH)
    (defenseOf .DEFENSE_GOOD) (defenseOf .DEFENSE_GOOD) 0

/-- Constant simulators for a reception Fault. -/
def simReceiveFault : Simulators Unit :=
  constSim serveIn receiveFault setGood dumpIn spikeStrong (blockOf .NO_TOUCH)
    (defenseOf .DEFENSE_GOOD) (defenseOf .DEFENSE_GOOD) 0

/-- Constant simulators for a poor set that is not a dump. -/
def simSetFault : Simulators Unit :=
  constSim serveIn receiveGood setPoor dumpIn spikeStrong (blockOf .NO_TOUCH)
    (defenseOf .DEFENSE_GOOD) (defenseOf .DEFENSE_GOOD) 0

/-- Constant simulators for a setter dump that is an error. -/
def simDumpError : Simulators Unit :=
  constSim serveIn receiveGood setDump dumpError spikeStrong (blockOf .NO_TOUCH)
    (defenseOf .DEFENSE_GOOD) (defenseOf .DEFENSE_GOOD) 0

/-- Constant simulators for a spike that is an error. -/
def simSpikeError : Simulators Unit :=
  constSim serveIn receiveGood setGood dumpIn spikeError (blockOf .NO_TOUCH)
    (defenseOf .DEFENSE_GOOD) (defenseOf .DEFENSE_GOOD) 0

/-- The loop state after team A served and B1 received: team B (1) attacks. -/
def exampleLoopState : LoopState Unit :=
  { currentAttackingTeam := 1, currentDefendingTeam := 0, currentReceiveResult := receiveGood,
    rng := (), trace := [] }

/-- The value of `spikeResult` after the switch on the block result (game.cpp
476-526): `spikePower` is overwritten after BLOCK_BREAK, LIMIT_PATH and
BLOCK_TOUCH and kept after NO_TOUCH. -/
def blockedSpike (sp : SpikeResult) (b : BlockResultInfo) : SpikeResult :=
  match b.result with
  | .BLOCK_BACK => sp
  | .BLOCK_BREAK => { sp with spikePower := b.increasedSpikePower }
  | .LIMIT_PATH => { sp with spikePower := b.reducedSpikePower }
  | .BLOCK_TOUCH => { sp with spikePower := b.reducedSpikePower }
  | .NO_TOUCH => sp

/-- Whether a simulator call is one of the two Defense entries. -/
def PhaseCall.isDefense : PhaseCall → Bool
  | .defenseBlockBack _ _ _ _ => true
  | .defenseSpike _ _ _ _ _ => true
  | _ => false

/-- Constant simulators for a setter dump without error, followed by a Fault of
the defense against it. -/
def simDumpDefenseFault : Simulators Unit :=
  constSim serveIn receiveGood setDump dumpIn spikeStrong (blockOf .NO_TOUCH)
    (defenseOf .DEFENSE_GOOD) (defenseOf .DEFENSE_FAULT) 0

/-- Whether a simulator call is a Set phase (`Setter::simulateSet`). -/
def PhaseCall.isSet : PhaseCall → Bool
  | .set _ _ _ _ => true
  | _ => false

/-- The number of Set phases among the simulator calls made. -/
def setCount (trace : List PhaseCall) : Nat :=
  trace.countP PhaseCall.isSet

/-- Constant simulators for a block that breaks, followed by a Fault of the
defense. -/
def simBlockBreak : Simulators Unit :=
  constSim serveIn receiveGood setGood dumpIn spikeStrong (blockOf .BLOCK_BREAK)
    (defenseOf .DEFENSE_GOOD) (defenseOf .DEFENSE_FAULT) 0

/-! ## The set controller -/

/-- The rotation after the shift of `rotateTeam` (game.cpp 24-28): the entries
at indices 1..5 move to 0..4 and the old entry 0 becomes entry 5. -/
def shiftRotation (r : Rotation) : Rotation :=
  fun i => if h : i.val < 5 then r ⟨i.val + 1, by omega⟩ else r 0

/-- The array `r` after `r[i] = v`. -/
def Rotation.write (r : Rotation) (i : Fin 6) (v : Int) : Rotation :=
  fun j => if j = i then v else r j

/-- One branch of `rotateTeam` (game.cpp 24-32 for team A, 34-42 for team B): the
shift, then the entry at index 3 is overwritten with `liberoReplace` when its
player has position "L". Reading a `liberoReplace` that was never assigned is
reported as an error. -/
def rotateRotation (team : Roster) (r : Rotation) (liberoReplace : Option Int) :
    Except Undefined Rotation :=
  let shifted := shiftRotation r
  match team.at (shifted 3) with
  | .error e => .error e
  | .ok p =>
    if p.position = "L" then
      match liberoReplace with
      | none => .error .indeterminateRead
      | some m => .ok (shifted.write 3 m)
    else .ok shifted

/-- The function `rotateTeam` (game.cpp 22-44). -/
def rotateTeam (env : Env) (game : GameState) (teamID : Int) : Except Undefined GameState :=
  if teamID = 0 then
    match rotateRotation env.teamA game.rotateA game.liberoReplaceA with
    | .error e => .error e
    | .ok r => .ok { game with rotateA := r }
  else
    match rotateRotation env.teamB game.rotateB game.liberoReplaceB with
    | .error e => .error e
    | .ok r => .ok { game with rotateB := r }

/-- The server of the next rally, `(serveSide == 0) ? teamA[rotateA[0]] :
teamB[rotateB[0]]` (game.cpp 612-617, gameDisplay.cpp 920-922). -/
def currentServer (env : Env) (game : GameState) : Except Undefined Player :=
  (env.rosterOf game.serveSide).at (game.rotationOf game.serveSide 0)

/-- The libero substitution of the team that lost serve (game.cpp 648-651 for
team B, 665-668 for team A; gameDisplay.cpp 955-958, 970-973): when the player
who served has position "MB", `liberoReplace` takes the entry at rotation index
0 and that entry becomes 6. -/
def liberoIn (server : Player) (game : GameState) (team : Int) : GameState :=
  if server.position = "MB" then
    if team = 0 then
      { game with liberoReplaceA := some (game.rotateA 0), rotateA := game.rotateA.write 0 6 }
    else
      { game with liberoReplaceB := some (game.rotateB 0), rotateB := game.rotateB.write 0 6 }
  else game

/-- The update after a rally, the same statements in the loop body of `playSet`
(game.cpp 636-670) and in `GameDisplay::simulateRound` (gameDisplay.cpp
944-975); `server` is the server of the rally and `scorer` its winner. -/
def updateAfterRally (env : Env) (server : Player) (game : GameState) (scorer : Int) :
    Except Undefined GameState :=
  if scorer = 0 then
    let g1 := { game with scoreA := game.scoreA + 1 }
    if g1.serveSide = 0 then .ok g1
    else
      match rotateTeam env g1 0 with
      | .error e => .error e
      | .ok g2 => .ok (liberoIn server { g2 with serveSide := 0 } 1)
  else
    let g1 := { game with scoreB := game.scoreB + 1 }
    if g1.serveSide = 1 then .ok g1
    else
      match rotateTeam env g1 1 with
      | .error e => .error e
      | .ok g2 => .ok (liberoIn server { g2 with serveSide := 1 } 0)

/-- The updates after a sequence of rallies with the given winners, each with
the server of its rally. -/
def updatesAfter (env : Env) : GameState → List Int → Except Undefined GameState
  | game, [] => .ok game
  | game, scorer :: rest =>
    match currentServer env game with
    | .error e => .error e
    | .ok server =>
      match updateAfterRally env server game scorer with
      | .error e => .error e
      | .ok game1 => updatesAfter env game1 rest

/-- The set-end test `(scoreA >= target || scoreB >= target) && abs(scoreA -
scoreB) >= 2` of `playSet` (game.cpp 601) and `GameDisplay::simulateRound`
(gameDisplay.cpp 985). -/
def setEnds (target scoreA scoreB : Int) : Bool :=
  (decide (scoreA ≥ target) || decide (scoreB ≥ target)) && decide (|scoreA - scoreB| ≥ 2)

/-- The function `GameDisplay::currentSetTarget` (gameDisplay.cpp 1142-1144). -/
def currentSetTarget (game : GameState) : Int :=
  if game.setNum = 3 then 15 else 25

/-- The set-end test of `GameDisplay::simulateRound` (gameDisplay.cpp 984-985). -/
def simulateRoundSetEnds (game : GameState) : Bool :=
  setEnds (currentSetTarget game) game.scoreA game.scoreB

/-- The set number and the target of the three `playSet` calls of `newGame`
(game.cpp 734-735, 751-754, 758-773). -/
def newGameSets : List (Int × Int) := [(1, 25), (2, 25), (3, 15)]

/-- The reads `teamA[game.rotateA[i]]` and `teamB[game.rotateB[i]]` of all twelve
rotation entries with which `playSet` prints the lineup (game.cpp 623-629). -/
def printLineup (game : GameState) : Except Undefined Unit :=
  if game.rotateA.Valid ∧ game.rotateB.Valid then .ok () else .error .indexOutOfBounds

/-- What `playSet` returns: the winner of the set, with the match state and the
random source at that point. -/
structure SetResult (R : Type) where
  winner : Int
  game : GameState
  rng : R

/-- The `while(true)` loop of `playSet` (game.cpp 599-675). The first argument
bounds the number of rallies played; `none` means the loop is still running
after that many rallies. -/
def playSetLoop {R : Type} (env : Env) (sim : Simulators R) (target : Int) :
    Nat → GameState → R → Except Undefined (Option (SetResult R))
  | 0, game, rng =>
    if setEnds target game.scoreA game.scoreB = true then
      .ok (some ⟨if game.scoreA > game.scoreB then 0 else 1, game, rng⟩)
    else .ok none
  | n + 1, game, rng =>
    if setEnds target game.scoreA game.scoreB = true then
      .ok (some ⟨if game.scoreA > game.scoreB then 0 else 1, game, rng⟩)
    else
      match currentServer env game with
      | .error e => .error e
      | .ok server =>
        match printLineup game with
        | .error e => .error e
        | .ok _ =>
          match processRallyFromServe env sim game rng with
          | .error e => .error e
          | .ok res =>
            match updateAfterRally env server res.game res.winner with
            | .error e => .error e
            | .ok game1 => playSetLoop env sim target n game1 res.rng

/-- The function `playSet` (game.cpp 588-676), run for at most `rallies`
rallies. -/
def playSet {R : Type} (env : Env) (sim : Simulators R) (target : Int) (game : GameState)
    (rng : R) (rallies : Nat) : Except Undefined (Option (SetResult R)) :=
  playSetLoop env sim target rallies { game with scoreA := 0, scoreB := 0 } rng

/-- The expression `(team == 0) ? game.scoreA : game.scoreB`. -/
def GameState.scoreOf (g : GameState) (team : Int) : Int :=
  if team = 0 then g.scoreA else g.scoreB

/-- The expression `(team == 0) ? game.liberoReplaceA : game.liberoReplaceB`. -/
def GameState.liberoReplaceOf (g : GameState) (team : Int) : Option Int :=
  if team = 0 then g.liberoReplaceA else g.liberoReplaceB

/-- The match state with the rotation of the given team replaced: `rotateA` for
team 0, `rotateB` otherwise. -/
def GameState.withRotation (g : GameState) (team : Int) (r : Rotation) : GameState :=
  if team = 0 then { g with rotateA := r } else { g with rotateB := r }

/-- The rotation 6,5,0,1,6,3 that team A of the default rosters has after eight
rallies won in turn by A and B, starting with team B serving. The libero is
at index 0 for the middle blocker 4 and still at index 4 for the middle
blocker 2. -/
def twoLiberoRotation : Rotation := fun i =>
  match i.val with
  | 0 => 6
  | 1 => 5
  | 2 => 0
  | 3 => 1
  | 4 => 6
  | _ => 3

/-- A state of the default rosters in which team A serves with the middle
blocker A3 (roster index 2) at rotation index 0. -/
def mbServerGame : GameState :=
  { exampleGame 0 with
    rotateA := fun i =>
      match i.val with
      | 0 => 2
      | 1 => 3
      | 2 => 4
      | 3 => 5
      | 4 => 0
      | _ => 1 }

/-! ## Set starts and the match controller -/

/-- The rotation after the loop `for (i = 0; i < 6; i++) rotate[i] = i` (game.cpp
689-692, 745-748, 768-771; gameDisplay.cpp 1099, 1128). -/
def identityRotation : Rotation := fun i => (i.val : Int)

/-- One statement `if (team[rotate[i]].position == "MB" && cond) { liberoReplace =
rotate[i]; rotate[i] = 6; }` of the libero initialisation (game.cpp 695-719,
gameDisplay.cpp 1102-1108, 1130-1136), on the pair of a team's rotation and
its `liberoReplace`. -/
def liberoInit (team : Roster) (cond : Bool) (i : Fin 6) (s : Rotation × Option Int) :
    Except Undefined (Rotation × Option Int) :=
  match team.at (s.1 i) with
  | .error e => .error e
  | .ok p =>
    if p.position = "MB" ∧ cond = true then .ok (s.1.write i 6, some (s.1 i)) else .ok s

/-- The three statements of the libero initialisation of one team, in the order
of the source: rotation index 5, index 4, and index 0 with the extra condition
`serveSide != team`. -/
def liberoSetup (team : Roster) (notServing : Bool) (s : Rotation × Option Int) :
    Except Undefined (Rotation × Option Int) :=
  match liberoInit team true 5 s with
  | .error e => .error e
  | .ok s5 =>
    match liberoInit team true 4 s5 with
    | .error e => .error e
    | .ok s4 => liberoInit team notServing 0 s4

/-- The identity loops followed by the six statements of the libero
initialisation, as they stand in `newGame` before set 1 (game.cpp 688-719), in
`GameDisplay::initMatchState` (gameDisplay.cpp 1099-1108) and in
`GameDisplay::nextSet` (gameDisplay.cpp 1128-1136). `serveSide` has been set
before. -/
def startRotations (env : Env) (game : GameState) : Except Undefined GameState :=
  match liberoSetup env.teamA (decide (game.serveSide ≠ 0))
      (identityRotation, game.liberoReplaceA) with
  | .error e => .error e
  | .ok a =>
    match liberoSetup env.teamB (decide (game.serveSide ≠ 1))
        (identityRotation, game.liberoReplaceB) with
    | .error e => .error e
    | .ok b =>
      .ok { game with
        rotateA := a.1, liberoReplaceA := a.2, rotateB := b.1, liberoReplaceB := b.2 }

/-- The part of `newGame` before the first `playSet` (game.cpp 679-734): the
local `game` gets `serveSide = rand() % 2`, the start rotations and `setNum =
1`. `rnd` is the value `rand()` returned; the rosters of `env` are the ones
`inputPlayer()` has read. -/
def newGameSet1 (env : Env) (game : GameState) (rnd : Nat) : Except Undefined GameState :=
  match startRotations env { game with serveSide := (rnd : Int) % 2 } with
  | .error e => .error e
  | .ok g => .ok { g with setNum := 1 }

/-- The part of `newGame` between the first and the second `playSet` (game.cpp
743-753): the identity loops, `setNum = 2` and `serveSide = 1 - serveSide`. -/
def newGameSet2 (game : GameState) : GameState :=
  { game with
    rotateA := identityRotation, rotateB := identityRotation, setNum := 2,
    serveSide := 1 - game.serveSide }

/-- The part of `newGame` between the second and the third `playSet` (game.cpp
757-771): `setNum = 3`, `serveSide = rand() % 2` and the identity loops. -/
def newGameSet3 (game : GameState) (rnd : Nat) : GameState :=
  { game with
    setNum := 3, serveSide := (rnd : Int) % 2, rotateA := identityRotation,
    rotateB := identityRotation }

/-- The members of `GameDisplay` that the match controller reads and writes
(gameDisplay.h 175-182): the match state, the sets won and `matchOver`. -/
structure DisplayState where
  gameState : GameState
  setsWonA : Int
  setsWonB : Int
  matchOver : Bool

/-- The function `GameDisplay::initMatchState` (gameDisplay.cpp 1086-1113). -/
def initMatchState {R : Type} (env : Env) (sim : Simulators R) (d : DisplayState) (rng : R) :
    Except Undefined (DisplayState × R) :=
  let v := sim.rand rng
  let g : GameState := { d.gameState with
    serveSide := (v.1 : Int) % 2, setNum := 1, scoreA := 0, scoreB := 0 }
  match startRotations env g with
  | .error e => .error e
  | .ok g1 => .ok ({ gameState := g1, setsWonA := 0, setsWonB := 0, matchOver := false }, v.2)

/-- The function `GameDisplay::nextSet` (gameDisplay.cpp 1115-1140). -/
def nextSet {R : Type} (env : Env) (sim : Simulators R) (d : DisplayState) (rng : R) :
    Except Undefined (DisplayState × R) :=
  let g : GameState := { d.gameState with scoreA := 0, scoreB := 0 }
  if g.setNum = 1 then
    match startRotations env { g with setNum := 2, serveSide := 1 - g.serveSide } with
    | .error e => .error e
    | .ok g1 => .ok ({ d with gameState := g1 }, rng)
  else
    let v := sim.rand rng
    match startRotations env { g with setNum := 3, serveSide := (v.1 : Int) % 2 } with
    | .error e => .error e
    | .ok g1 => .ok ({ d with gameState := g1 }, v.2)

/-- The block that `GameDisplay::simulateRound` runs when the set-end test holds
(gameDisplay.cpp 986-1003): the set is counted for the side with the higher
score, and either the match is over or `nextSet` runs. -/
def finishSet {R : Type} (env : Env) (sim : Simulators R) (d : DisplayState) (rng : R) :
    Except Undefined (DisplayState × R) :=
  let d1 : DisplayState :=
    if d.gameState.scoreA > d.gameState.scoreB then { d with setsWonA := d.setsWonA + 1 }
    else { d with setsWonB := d.setsWonB + 1 }
  if d1.setsWonA = 2 ∨ d1.setsWonB = 2 ∨ d1.gameState.setNum ≥ 3 then
    .ok ({ d1 with matchOver := true }, rng)
  else nextSet env sim d1 rng

/-- The function `GameDisplay::simulateRound` (gameDisplay.cpp 911-1010): nothing
when the match is over; otherwise one rally, the update after it, and the
set-end test with the block that follows it. -/
def simulateRound {R : Type} (env : Env) (sim : Simulators R) (d : DisplayState) (rng : R) :
    Except Undefined (DisplayState × R) :=
  if d.matchOver = true then .ok (d, rng)
  else
    match currentServer env d.gameState with
    | .error e => .error e
    | .ok server =>
      match processRallyFromServe env sim d.gameState rng with
      | .error e => .error e
      | .ok res =>
        match updateAfterRally env server res.game res.winner with
        | .error e => .error e
        | .ok g1 =>
          if simulateRoundSetEnds g1 = true then
            finishSet env sim { d with gameState := g1 } res.rng
          else .ok ({ d with gameState := g1 }, res.rng)

/-- The match state after `n` calls of `GameDisplay::simulateRound`. -/
def simulateRounds {R : Type} (env : Env) (sim : Simulators R) :
    Nat → DisplayState → R → Except Undefined (DisplayState × R)
  | 0, d, rng => .ok (d, rng)
  | n + 1, d, rng =>
    match simulateRound env sim d rng with
    | .error e => .error e
    | .ok s => simulateRounds env sim n s.1 s.2

/-- Index 6 holds the only player of the roster with position "L". -/
def Roster.OnlyLiberoAtSix (team : Roster) : Prop :=
  (team 6).position = "L" ∧ ∀ k : Fin 7, k ≠ 6 → (team k).position ≠ "L"

instance (team : Roster) : Decidable team.OnlyLiberoAtSix := by
  unfold Roster.OnlyLiberoAtSix; infer_instance

/-- A `GameDisplay` whose match state is the one the constructor leaves
(gameDisplay.cpp 36-48) with `liberoReplaceA` and `liberoReplaceB` never
assigned, and the counters at 0. -/
def freshDisplay : DisplayState :=
  { gameState :=
      { scoreA := 0, scoreB := 0, setNum := 1, serveSide := 0,
        rotateA := identityRotation, rotateB := identityRotation,
        faultA := fun _ => 0, faultB := fun _ => 0, scoredA := fun _ => 0,
        scoredB := fun _ => 0, liberoReplaceA := none, liberoReplaceB := none },
    setsWonA := 0, setsWonB := 0, matchOver := false }

/-- Simulators with which team A wins every rally: a serve of team A is an ace,
a serve of team B fails; `rand()` returns `rnd`. -/
def simTeamAWins (rnd : Nat) : Simulators Unit :=
  { constSim serveIn receiveFault setGood dumpIn spikeStrong (blockOf .NO_TOUCH)
      (defenseOf .DEFENSE_GOOD) (defenseOf .DEFENSE_GOOD) rnd with
    serve := fun r _ g => (if g.serveSide = 0 then serveIn else serveOut, r) }

/-- Simulators with which every serve fails, so that the receiving team wins
every rally; `rand()` returns `rnd`. -/
def simServerLoses (rnd : Nat) : Simulators Unit :=
  constSim serveOut receiveGood setGood dumpIn spikeStrong (blockOf .NO_TOUCH)
    (defenseOf .DEFENSE_GOOD) (defenseOf .DEFENSE_GOOD) rnd

/-- Every entry of the rotation is a roster index in [0,6], and when the entry 6
occurs `liberoReplace` has been assigned a roster index in [0,5]. -/
def RotationSafe (r : Rotation) (lr : Option Int) : Prop :=
  r.Valid ∧ ((∃ i, r i = 6) → ∃ m ∈ lr, 0 ≤ m ∧ m < 6)

instance (r : Rotation) (lr : Option Int) : Decidable (RotationSafe r lr) := by
  unfold RotationSafe; infer_instance

/-- Both rotations of the match state are safe, each with the `liberoReplace`
of its team. -/
def GameState.Safe (g : GameState) : Prop :=
  RotationSafe g.rotateA g.liberoReplaceA ∧ RotationSafe g.rotateB g.liberoReplaceB

instance (g : GameState) : Decidable g.Safe := by
  unfold GameState.Safe; infer_instance

/-- No player with position "MB" stands at rotation index 4 or 5, nor at index 0
unless the team serves. -/
def BackRowFree (team : Roster) (r : Rotation) (serving : Prop) : Prop :=
  (team.player (r 4)).position ≠ "MB" ∧ (team.player (r 5)).position ≠ "MB" ∧
  (¬ serving → (team.player (r 0)).position ≠ "MB")

instance (team : Roster) (r : Rotation) (serving : Prop) [Decidable serving] :
    Decidable (BackRowFree team r serving) := by
  unfold BackRowFree; infer_instance

/-- Neither team has a middle blocker at a back-row index 4 or 5, nor at index 0
unless it is the serving side. -/
def Env.NoBackRowMB (env : Env) (g : GameState) : Prop :=
  BackRowFree env.teamA g.rotateA (g.serveSide = 0) ∧
  BackRowFree env.teamB g.rotateB (g.serveSide = 1)

instance (env : Env) (g : GameState) : Decidable (env.NoBackRowMB g) := by
  unfold Env.NoBackRowMB; infer_instance

/-- The rotation `r` and the `liberoReplace` value `lr` of a team at the start
of a set, for a roster `team`, the value `lr0` of `liberoReplace` before, and
whether the team is the serving side: the identity order, except that the
entries at indices 5 and 4 are 6 when their player has position "MB" and the
entry at index 0 is 6 exactly when its player has position "MB" and the team
does not serve; `lr` is the roster index of the last entry replaced, in the
order 5, 4, 0, and `lr0` when none was. -/
def StartsSet (team : Roster) (serving : Prop) [Decidable serving] (r : Rotation)
    (lr lr0 : Option Int) : Prop :=
  r 1 = 1 ∧ r 2 = 2 ∧ r 3 = 3 ∧
  r 5 = (if (team.player 5).position = "MB" then 6 else 5) ∧
  r 4 = (if (team.player 4).position = "MB" then 6 else 4) ∧
  r 0 = (if (team.player 0).position = "MB" ∧ ¬ serving then 6 else 0) ∧
  lr = (if (team.player 0).position = "MB" ∧ ¬ serving then some 0
    else if (team.player 4).position = "MB" then some 4
    else if (team.player 5).position = "MB" then some 5 else lr0)

instance (team : Roster) (serving : Prop) [Decidable serving] (r : Rotation)
    (lr lr0 : Option Int) : Decidable (StartsSet team serving r lr lr0) := by
  unfold StartsSet; infer_instance

/-- The course of a best-of-three match as `GameDisplay` records it: the scores
are not negative and the serve side is 0 or 1, and either the match is running
with the current set unfinished, in set 1 at 0-0 sets, in set 2 at 1-0 or 0-1
with the loser of set 1 serving at 0-0 points, or in set 3 at 1-1; or the match
is over with the last set finished, at 2-0 or 0-2 in set 2 or at 2-1 or 1-2 in
set 3. -/
def MatchInv (d : DisplayState) : Prop :=
  0 ≤ d.gameState.scoreA ∧ 0 ≤ d.gameState.scoreB ∧
  (d.gameState.serveSide = 0 ∨ d.gameState.serveSide = 1) ∧
  ((d.matchOver = false ∧ simulateRoundSetEnds d.gameState = false ∧
      ((d.gameState.setNum = 1 ∧ d.setsWonA = 0 ∧ d.setsWonB = 0) ∨
        (d.gameState.setNum = 2 ∧ d.setsWonA = 1 ∧ d.setsWonB = 0 ∧
          (d.gameState.scoreA = 0 → d.gameState.scoreB = 0 → d.gameState.serveSide = 1)) ∨
        (d.gameState.setNum = 2 ∧ d.setsWonA = 0 ∧ d.setsWonB = 1 ∧
          (d.gameState.scoreA = 0 → d.gameState.scoreB = 0 → d.gameState.serveSide = 0)) ∨
        (d.gameState.setNum = 3 ∧ d.setsWonA = 1 ∧ d.setsWonB = 1))) ∨
    (d.matchOver = true ∧ simulateRoundSetEnds d.gameState = true ∧
      ((d.gameState.setNum = 2 ∧
          ((d.setsWonA = 2 ∧ d.setsWonB = 0) ∨ (d.setsWonA = 0 ∧ d.setsWonB = 2))) ∨
        (d.gameState.setNum = 3 ∧
          ((d.setsWonA = 2 ∧ d.setsWonB = 1) ∨ (d.setsWonA = 1 ∧ d.setsWonB = 2))))))

instance (d : DisplayState) : Decidable (MatchInv d) := by
  unfold MatchInv; infer_instance

/-- The default roster of team A with A2, its only Setter, entered with position
"OP": no player of the roster has the Setter position. -/
def noSetterTeam : Roster := fun i =>
  match i.val with
  | 1 => makeP "A2" "OP"
  | _ => defaultTeamA i

/-- The default rosters with `noSetterTeam` as team A. -/
def noSetterEnv : Env := { exampleEnv with teamA := noSetterTeam }

/-- A good set to the given target player, not a dump. -/
def setGoodTo (p : Player) : PassResult := { setGood with targetPlayer := p }

/-- An attack error of the given attacker. -/
def spikeErrorBy (p : Player) : SpikeResult := { spikeError with attacker := p }

/-- Constant simulators for a good set to the player `p` whose spike is an
error. -/
def simSpikeErrorBy (p : Player) : Simulators Unit :=
  constSim serveIn receiveGood (setGoodTo p) dumpIn (spikeErrorBy p) (blockOf .NO_TOUCH)
    (defenseOf .DEFENSE_GOOD) (defenseOf .DEFENSE_GOOD) 0

/-- The outside hitter at roster index 3 of `namesakeTeam`: the name "B1" of the
player at roster index 0, spike 90. -/
def namesakeHitter : Player := { makeP "B1" "OH" with spike := 90 }

/-- The default roster of team B with the player at roster index 3 replaced by
`namesakeHitter`, who has the same name as the player at roster index 0. -/
def namesakeTeam : Roster := fun i =>
  match i.val with
  | 3 => namesakeHitter
  | _ => defaultTeamB i

/-- The default rosters with `namesakeTeam` as team B. -/
def namesakeEnv : Env := { exampleEnv with teamB := namesakeTeam }

/-! # Theorems -/

/-! ## Array access and the scans -/

theorem Roster.at_of_range (team : Roster) (k : Int) (h0 : 0 ≤ k) (h7 : k < 7) :
    team.at k = .ok (team.player k) := by
  simp [Roster.at, h0, h7]

theorem incrFault_of_range (g : GameState) (team k : Int) (h0 : 0 ≤ k) (h7 : k < 7) :
    g.incrFault team k = .ok (g.creditFault team k) := by
  simp [GameState.incrFault, h0, h7]

theorem incrScored_of_range (g : GameState) (team k : Int) (h0 : 0 ≤ k) (h7 : k < 7) :
    g.incrScored team k = .ok (g.creditScored team k) := by
  simp [GameState.incrScored, h0, h7]

theorem scanSetter_cons (team : Roster) (r : Rotation) (blank : Player) (i : Fin 6)
    (rest : List (Fin 6)) (hv : r.Valid) :
    scanSetter team r blank (i :: rest) =
      if (team.player (r i)).isSetter = true then .ok (team.player (r i), r i)
      else scanSetter team r blank rest := by
  simp [scanSetter, Roster.at_of_range team (r i) (hv i).1 (hv i).2]

theorem scanAttacker_cons (team : Roster) (r : Rotation) (name : String) (i : Fin 6)
    (rest : List (Fin 6)) (hv : r.Valid) :
    scanAttacker team r name (i :: rest) =
      if name = (team.player (r i)).name then .ok (r i)
      else scanAttacker team r name rest := by
  simp [scanAttacker, Roster.at_of_range team (r i) (hv i).1 (hv i).2]

theorem scanSetter_first (team : Roster) (r : Rotation) (blank : Player) (j : Fin 6)
    (hv : r.Valid) (h : FirstSetterSlot team r j) :
    scanSetter team r blank slots = .ok (team.player (r j), r j) := by
  obtain ⟨hj, hlt⟩ := h
  have h0 := hlt 0
  have h1 := hlt 1
  have h2 := hlt 2
  have h3 := hlt 3
  have h4 := hlt 4
  fin_cases j <;>
    simp [slots, scanSetter_cons, hv] at * <;> simp_all

theorem scanSetter_none (team : Roster) (r : Rotation) (blank : Player)
    (hv : r.Valid) (h : ∀ i : Fin 6, (team.player (r i)).isSetter = false) :
    scanSetter team r blank slots = .ok (blank, -1) := by
  simp only [slots, scanSetter_cons team r blank _ _ hv, h]
  simp [scanSetter]

theorem scanSetter_total (team : Roster) (r : Rotation) (blank : Player) (hv : r.Valid)
    (l : List (Fin 6)) : ∃ s, scanSetter team r blank l = .ok s := by
  induction l with
  | nil => exact ⟨_, rfl⟩
  | cons i rest ih =>
    rw [scanSetter_cons team r blank i rest hv]
    split
    · exact ⟨_, rfl⟩
    · exact ih

theorem scanAttacker_first (team : Roster) (r : Rotation) (name : String) (j : Fin 6)
    (hv : r.Valid) (h : FirstNamedSlot team r name j) :
    scanAttacker team r name slots = .ok (r j) := by
  obtain ⟨hj, hlt⟩ := h
  have h0 := hlt 0
  have h1 := hlt 1
  have h2 := hlt 2
  have h3 := hlt 3
  have h4 := hlt 4
  fin_cases j <;>
    simp [slots, scanAttacker_cons, hv] at * <;> simp_all [eq_comm]

theorem scanAttacker_range (team : Roster) (r : Rotation) (name : String) (hv : r.Valid)
    (l : List (Fin 6)) : ∃ a, scanAttacker team r name l = .ok a ∧ 0 ≤ a ∧ a < 7 := by
  induction l with
  | nil => exact ⟨0, rfl, by decide, by decide⟩
  | cons i rest ih =>
    rw [scanAttacker_cons team r name i rest hv]
    split
    · exact ⟨_, rfl, (hv i).1, (hv i).2⟩
    · exact ih

/-! ## One loop iteration -/

theorem defendBlockBack_done {R : Type} (sim : Simulators R) (game : GameState)
    (att dfd : Int) (b : BlockResultInfo) (rng : R) (tr : List PhaseCall) (res : RallyResult R)
    (h : defendBlockBack sim game att dfd b rng tr = .ok (.done res)) :
    res.winner = dfd ∧ res.game = game ∧ res.ending = .blockBackDefenseFault := by
  unfold defendBlockBack at h
  simp only at h
  split at h
  · cases h; exact ⟨rfl, rfl, rfl⟩
  · cases h

theorem defendBlockBack_next {R : Type} (sim : Simulators R) (game : GameState)
    (att dfd : Int) (b : BlockResultInfo) (rng : R) (tr : List PhaseCall) (ls : LoopState R)
    (h : defendBlockBack sim game att dfd b rng tr = .ok (.next ls)) :
    ls.currentAttackingTeam = att ∧ ls.currentDefendingTeam = dfd := by
  unfold defendBlockBack at h
  simp only at h
  split at h
  · cases h
  · cases h; exact ⟨rfl, rfl⟩

theorem defendSpike_done {R : Type} (sim : Simulators R) (game : GameState)
    (att dfd aid : Int) (sp : SpikeResult) (b : BlockResultInfo) (rng : R)
    (tr : List PhaseCall) (res : RallyResult R)
    (h : defendSpike sim game att dfd aid sp b rng tr = .ok (.done res)) :
    res.winner = att ∧ 0 ≤ aid ∧ aid < 7 ∧ res.game = game.creditScored att aid ∧
      res.ending = .defenseFault := by
  unfold defendSpike at h
  simp only at h
  split at h
  · by_cases hr : 0 ≤ aid ∧ aid < 7
    · rw [incrScored_of_range game att aid hr.1 hr.2] at h
      cases h; exact ⟨rfl, hr.1, hr.2, rfl, rfl⟩
    · simp [GameState.incrScored, hr] at h
  · cases h

theorem defendSpike_next {R : Type} (sim : Simulators R) (game : GameState)
    (att dfd aid : Int) (sp : SpikeResult) (b : BlockResultInfo) (rng : R)
    (tr : List PhaseCall) (ls : LoopState R)
    (h : defendSpike sim game att dfd aid sp b rng tr = .ok (.next ls)) :
    ls.currentAttackingTeam = dfd ∧ ls.currentDefendingTeam = att := by
  unfold defendSpike at h
  simp only at h
  split at h
  · split at h <;> cases h
  · cases h; exact ⟨rfl, rfl⟩

theorem blockPhase_done {R : Type} (sim : Simulators R) (game : GameState)
    (att dfd aid : Int) (sp : SpikeResult) (rng : R) (tr : List PhaseCall)
    (res : RallyResult R) (h : blockPhase sim game att dfd aid sp rng tr = .ok (.done res)) :
    (res.winner = dfd ∧ res.game = game ∧ res.ending = .blockBackDefenseFault) ∨
    (res.winner = att ∧ 0 ≤ aid ∧ aid < 7 ∧ res.game = game.creditScored att aid ∧
      res.ending = .defenseFault) := by
  unfold blockPhase at h
  simp only at h
  split at h
  · exact Or.inl (defendBlockBack_done _ _ _ _ _ _ _ _ h)
  · exact Or.inr (defendSpike_done _ _ _ _ _ _ _ _ _ _ h)
  · exact Or.inr (defendSpike_done _ _ _ _ _ _ _ _ _ _ h)
  · exact Or.inr (defendSpike_done _ _ _ _ _ _ _ _ _ _ h)
  · exact Or.inr (defendSpike_done _ _ _ _ _ _ _ _ _ _ h)

theorem blockPhase_next {R : Type} (sim : Simulators R) (game : GameState)
    (att dfd aid : Int) (sp : SpikeResult) (rng : R) (tr : List PhaseCall)
    (ls : LoopState R) (h : blockPhase sim game att dfd aid sp rng tr = .ok (.next ls)) :
    (ls.currentAttackingTeam = att ∧ ls.currentDefendingTeam = dfd) ∨
    (ls.currentAttackingTeam = dfd ∧ ls.currentDefendingTeam = att) := by
  unfold blockPhase at h
  simp only at h
  split at h
  · exact Or.inl (defendBlockBack_next _ _ _ _ _ _ _ _ h)
  · exact Or.inr (defendSpike_next _ _ _ _ _ _ _ _ _ _ h)
  · exact Or.inr (defendSpike_next _ _ _ _ _ _ _ _ _ _ h)
  · exact Or.inr (defendSpike_next _ _ _ _ _ _ _ _ _ _ h)
  · exact Or.inr (defendSpike_next _ _ _ _ _ _ _ _ _ _ h)

theorem incrFault_ok (g g1 : GameState) (team k : Int) (h : g.incrFault team k = .ok g1) :
    0 ≤ k ∧ k < 7 ∧ g1 = g.creditFault team k := by
  unfold GameState.incrFault at h
  split at h
  · rename_i hr; cases h; exact ⟨hr.1, hr.2, rfl⟩
  · cases h

theorem rallyStep_done {R : Type} (env : Env) (sim : Simulators R) (game : GameState)
    (ls : LoopState R) (res : RallyResult R)
    (h : rallyStep env sim game ls = .ok (.done res)) :
    (res.winner = ls.currentAttackingTeam ∨ res.winner = ls.currentDefendingTeam) ∧
    ((res.ending = .blockBackDefenseFault ∧ res.game = game) ∨
     (res.ending ≠ .blockBackDefenseFault ∧ res.ending ≠ .ceiling ∧ Credited game res.game)) := by
  unfold rallyStep at h
  simp only at h
  split at h
  · cases h
  · split at h
    · split at h
      · cases h
      · rename_i g1 hg
        obtain ⟨h0, h7, rfl⟩ := incrFault_ok _ _ _ _ hg
        cases h
        exact ⟨Or.inr rfl, Or.inr ⟨by simp, by simp, _, _, h0, h7, Or.inl rfl⟩⟩
    · split at h
      · split at h
        · split at h
          · cases h
          · rename_i g1 hg
            obtain ⟨h0, h7, rfl⟩ := incrFault_ok _ _ _ _ hg
            cases h
            exact ⟨Or.inr rfl, Or.inr ⟨by simp, by simp, _, _, h0, h7, Or.inl rfl⟩⟩
        · rcases blockPhase_done _ _ _ _ _ _ _ _ _ h with ⟨hw, hg, he⟩ | ⟨hw, h0, h7, hg, he⟩
          · exact ⟨Or.inr hw, Or.inl ⟨he, hg⟩⟩
          · exact ⟨Or.inl hw, Or.inr ⟨by simp [he], by simp [he], _, _, h0, h7, Or.inr hg⟩⟩
      · split at h
        · cases h
        · split at h
          · split at h
            · cases h
            · rename_i g1 hg
              obtain ⟨h0, h7, rfl⟩ := incrFault_ok _ _ _ _ hg
              cases h
              exact ⟨Or.inr rfl, Or.inr ⟨by simp, by simp, _, _, h0, h7, Or.inl rfl⟩⟩
          · rcases blockPhase_done _ _ _ _ _ _ _ _ _ h with ⟨hw, hg, he⟩ | ⟨hw, h0, h7, hg, he⟩
            · exact ⟨Or.inr hw, Or.inl ⟨he, hg⟩⟩
            · exact ⟨Or.inl hw, Or.inr ⟨by simp [he], by simp [he], _, _, h0, h7, Or.inr hg⟩⟩

theorem rallyStep_next {R : Type} (env : Env) (sim : Simulators R) (game : GameState)
    (ls ls1 : LoopState R) (h : rallyStep env sim game ls = .ok (.next ls1)) :
    (ls1.currentAttackingTeam = ls.currentAttackingTeam ∧
      ls1.currentDefendingTeam = ls.currentDefendingTeam) ∨
    (ls1.currentAttackingTeam = ls.currentDefendingTeam ∧
      ls1.currentDefendingTeam = ls.currentAttackingTeam) := by
  unfold rallyStep at h
  simp only at h
  split at h
  · cases h
  · split at h
    · split at h <;> cases h
    · split at h
      · split at h
        · split at h <;> cases h
        · exact blockPhase_next _ _ _ _ _ _ _ _ _ h
      · split at h
        · cases h
        · split at h
          · split at h <;> cases h
          · exact blockPhase_next _ _ _ _ _ _ _ _ _ h

/-! ## Counters -/

theorem Counters.total_bump (c : Counters) (k : Int) (h0 : 0 ≤ k) (h7 : k < 7) :
    (c.bump k).total = c.total + 1 := by
  interval_cases k <;> simp [Counters.bump, Counters.total] <;> omega

theorem Credited.counterSum {g g1 : GameState} (h : Credited g g1) :
    g1.counterSum = g.counterSum + 1 := by
  obtain ⟨team, k, h0, h7, rfl | rfl⟩ := h
  · unfold GameState.creditFault GameState.counterSum
    split <;> simp only [Counters.total_bump _ k h0 h7] <;> omega
  · unfold GameState.creditScored GameState.counterSum
    split <;> simp only [Counters.total_bump _ k h0 h7] <;> omega

/-! ## The loop -/

theorem rallyLoop_succ {R : Type} (env : Env) (sim : Simulators R) (game : GameState)
    (n : Nat) (ls : LoopState R) :
    rallyLoop env sim game (n + 1) ls =
      match rallyStep env sim game ls with
      | .error e => .error e
      | .ok (.done res) => .ok res
      | .ok (.next ls1) => rallyLoop env sim game n ls1 := rfl

theorem rallyLoop_of_done {R : Type} (env : Env) (sim : Simulators R) (game : GameState)
    (n : Nat) (ls : LoopState R) (res : RallyResult R)
    (h : rallyStep env sim game ls = .ok (.done res)) :
    rallyLoop env sim game (n + 1) ls = .ok res := by
  rw [rallyLoop_succ, h]

theorem rallyLoop_of_next {R : Type} (env : Env) (sim : Simulators R) (game : GameState)
    (n : Nat) (ls ls1 : LoopState R)
    (h : rallyStep env sim game ls = .ok (.next ls1)) :
    rallyLoop env sim game (n + 1) ls = rallyLoop env sim game n ls1 := by
  rw [rallyLoop_succ, h]

theorem rallyLoop_winner {R : Type} (env : Env) (sim : Simulators R) (game : GameState)
    (n : Nat) : ∀ (ls : LoopState R) (res : RallyResult R),
    rallyLoop env sim game n ls = .ok res →
    res.winner = ls.currentAttackingTeam ∨ res.winner = ls.currentDefendingTeam := by
  induction n with
  | zero =>
    intro ls res h
    simp only [rallyLoop] at h
    cases h
    simp only
    split
    · exact Or.inl rfl
    · exact Or.inr rfl
  | succ n ih =>
    intro ls res h
    rw [rallyLoop_succ] at h
    split at h
    · cases h
    · rename_i res1 hst
      cases h
      exact (rallyStep_done env sim game ls _ hst).1
    · rename_i ls1 hst
      have := ih ls1 res h
      rcases rallyStep_next env sim game ls ls1 hst with ⟨ha, hd⟩ | ⟨ha, hd⟩
      · rw [ha, hd] at this; exact this
      · rw [ha, hd] at this; exact this.symm

theorem rallyLoop_game {R : Type} (env : Env) (sim : Simulators R) (game : GameState)
    (n : Nat) : ∀ (ls : LoopState R) (res : RallyResult R),
    rallyLoop env sim game n ls = .ok res →
    ((res.ending = .ceiling ∨ res.ending = .blockBackDefenseFault) ∧ res.game = game) ∨
    (res.ending ≠ .blockBackDefenseFault ∧ res.ending ≠ .ceiling ∧ Credited game res.game) := by
  induction n with
  | zero =>
    intro ls res h
    simp only [rallyLoop] at h
    cases h
    exact Or.inl ⟨Or.inl rfl, rfl⟩
  | succ n ih =>
    intro ls res h
    rw [rallyLoop_succ] at h
    split at h
    · cases h
    · rename_i res1 hst
      cases h
      rcases (rallyStep_done env sim game ls _ hst).2 with ⟨he, hg⟩ | hc
      · exact Or.inl ⟨Or.inr he, hg⟩
      · exact Or.inr hc
    · rename_i ls1 hst
      exact ih ls1 res h

/-! ## Totality on well-formed states -/

theorem Env.WellFormed.team {env : Env} {g : GameState} (h : env.WellFormed g) (t : Int) :
    (g.rotationOf t).Valid ∧ ∃ j, FirstSetterSlot (env.rosterOf t) (g.rotationOf t) j := by
  unfold GameState.rotationOf Env.rosterOf
  split
  · exact ⟨h.1, h.2.2.1⟩
  · exact ⟨h.2.1, h.2.2.2⟩

theorem defendSpike_total {R : Type} (sim : Simulators R) (game : GameState)
    (att dfd aid : Int) (sp : SpikeResult) (b : BlockResultInfo) (rng : R)
    (tr : List PhaseCall) (h0 : 0 ≤ aid) (h7 : aid < 7) :
    ∃ st, defendSpike sim game att dfd aid sp b rng tr = .ok st := by
  unfold defendSpike
  simp only [incrScored_of_range game att aid h0 h7]
  split
  · exact ⟨_, rfl⟩
  · exact ⟨_, rfl⟩

theorem blockPhase_total {R : Type} (sim : Simulators R) (game : GameState)
    (att dfd aid : Int) (sp : SpikeResult) (rng : R) (tr : List PhaseCall)
    (h0 : 0 ≤ aid) (h7 : aid < 7) :
    ∃ st, blockPhase sim game att dfd aid sp rng tr = .ok st := by
  unfold blockPhase
  simp only
  split
  · unfold defendBlockBack
    simp only
    split
    · exact ⟨_, rfl⟩
    · exact ⟨_, rfl⟩
  all_goals exact defendSpike_total _ _ _ _ _ _ _ _ _ h0 h7

theorem rallyStep_total {R : Type} (env : Env) (sim : Simulators R) (game : GameState)
    (ls : LoopState R) (hwf : env.WellFormed game) :
    ∃ st, rallyStep env sim game ls = .ok st := by
  obtain ⟨hv, j, hj⟩ := hwf.team ls.currentAttackingTeam
  unfold rallyStep
  simp only [scanSetter_first _ _ env.blank j hv hj,
    incrFault_of_range game _ _ (hv j).1 (hv j).2]
  split
  · exact ⟨_, rfl⟩
  · split
    · split
      · exact ⟨_, rfl⟩
      · exact blockPhase_total _ _ _ _ _ _ _ _ (by decide) (by decide)
    · obtain ⟨a, ha, h0, h7⟩ := scanAttacker_range (env.rosterOf ls.currentAttackingTeam)
        (game.rotationOf ls.currentAttackingTeam)
        (sim.simulateSpike
          (sim.simulateSet ls.rng ((env.rosterOf ls.currentAttackingTeam).player
            (game.rotationOf ls.currentAttackingTeam j)) game ls.currentAttackingTeam
            ls.currentReceiveResult).2
          (sim.simulateSet ls.rng ((env.rosterOf ls.currentAttackingTeam).player
            (game.rotationOf ls.currentAttackingTeam j)) game ls.currentAttackingTeam
            ls.currentReceiveResult).1.targetPlayer game ls.currentAttackingTeam
          (sim.simulateSet ls.rng ((env.rosterOf ls.currentAttackingTeam).player
            (game.rotationOf ls.currentAttackingTeam j)) game ls.currentAttackingTeam
            ls.currentReceiveResult).1).1.attacker.name hv slots
      simp only [ha, incrFault_of_range game _ a h0 h7]
      split
      · exact ⟨_, rfl⟩
      · exact blockPhase_total _ _ _ _ _ _ _ _ h0 h7

theorem rallyLoop_total {R : Type} (env : Env) (sim : Simulators R) (game : GameState)
    (hwf : env.WellFormed game) (n : Nat) :
    ∀ ls : LoopState R, ∃ res, rallyLoop env sim game n ls = .ok res := by
  induction n with
  | zero => intro ls; exact ⟨_, rfl⟩
  | succ n ih =>
    intro ls
    obtain ⟨st, hst⟩ := rallyStep_total env sim game ls hwf
    cases st with
    | done res => exact ⟨res, rallyLoop_of_done env sim game n ls res hst⟩
    | next ls1 =>
      obtain ⟨res, hres⟩ := ih ls1
      exact ⟨res, by rw [rallyLoop_of_next env sim game n ls ls1 hst, hres]⟩

/-! ## The serve and the reception -/

theorem incrScored_ok (g g1 : GameState) (team k : Int) (h : g.incrScored team k = .ok g1) :
    0 ≤ k ∧ k < 7 ∧ g1 = g.creditScored team k := by
  unfold GameState.incrScored at h
  split at h
  · rename_i hr; cases h; exact ⟨hr.1, hr.2, rfl⟩
  · cases h

theorem serveAndReceive_done {R : Type} (env : Env) (sim : Simulators R) (game : GameState)
    (rng : R) (res : RallyResult R) (h : serveAndReceive env sim game rng = .ok (.done res)) :
    (res.winner = 1 - game.serveSide ∨ res.winner = game.serveSide) ∧
    res.ending ≠ .blockBackDefenseFault ∧ res.ending ≠ .ceiling ∧ Credited game res.game := by
  unfold serveAndReceive at h
  simp only at h
  split at h
  · cases h
  · split at h
    · split at h
      · cases h
      · rename_i g1 hg
        obtain ⟨h0, h7, rfl⟩ := incrFault_ok _ _ _ _ hg
        cases h
        exact ⟨Or.inl rfl, by simp, by simp, _, _, h0, h7, Or.inl rfl⟩
    · split at h
      · split at h
        · cases h
        · rename_i g1 hg
          obtain ⟨h0, h7, rfl⟩ := incrScored_ok _ _ _ _ hg
          cases h
          exact ⟨Or.inr rfl, by simp, by simp, _, _, h0, h7, Or.inr rfl⟩
      · cases h

theorem serveAndReceive_next {R : Type} (env : Env) (sim : Simulators R) (game : GameState)
    (rng : R) (ls : LoopState R) (h : serveAndReceive env sim game rng = .ok (.next ls)) :
    ls.currentAttackingTeam = 1 - game.serveSide ∧ ls.currentDefendingTeam = game.serveSide := by
  unfold serveAndReceive at h
  simp only at h
  split at h
  · cases h
  · split at h
    · split at h <;> cases h
    · split at h
      · split at h <;> cases h
      · cases h; exact ⟨rfl, rfl⟩

theorem serveAndReceive_total {R : Type} (env : Env) (sim : Simulators R) (game : GameState)
    (rng : R) (hwf : env.WellFormed game) :
    ∃ st, serveAndReceive env sim game rng = .ok st := by
  obtain ⟨hv, -⟩ := hwf.team game.serveSide
  unfold serveAndReceive
  simp only [Roster.at_of_range _ _ (hv 0).1 (hv 0).2,
    incrFault_of_range game _ _ (hv 0).1 (hv 0).2,
    incrScored_of_range game _ _ (hv 0).1 (hv 0).2]
  split
  · exact ⟨_, rfl⟩
  · split
    · exact ⟨_, rfl⟩
    · exact ⟨_, rfl⟩

theorem processRallyFromServe_total {R : Type} (env : Env) (sim : Simulators R)
    (game : GameState) (rng : R) (hwf : env.WellFormed game) :
    ∃ res, processRallyFromServe env sim game rng = .ok res := by
  obtain ⟨st, hst⟩ := serveAndReceive_total env sim game rng hwf
  unfold processRallyFromServe
  rw [hst]
  cases st with
  | done res => exact ⟨res, rfl⟩
  | next ls => exact rallyLoop_total env sim game hwf _ _

theorem processRallyFromServe_winner {R : Type} (env : Env) (sim : Simulators R)
    (game : GameState) (rng : R) (res : RallyResult R)
    (h : processRallyFromServe env sim game rng = .ok res) :
    res.winner = 1 - game.serveSide ∨ res.winner = game.serveSide := by
  unfold processRallyFromServe at h
  split at h
  · cases h
  · rename_i res1 hst
    cases h
    exact (serveAndReceive_done env sim game rng _ hst).1
  · rename_i ls hst
    obtain ⟨ha, hd⟩ := serveAndReceive_next env sim game rng ls hst
    have := rallyLoop_winner env sim game _ _ res h
    simpa [ha, hd] using this

theorem processRallyFromServe_game {R : Type} (env : Env) (sim : Simulators R)
    (game : GameState) (rng : R) (res : RallyResult R)
    (h : processRallyFromServe env sim game rng = .ok res) :
    ((res.ending = .ceiling ∨ res.ending = .blockBackDefenseFault) ∧ res.game = game) ∨
    (res.ending ≠ .blockBackDefenseFault ∧ res.ending ≠ .ceiling ∧ Credited game res.game) := by
  unfold processRallyFromServe at h
  split at h
  · cases h
  · rename_i res1 hst
    cases h
    exact Or.inr (serveAndReceive_done env sim game rng _ hst).2
  · exact rallyLoop_game env sim game _ _ res h

/-! ## The claims -/

/-- C1: for every match state with serveSide 0 or 1 and all simulator outcomes, a
value returned by processRallyFromServe is 0 or 1; and on every state whose
rotations hold roster indices and contain a Setter it does return a value. -/
theorem C1_winner_is_zero_or_one {R : Type} (env : Env) (sim : Simulators R)
    (game : GameState) (rng : R) (hs : game.serveSide = 0 ∨ game.serveSide = 1) :
    (∀ res, processRallyFromServe env sim game rng = .ok res →
      res.winner = 0 ∨ res.winner = 1) ∧
    (env.WellFormed game → ∃ res, processRallyFromServe env sim game rng = .ok res ∧
      (res.winner = 0 ∨ res.winner = 1)) := by
  have key : ∀ res, processRallyFromServe env sim game rng = .ok res →
      res.winner = 0 ∨ res.winner = 1 := by
    intro res h
    have := processRallyFromServe_winner env sim game rng res h
    omega
  refine ⟨key, fun hwf => ?_⟩
  obtain ⟨res, hres⟩ := processRallyFromServe_total env sim game rng hwf
  exact ⟨res, hres, key res hres⟩

/-- C1 (witness): team A of the default rosters serves. -/
theorem C1_winner_is_zero_or_one_witness :
    ((exampleGame 0).serveSide = 0 ∨ (exampleGame 0).serveSide = 1) ∧
    exampleEnv.WellFormed (exampleGame 0) ∧
    ∃ res, processRallyFromServe exampleEnv simDefenseFault (exampleGame 0) () = .ok res ∧
      (res.winner = 0 ∨ res.winner = 1) :=
  ⟨by decide, by decide,
    (C1_winner_is_zero_or_one exampleEnv simDefenseFault (exampleGame 0) () (by decide)).2
      (by decide)⟩

/-- C2 (counterexample): the rally of the default rosters that ends with a Fault of
the defense against a block-back ball, and the one in which all 50 iterations
loop back, both leave the counter sum unchanged instead of 1 higher. -/
theorem C2_counter_sum_counterexample :
    (∃ res, processRallyFromServe exampleEnv simBlockBackFault (exampleGame 0) () = .ok res ∧
      res.ending = .blockBackDefenseFault ∧
      res.game.counterSum ≠ (exampleGame 0).counterSum + 1) ∧
    (∃ res, processRallyFromServe exampleEnv simLoopBack (exampleGame 0) () = .ok res ∧
      res.ending = .ceiling ∧
      res.game.counterSum ≠ (exampleGame 0).counterSum + 1) :=
  ⟨⟨_, rfl, by decide⟩, ⟨_, rfl, by decide⟩⟩

/-- C2 (amended): a rally run by processRallyFromServe that ends by a serve
fault, a reception fault, a set fault, an attack error or a Fault of the defense
against a direct attack leaves the sum of all fault and score-credit counters
of both teams exactly 1 higher; a rally that ends at the rally-count ceiling
leaves the match state, hence every counter, unchanged; and on a well-formed
state the rally does end. -/
theorem C2_counter_sum {R : Type} (env : Env) (sim : Simulators R) (game : GameState)
    (rng : R) :
    (∀ res, processRallyFromServe env sim game rng = .ok res →
      (res.ending ≠ .blockBackDefenseFault → res.ending ≠ .ceiling →
        res.game.counterSum = game.counterSum + 1) ∧
      (res.ending = .ceiling → res.game = game)) ∧
    (env.WellFormed game → ∃ res, processRallyFromServe env sim game rng = .ok res) := by
  refine ⟨fun res h => ?_, processRallyFromServe_total env sim game rng⟩
  rcases processRallyFromServe_game env sim game rng res h with ⟨he, hg⟩ | ⟨h1, h2, hc⟩
  · exact ⟨fun hb hc => absurd he (not_or.mpr ⟨hc, hb⟩), fun _ => hg⟩
  · exact ⟨fun _ _ => hc.counterSum, fun hcl => absurd hcl h2⟩

/-- C2 (witness): the default rosters with a Fault of the defense against a
direct attack. -/
theorem C2_counter_sum_witness :
    exampleEnv.WellFormed (exampleGame 0) ∧
    ∃ res, processRallyFromServe exampleEnv simDefenseFault (exampleGame 0) () = .ok res ∧
      res.ending = .defenseFault ∧ res.game.counterSum = (exampleGame 0).counterSum + 1 :=
  ⟨by decide, _, rfl, rfl,
    ((C2_counter_sum exampleEnv simDefenseFault (exampleGame 0) ()).1 _ rfl).1
      (by decide) (by decide)⟩

/-- C3: when the serve outcome is not successful, processRallyFromServe calls no
other simulator, returns the receiving team 1 - serveSide, and the match state
afterwards is the one before with one change: the fault counter of the serving
team at the roster index in rotation index 0 is 1 higher. -/
theorem C3_serve_fault {R : Type} (env : Env) (sim : Simulators R) (game : GameState)
    (rng : R)
    (hk : 0 ≤ game.rotationOf game.serveSide 0 ∧ game.rotationOf game.serveSide 0 < 7)
    (hfail : (sim.serve rng
      ((env.rosterOf game.serveSide).player (game.rotationOf game.serveSide 0)) game).1.success
        = false) :
    ∃ res, processRallyFromServe env sim game rng = .ok res ∧
      res.winner = 1 - game.serveSide ∧
      res.game = game.creditFault game.serveSide (game.rotationOf game.serveSide 0) ∧
      res.trace = [PhaseCall.serve
        ((env.rosterOf game.serveSide).player (game.rotationOf game.serveSide 0))
        (sim.serve rng
          ((env.rosterOf game.serveSide).player (game.rotationOf game.serveSide 0)) game).1] ∧
      res.ending = .serveFault := by
  unfold processRallyFromServe serveAndReceive
  simp only [Roster.at_of_range _ _ hk.1 hk.2, hfail, incrFault_of_range game _ _ hk.1 hk.2,
    if_true]
  exact ⟨_, rfl, rfl, rfl, rfl, rfl⟩

/-- C3 (witness): team A of the default rosters serves and fails. -/
theorem C3_serve_fault_witness :
    ∃ res, processRallyFromServe exampleEnv simServeFault (exampleGame 0) () = .ok res ∧
      res.winner = 1 - (exampleGame 0).serveSide ∧
      res.game = (exampleGame 0).creditFault (exampleGame 0).serveSide
        ((exampleGame 0).rotationOf (exampleGame 0).serveSide 0) ∧
      res.trace = [PhaseCall.serve
        ((exampleEnv.rosterOf (exampleGame 0).serveSide).player
          ((exampleGame 0).rotationOf (exampleGame 0).serveSide 0))
        (simServeFault.serve ()
          ((exampleEnv.rosterOf (exampleGame 0).serveSide).player
            ((exampleGame 0).rotationOf (exampleGame 0).serveSide 0)) (exampleGame 0)).1] ∧
      res.ending = .serveFault :=
  C3_serve_fault exampleEnv simServeFault (exampleGame 0) () (by decide) (by decide)

/-- C4: when the serve succeeds and the reception outcome is Fault,
processRallyFromServe returns the serving team, and the match state afterwards
is the one before with one change: the score-credit counter of the serving team
at the roster index in rotation index 0 (the server) is 1 higher. -/
theorem C4_receive_fault {R : Type} (env : Env) (sim : Simulators R) (game : GameState)
    (rng : R)
    (hk : 0 ≤ game.rotationOf game.serveSide 0 ∧ game.rotationOf game.serveSide 0 < 7)
    (hok : (sim.serve rng
      ((env.rosterOf game.serveSide).player (game.rotationOf game.serveSide 0)) game).1.success
        = true)
    (hfault : (sim.receive
      (sim.serve rng
        ((env.rosterOf game.serveSide).player (game.rotationOf game.serveSide 0)) game).2
      game (1 - game.serveSide)
      (sim.serve rng
        ((env.rosterOf game.serveSide).player (game.rotationOf game.serveSide 0))
          game).1.effectiveness).1.quality = .RECEIVE_FAULT) :
    ∃ res, processRallyFromServe env sim game rng = .ok res ∧
      res.winner = game.serveSide ∧
      res.game = game.creditScored game.serveSide (game.rotationOf game.serveSide 0) ∧
      res.trace.length = 2 ∧
      res.ending = .receiveFault := by
  unfold processRallyFromServe serveAndReceive
  simp only [Roster.at_of_range _ _ hk.1 hk.2, hok, hfault,
    incrScored_of_range game _ _ hk.1 hk.2, if_true]
  exact ⟨_, rfl, rfl, rfl, rfl, rfl⟩

/-- C4 (witness): team B of the default rosters serves and team A does not
return the ball. -/
theorem C4_receive_fault_witness :
    ∃ res, processRallyFromServe exampleEnv simReceiveFault (exampleGame 1) () = .ok res ∧
      res.winner = (exampleGame 1).serveSide ∧
      res.game = (exampleGame 1).creditScored (exampleGame 1).serveSide
        ((exampleGame 1).rotationOf (exampleGame 1).serveSide 0) ∧
      res.trace.length = 2 ∧
      res.ending = .receiveFault :=
  C4_receive_fault exampleEnv simReceiveFault (exampleGame 1) () (by decide) (by decide)
    (by decide)

/-- C5: in a loop iteration of processRallyFromReceive in which the set outcome
is Poor and not a setter dump, the loop returns at once with the current
defending team, after the Set call only, and the match state afterwards is the
one before with one change: the fault counter of the attacking team at the
roster index of its setter, the first rotation slot whose player has the Setter
position, is 1 higher. -/
theorem C5_set_fault {R : Type} (env : Env) (sim : Simulators R) (game : GameState)
    (n : Nat) (ls : LoopState R) (j : Fin 6)
    (hv : (game.rotationOf ls.currentAttackingTeam).Valid)
    (hj : FirstSetterSlot (env.rosterOf ls.currentAttackingTeam)
      (game.rotationOf ls.currentAttackingTeam) j)
    (p : PassResult × R)
    (hp : sim.simulateSet ls.rng
      ((env.rosterOf ls.currentAttackingTeam).player (game.rotationOf ls.currentAttackingTeam j))
      game ls.currentAttackingTeam ls.currentReceiveResult = p)
    (hpoor : p.1.quality = .POOR_PASS) (hnd : p.1.isSetterDump = false) :
    ∃ res, rallyLoop env sim game (n + 1) ls = .ok res ∧
      res.winner = ls.currentDefendingTeam ∧
      res.game = game.creditFault ls.currentAttackingTeam
        (game.rotationOf ls.currentAttackingTeam j) ∧
      res.trace = ls.trace ++ [PhaseCall.set
        ((env.rosterOf ls.currentAttackingTeam).player
          (game.rotationOf ls.currentAttackingTeam j))
        ls.currentAttackingTeam ls.currentReceiveResult p.1] ∧
      res.ending = .setFault := by
  rw [rallyLoop_succ]
  unfold rallyStep
  simp only [scanSetter_first _ _ env.blank j hv hj, hp, hpoor, hnd,
    incrFault_of_range game _ _ (hv j).1 (hv j).2, and_self, if_true]
  exact ⟨_, rfl, rfl, rfl, rfl, rfl⟩

/-- C5 (witness): team B of the default rosters attacks and its setter B2 (roster
index 1, rotation slot 1) sets poorly. -/
theorem C5_set_fault_witness :
    ∃ res, rallyLoop exampleEnv simSetFault (exampleGame 0) (49 + 1) exampleLoopState = .ok res ∧
      res.winner = 0 ∧
      res.game = (exampleGame 0).creditFault 1 1 ∧
      res.trace = [PhaseCall.set (makeP "B2" "S") 1 receiveGood setPoor] ∧
      res.ending = .setFault :=
  C5_set_fault exampleEnv simSetFault (exampleGame 0) 49 exampleLoopState 1 (by decide)
    (by decide) (setPoor, ()) rfl rfl rfl

/-- In a loop iteration in which the attack outcome has isError set, the loop
returns at once with the current defending team, and the match state afterwards
is the one before with one change, a fault counter of the attacking team 1
higher: for a setter dump the one at the setter's roster index, and for a
spike the one at the roster index in the first rotation slot whose player has
the attacker's name, when there is such a slot. -/
theorem attack_error_credit {R : Type} (env : Env) (sim : Simulators R) (game : GameState)
    (n : Nat) (ls : LoopState R) (j : Fin 6)
    (hv : (game.rotationOf ls.currentAttackingTeam).Valid)
    (hj : FirstSetterSlot (env.rosterOf ls.currentAttackingTeam)
      (game.rotationOf ls.currentAttackingTeam) j)
    (p : PassResult × R)
    (hp : sim.simulateSet ls.rng
      ((env.rosterOf ls.currentAttackingTeam).player (game.rotationOf ls.currentAttackingTeam j))
      game ls.currentAttackingTeam ls.currentReceiveResult = p) :
    (p.1.isSetterDump = true →
      (sim.createSetterDumpResult p.2
        ((env.rosterOf ls.currentAttackingTeam).player
          (game.rotationOf ls.currentAttackingTeam j)) p.1.dumpEffectiveness).1.isError = true →
      ∃ res, rallyLoop env sim game (n + 1) ls = .ok res ∧
        res.winner = ls.currentDefendingTeam ∧
        res.game = game.creditFault ls.currentAttackingTeam
          (game.rotationOf ls.currentAttackingTeam j) ∧
        res.ending = .dumpError) ∧
    (p.1.isSetterDump = false → p.1.quality ≠ .POOR_PASS →
      ∀ sp : SpikeResult × R,
      sim.simulateSpike p.2 p.1.targetPlayer game ls.currentAttackingTeam p.1 = sp →
      sp.1.isError = true →
      ∀ ja : Fin 6, FirstNamedSlot (env.rosterOf ls.currentAttackingTeam)
        (game.rotationOf ls.currentAttackingTeam) sp.1.attacker.name ja →
      ∃ res, rallyLoop env sim game (n + 1) ls = .ok res ∧
        res.winner = ls.currentDefendingTeam ∧
        res.game = game.creditFault ls.currentAttackingTeam
          (game.rotationOf ls.currentAttackingTeam ja) ∧
        res.ending = .spikeError) := by
  constructor
  · intro hd he
    rw [rallyLoop_succ]
    unfold rallyStep
    simp only [scanSetter_first _ _ env.blank j hv hj, hp, hd, he,
      incrFault_of_range game _ _ (hv j).1 (hv j).2, if_true]
    simp only [Bool.true_eq_false, and_false, if_false]
    exact ⟨_, rfl, rfl, rfl, rfl⟩
  · intro hd hq sp hsp he ja hja
    rw [rallyLoop_succ]
    unfold rallyStep
    simp only [scanSetter_first _ _ env.blank j hv hj, hp, hd, hq, hsp, he,
      scanAttacker_first _ _ _ ja hv hja,
      incrFault_of_range game _ _ (hv ja).1 (hv ja).2, if_true]
    simp only [Bool.false_eq_true, false_and, if_false]
    exact ⟨_, rfl, rfl, rfl, rfl⟩

/-- Team B of the default rosters attacks: a dump error of its setter B2 is booked
at roster index 1 and a spike error of B4, who stands in the rotation, at
roster index 3. -/
theorem attack_error_credit_default_rosters :
    (∃ res, rallyLoop exampleEnv simDumpError (exampleGame 0) (49 + 1) exampleLoopState
        = .ok res ∧
      res.winner = 0 ∧ res.game = (exampleGame 0).creditFault 1 1 ∧ res.ending = .dumpError) ∧
    (∃ res, rallyLoop exampleEnv simSpikeError (exampleGame 0) (49 + 1) exampleLoopState
        = .ok res ∧
      res.winner = 0 ∧ res.game = (exampleGame 0).creditFault 1 3 ∧ res.ending = .spikeError) :=
  ⟨(attack_error_credit exampleEnv simDumpError (exampleGame 0) 49 exampleLoopState 1 (by decide)
      (by decide) (setDump, ()) rfl).1 rfl rfl,
   (attack_error_credit exampleEnv simSpikeError (exampleGame 0) 49 exampleLoopState 1 (by decide)
      (by decide) (setGood, ()) rfl).2 rfl (by decide) (spikeError, ()) rfl rfl 3 (by decide)⟩

/-- C6 (failing input): team A of the default rosters serves, team B attacks with
the rotation 0,1,2,3,6,5 and the spike is an error. When the attacker is B5
(roster index 4), whom the libero has replaced so that no rotation slot holds
his name, the rally returns team A and the only counter that changes is
faultB[0], the counter of B1: faultB[4] stays 0. When the player at roster
index 3 attacks and has the same name as the player at roster index 0, the
fault is again booked at index 0 and not at index 3. -/
theorem C6_attack_error_wrong_player :
    (defaultTeamB.player 4 = makeP "B5" "MB" ∧
      (∀ i : Fin 6, (defaultTeamB.player ((exampleGame 0).rotateB i)).name ≠ "B5") ∧
      ∃ res, processRallyFromServe exampleEnv (simSpikeErrorBy (makeP "B5" "MB"))
          (exampleGame 0) () = .ok res ∧
        res.winner = 0 ∧ res.ending = .spikeError ∧
        res.trace.getLast? = some (PhaseCall.spike (makeP "B5" "MB") 1
          (setGoodTo (makeP "B5" "MB")) (spikeErrorBy (makeP "B5" "MB"))) ∧
        res.game = (exampleGame 0).creditFault 1 0 ∧
        res.game.faultB 0 = 1 ∧ res.game.faultB 4 = 0 ∧
        res.game.counterSum = (exampleGame 0).counterSum + 1) ∧
    (namesakeTeam.player 3 = namesakeHitter ∧ namesakeTeam.player 0 ≠ namesakeHitter ∧
      (exampleGame 0).rotateB 3 = 3 ∧
      ∃ res, processRallyFromServe namesakeEnv (simSpikeErrorBy namesakeHitter)
          (exampleGame 0) () = .ok res ∧
        res.winner = 0 ∧ res.ending = .spikeError ∧
        res.game = (exampleGame 0).creditFault 1 0 ∧
        res.game.faultB 0 = 1 ∧ res.game.faultB 3 = 0) :=
  ⟨⟨rfl, by decide, _, rfl, by decide, by decide, by decide, rfl, by decide, by decide,
      by decide⟩,
    ⟨rfl, by decide, by decide, _, rfl, by decide, by decide, rfl, by decide, by decide⟩⟩

/-! ## Inversion of one iteration -/

theorem blockPhase_cases {R : Type} (sim : Simulators R) (game : GameState)
    (att dfd aid : Int) (sp : SpikeResult) (rng : R) (tr : List PhaseCall) (st : Step R)
    (h : blockPhase sim game att dfd aid sp rng tr = .ok st) :
    ∃ (b : BlockResultInfo) (d : DefenseResult),
      b = (sim.simulateBlock rng game dfd att sp).1 ∧
      ((b.result = .BLOCK_BACK ∧
        st.trace = tr ++ [PhaseCall.block dfd att sp b, PhaseCall.defenseBlockBack att dfd b d] ∧
        ((d.quality = .DEFENSE_FAULT ∧ ∃ res, st = .done res ∧ res.winner = dfd ∧
            res.game = game ∧ res.ending = .blockBackDefenseFault) ∨
         (d.quality ≠ .DEFENSE_FAULT ∧ ∃ ls1, st = .next ls1 ∧
            ls1.currentAttackingTeam = att ∧ ls1.currentDefendingTeam = dfd ∧
            ls1.currentReceiveResult = convertDefenseToReceive d))) ∨
       (b.result ≠ .BLOCK_BACK ∧
        st.trace = tr ++ [PhaseCall.block dfd att sp b,
          PhaseCall.defenseSpike dfd att (blockedSpike sp b) b d] ∧
        ((d.quality = .DEFENSE_FAULT ∧ 0 ≤ aid ∧ aid < 7 ∧ ∃ res, st = .done res ∧
            res.winner = att ∧ res.game = game.creditScored att aid ∧
            res.ending = .defenseFault) ∨
         (d.quality ≠ .DEFENSE_FAULT ∧ ∃ ls1, st = .next ls1 ∧
            ls1.currentAttackingTeam = dfd ∧ ls1.currentDefendingTeam = att ∧
            ls1.currentReceiveResult = convertDefenseToReceive d)))) := by
  have hsp : ∀ (sp1 : SpikeResult) (b : BlockResultInfo) (r1 : R) (tr1 : List PhaseCall),
      defendSpike sim game att dfd aid sp1 b r1 tr1 = .ok st →
      ∃ d : DefenseResult,
        st.trace = tr1 ++ [PhaseCall.defenseSpike dfd att sp1 b d] ∧
        ((d.quality = .DEFENSE_FAULT ∧ 0 ≤ aid ∧ aid < 7 ∧ ∃ res, st = .done res ∧
            res.winner = att ∧ res.game = game.creditScored att aid ∧
            res.ending = .defenseFault) ∨
         (d.quality ≠ .DEFENSE_FAULT ∧ ∃ ls1, st = .next ls1 ∧
            ls1.currentAttackingTeam = dfd ∧ ls1.currentDefendingTeam = att ∧
            ls1.currentReceiveResult = convertDefenseToReceive d)) := by
    intro sp1 b r1 tr1 h1
    unfold defendSpike at h1
    simp only at h1
    split at h1
    · rename_i hq
      split at h1
      · cases h1
      · rename_i g1 hg
        obtain ⟨h0, h7, rfl⟩ := incrScored_ok _ _ _ _ hg
        cases h1
        exact ⟨_, rfl, Or.inl ⟨hq, h0, h7, _, rfl, rfl, rfl, rfl⟩⟩
    · rename_i hq
      cases h1
      exact ⟨_, rfl, Or.inr ⟨hq, _, rfl, rfl, rfl, rfl⟩⟩
  unfold blockPhase at h
  simp only at h
  refine ⟨(sim.simulateBlock rng game dfd att sp).1, ?_⟩
  split at h
  · rename_i hb
    unfold defendBlockBack at h
    simp only at h
    split at h
    · rename_i hq
      cases h
      exact ⟨_, rfl, Or.inl ⟨hb, by simp [Step.trace], Or.inl ⟨hq, _, rfl, rfl, rfl, rfl⟩⟩⟩
    · rename_i hq
      cases h
      exact ⟨_, rfl, Or.inl ⟨hb, by simp [Step.trace], Or.inr ⟨hq, _, rfl, rfl, rfl, rfl⟩⟩⟩
  all_goals
    rename_i hb
    obtain ⟨d, htr, hd⟩ := hsp _ _ _ _ h
    refine ⟨d, rfl, Or.inr ⟨by simp [hb], ?_, hd⟩⟩
    simp [htr, blockedSpike, hb]

theorem blockPhase_trace {R : Type} (sim : Simulators R) (game : GameState)
    (att dfd aid : Int) (sp : SpikeResult) (rng : R) (tr : List PhaseCall) (st : Step R)
    (h : blockPhase sim game att dfd aid sp rng tr = .ok st) :
    ∃ tail, st.trace = tr ++ tail := by
  obtain ⟨b, d, -, ⟨-, ht, -⟩ | ⟨-, ht, -⟩⟩ := blockPhase_cases sim game att dfd aid sp rng tr st h
  · exact ⟨_, ht⟩
  · exact ⟨_, ht⟩

theorem rallyStep_cases {R : Type} (env : Env) (sim : Simulators R) (game : GameState)
    (ls : LoopState R) (st : Step R) (h : rallyStep env sim game ls = .ok st) :
    ∃ (setter : Player) (p : PassResult),
      (∃ tail, st.trace = ls.trace ++
        PhaseCall.set setter ls.currentAttackingTeam ls.currentReceiveResult p :: tail) ∧
      ((∃ res, st = .done res ∧ res.winner = ls.currentDefendingTeam ∧
          (∀ c, st.trace.getLast? = some c → c.isDefense = false) ∧
          (res.ending = .setFault ∨ res.ending = .dumpError ∨ res.ending = .spikeError)) ∨
       (∃ (aid : Int) (sp : SpikeResult) (r1 : R) (tr1 : List PhaseCall),
          blockPhase sim game ls.currentAttackingTeam ls.currentDefendingTeam aid sp r1 tr1
            = .ok st)) := by
  unfold rallyStep at h
  simp only at h
  split at h
  · cases h
  · rename_i s hs
    refine ⟨s.1, (sim.simulateSet ls.rng s.1 game ls.currentAttackingTeam
      ls.currentReceiveResult).1, ?_⟩
    split at h
    · split at h
      · cases h
      · cases h
        exact ⟨⟨[], rfl⟩, Or.inl ⟨_, rfl, rfl, by simp [Step.trace, PhaseCall.isDefense],
          Or.inl rfl⟩⟩
    · split at h
      · split at h
        · split at h
          · cases h
          · cases h
            refine ⟨⟨_, by simp [Step.trace]; rfl⟩, Or.inl ⟨_, rfl, rfl, ?_, Or.inr (Or.inl rfl)⟩⟩
            intro c hc
            simp [Step.trace] at hc
            subst hc
            rfl
        · obtain ⟨tail, ht⟩ := blockPhase_trace _ _ _ _ _ _ _ _ _ h
          exact ⟨⟨_, by rw [ht]; simp; rfl⟩, Or.inr ⟨_, _, _, _, h⟩⟩
      · split at h
        · cases h
        · split at h
          · split at h
            · cases h
            · cases h
              refine ⟨⟨_, by simp [Step.trace]; rfl⟩,
                Or.inl ⟨_, rfl, rfl, ?_, Or.inr (Or.inr rfl)⟩⟩
              intro c hc
              simp [Step.trace] at hc
              subst hc
              rfl
          · obtain ⟨tail, ht⟩ := blockPhase_trace _ _ _ _ _ _ _ _ _ h
            exact ⟨⟨_, by rw [ht]; simp; rfl⟩, Or.inr ⟨_, _, _, _, h⟩⟩

theorem getLast?_append_pair {α : Type} (l : List α) (a b : α) :
    (l ++ [a, b]).getLast? = some b := by
  have : l ++ [a, b] = (l ++ [a]) ++ [b] := by simp
  rw [this, List.getLast?_append]
  simp

/-- C7: in every loop iteration, when the Defense call of the iteration returns
Fault the loop returns at once, and the returned team is the other team of the
Defense call: after a block result other than BlockBack the defending team of
the iteration failed and the attacking team of the iteration is returned;
after BlockBack the attacking team of the iteration failed and the defending
team of the iteration, whose block deflected the ball, is returned. On a
well-formed state the iteration does produce an outcome. -/
theorem C7_defense_fault {R : Type} (env : Env) (sim : Simulators R) (game : GameState)
    (n : Nat) (ls : LoopState R) :
    (env.WellFormed game → ∃ st, rallyStep env sim game ls = .ok st) ∧
    ∀ st, rallyStep env sim game ls = .ok st →
      (∀ dteam ateam sp b d,
        st.trace.getLast? = some (PhaseCall.defenseSpike dteam ateam sp b d) →
        d.quality = .DEFENSE_FAULT →
        b.result ≠ .BLOCK_BACK ∧ dteam = ls.currentDefendingTeam ∧
        ateam = ls.currentAttackingTeam ∧
        ∃ res, rallyLoop env sim game (n + 1) ls = .ok res ∧ res.trace = st.trace ∧
          res.winner = ls.currentAttackingTeam) ∧
      (∀ dteam ateam b d,
        st.trace.getLast? = some (PhaseCall.defenseBlockBack dteam ateam b d) →
        d.quality = .DEFENSE_FAULT →
        b.result = .BLOCK_BACK ∧ dteam = ls.currentAttackingTeam ∧
        ateam = ls.currentDefendingTeam ∧
        ∃ res, rallyLoop env sim game (n + 1) ls = .ok res ∧ res.trace = st.trace ∧
          res.winner = ls.currentDefendingTeam) := by
  refine ⟨rallyStep_total env sim game ls, fun st h => ?_⟩
  obtain ⟨setter, p, -, ⟨res, -, -, hlast, -⟩ | ⟨aid, sp, r1, tr1, hb⟩⟩ :=
    rallyStep_cases env sim game ls st h
  · constructor
    · intro dteam ateam sp b d hc
      have := hlast _ hc
      simp [PhaseCall.isDefense] at this
    · intro dteam ateam b d hc
      have := hlast _ hc
      simp [PhaseCall.isDefense] at this
  · obtain ⟨b, d, -, ⟨hbb, htr, hd⟩ | ⟨hbb, htr, hd⟩⟩ :=
      blockPhase_cases sim game _ _ aid sp r1 tr1 st hb
    · rw [htr, getLast?_append_pair]
      constructor
      · intro dteam ateam sp1 b1 d1 hc
        simp at hc
      · intro dteam ateam b1 d1 hc hq
        simp only [Option.some.injEq, PhaseCall.defenseBlockBack.injEq] at hc
        obtain ⟨rfl, rfl, rfl, rfl⟩ := hc
        rcases hd with ⟨-, res, rfl, hw, -, -⟩ | ⟨hnq, -⟩
        · exact ⟨hbb, rfl, rfl, res, rallyLoop_of_done env sim game n ls res h, htr, hw⟩
        · exact absurd hq hnq
    · rw [htr, getLast?_append_pair]
      constructor
      · intro dteam ateam sp1 b1 d1 hc hq
        simp only [Option.some.injEq, PhaseCall.defenseSpike.injEq] at hc
        obtain ⟨rfl, rfl, -, rfl, rfl⟩ := hc
        rcases hd with ⟨-, -, -, res, rfl, hw, -, -⟩ | ⟨hnq, -⟩
        · exact ⟨hbb, rfl, rfl, res, rallyLoop_of_done env sim game n ls res h, htr, hw⟩
        · exact absurd hq hnq
      · intro dteam ateam b1 d1 hc
        simp at hc

/-- C7 (witness): team B of the default rosters attacks; a Fault of team A against
the direct attack gives the point to B (1), and a Fault of team B against the
ball blocked back by A gives the point to A (0). -/
theorem C7_defense_fault_witness :
    (∃ res, rallyLoop exampleEnv simDefenseFault (exampleGame 0) (49 + 1) exampleLoopState
        = .ok res ∧ res.winner = 1) ∧
    (∃ res, rallyLoop exampleEnv simBlockBackFault (exampleGame 0) (49 + 1) exampleLoopState
        = .ok res ∧ res.winner = 0) :=
  ⟨(((C7_defense_fault exampleEnv simDefenseFault (exampleGame 0) 49 exampleLoopState).2 _ rfl).1
      0 1 spikeStrong (blockOf .NO_TOUCH) (defenseOf .DEFENSE_FAULT) (by decide) rfl).2.2.2.imp
      (fun _ hres => ⟨hres.1, hres.2.2⟩),
   (((C7_defense_fault exampleEnv simBlockBackFault (exampleGame 0) 49 exampleLoopState).2 _
      rfl).2 1 0 (blockOf .BLOCK_BACK) (defenseOf .DEFENSE_FAULT) (by decide) rfl).2.2.2.imp
      (fun _ hres => ⟨hres.1, hres.2.2⟩)⟩

/-- C8 (failing input): with the default rosters and team A serving, team B's
setter B2 (roster index 1, rotation slot 1) dumps without error, the block does
not touch the ball and the defense is a Fault. The rally ends with the point
for B and one score credit, but `attackerID` still has its initial value 0:
the credit goes to `scoredB[0]` (B1) and `scoredB[1]` of the setter stays 0. -/
theorem C8_dump_credit_at_index_zero :
    FirstSetterSlot defaultTeamB (exampleGame 0).rotateB 1 ∧ (exampleGame 0).rotateB 1 = 1 ∧
    ∃ res, processRallyFromServe exampleEnv simDumpDefenseFault (exampleGame 0) () = .ok res ∧
      res.winner = 1 ∧ res.ending = .defenseFault ∧
      res.game.scoredB 0 = (exampleGame 0).scoredB 0 + 1 ∧
      res.game.scoredB 1 = (exampleGame 0).scoredB 1 ∧
      res.game.faultA = (exampleGame 0).faultA ∧ res.game.faultB = (exampleGame 0).faultB ∧
      res.game.scoredA = (exampleGame 0).scoredA :=
  ⟨by decide, by decide, _, rfl, by decide⟩

/-- C9 (counterexample): the scenario on the default rosters. Team A serves with
effectiveness 50, B1 receives Good with value 70, B2 sets to the front spiker
B4, B4 attacks Strong with power 80, the block is NoTouch and the defense of
team A is a Fault. The point goes to team B, not A, and no fault counter
changes: the one counter incremented is the score credit of B4. -/
theorem C9_scenario_counterexample :
    ∃ res, processRallyFromServe exampleEnv simDefenseFault (exampleGame 0) () = .ok res ∧
      res.winner = 1 ∧ res.winner ≠ 0 ∧
      res.game.faultA = (exampleGame 0).faultA ∧ res.game.faultB = (exampleGame 0).faultB ∧
      res.game.scoredB 3 = (exampleGame 0).scoredB 3 + 1 :=
  ⟨_, rfl, by decide⟩

/-- C9 (amended): with team A serving, a successful serve of effectiveness 50, a
Good reception by B of value 70, a good set to a front spiker that is not a
dump, a Strong attack of power 80 without error, a NoTouch block and a Fault
defense, the rally makes exactly one pass through the loop (one call of each
of serve, reception, set, spike, block and defense), the point goes to team B,
the receiving side, which attacked, and the match state afterwards is the one
before with one change: the score-credit counter of team B at the roster index
of the spiker is 1 higher; no fault counter changes. -/
theorem C9_scenario {R : Type} (env : Env) (sim : Simulators R) (game : GameState) (rng : R)
    (ja : Fin 6) (hs : game.serveSide = 0) (hwf : env.WellFormed game)
    (hmax : 0 < env.maxRallyCount)
    (hserve : ∀ r p g, (sim.serve r p g).1.success = true ∧
      (sim.serve r p g).1.effectiveness = 50)
    (hrecv : ∀ r g t e, (sim.receive r g t e).1.quality = .RECEIVE_GOOD ∧
      (sim.receive r g t e).1.qualityValue = 70)
    (hset : ∀ r p g t rc, (sim.simulateSet r p g t rc).1.isSetterDump = false ∧
      (sim.simulateSet r p g t rc).1.quality = .GOOD_PASS ∧
      (sim.simulateSet r p g t rc).1.target = .FRONT_SPIKER)
    (hspike : ∀ r p g t ps, (sim.simulateSpike r p g t ps).1.isError = false ∧
      (sim.simulateSpike r p g t ps).1.strategy = .STRONG_ATTACK ∧
      (sim.simulateSpike r p g t ps).1.spikePower = 80 ∧
      FirstNamedSlot env.teamB game.rotateB (sim.simulateSpike r p g t ps).1.attacker.name ja)
    (hblock : ∀ r g d a sp, (sim.simulateBlock r g d a sp).1.result = .NO_TOUCH)
    (hdef : ∀ r g d a sp b,
      (sim.simulateDefenseAgainstSpike r g d a sp b).1.quality = .DEFENSE_FAULT) :
    ∃ res, processRallyFromServe env sim game rng = .ok res ∧
      res.winner = 1 ∧
      res.game = game.creditScored 1 (game.rotateB ja) ∧
      (∃ server sv rc setter ps sp bl df,
        res.trace = [PhaseCall.serve server sv, PhaseCall.receive 1 50 rc,
          PhaseCall.set setter 1 rc ps, PhaseCall.spike ps.targetPlayer 1 ps sp,
          PhaseCall.block 0 1 sp bl, PhaseCall.defenseSpike 0 1 sp bl df] ∧
        rc.qualityValue = 70 ∧ sp.spikePower = 80) ∧
      res.ending = .defenseFault := by
  obtain ⟨hvA, hvB, -, jB, hjB⟩ := hwf
  obtain ⟨m, hm⟩ : ∃ m, env.maxRallyCount = m + 1 := ⟨env.maxRallyCount - 1, by omega⟩
  have e1 : ∀ r p g, (sim.serve r p g).1.success = true := fun r p g => (hserve r p g).1
  have e2 : ∀ r p g, (sim.serve r p g).1.effectiveness = 50 := fun r p g => (hserve r p g).2
  have e3 : ∀ r g t e, (sim.receive r g t e).1.quality = .RECEIVE_GOOD :=
    fun r g t e => (hrecv r g t e).1
  have e4 : ∀ r p g t rc, (sim.simulateSet r p g t rc).1.isSetterDump = false :=
    fun r p g t rc => (hset r p g t rc).1
  have e5 : ∀ r p g t rc, (sim.simulateSet r p g t rc).1.quality = .GOOD_PASS :=
    fun r p g t rc => (hset r p g t rc).2.1
  have e6 : ∀ r p g t ps, (sim.simulateSpike r p g t ps).1.isError = false :=
    fun r p g t ps => (hspike r p g t ps).1
  have hrot : game.rotationOf 1 = game.rotateB := by simp [GameState.rotationOf]
  have hros : env.rosterOf 1 = env.teamB := by simp [Env.rosterOf]
  have hrot0 : game.rotationOf 0 = game.rotateA := by simp [GameState.rotationOf]
  have hsc := scanSetter_first env.teamB game.rotateB env.blank jB hvB hjB
  have hat := fun r p g t ps =>
    scanAttacker_first env.teamB game.rotateB _ ja hvB (hspike r p g t ps).2.2.2
  unfold processRallyFromServe serveAndReceive processRallyFromReceive
  simp only [hs, hm, hrot0, sub_zero, Roster.at_of_range _ _ (hvA 0).1 (hvA 0).2, e1, e2, e3,
    Bool.true_eq_false, if_false, reduceCtorEq, rallyLoop_succ]
  unfold rallyStep blockPhase defendSpike
  simp only [hrot, hros, hsc, e4, e5, e6, hat, hblock, hdef,
    incrScored_of_range game _ _ (hvB ja).1 (hvB ja).2,
    Bool.true_eq_false, Bool.false_eq_true, if_false, if_true, and_true, and_false,
    reduceCtorEq]
  exact ⟨_, rfl, rfl, rfl, ⟨_, _, _, _, _, _, _, _, rfl, (hrecv _ _ _ _).2,
    (hspike _ _ _ _ _).2.2.1⟩, rfl⟩

/-- C9 (witness): the scenario on the default rosters; the spiker B4 is roster
index 3. -/
theorem C9_scenario_witness :
    ∃ res, processRallyFromServe exampleEnv simDefenseFault (exampleGame 0) () = .ok res ∧
      res.winner = 1 ∧
      res.game = (exampleGame 0).creditScored 1 ((exampleGame 0).rotateB 3) ∧
      (∃ server sv rc setter ps sp bl df,
        res.trace = [PhaseCall.serve server sv, PhaseCall.receive 1 50 rc,
          PhaseCall.set setter 1 rc ps, PhaseCall.spike ps.targetPlayer 1 ps sp,
          PhaseCall.block 0 1 sp bl, PhaseCall.defenseSpike 0 1 sp bl df] ∧
        rc.qualityValue = 70 ∧ sp.spikePower = 80) ∧
      res.ending = .defenseFault :=
  C9_scenario exampleEnv simDefenseFault (exampleGame 0) () 3 rfl (by decide) (by decide)
    (fun _ _ _ => ⟨rfl, rfl⟩) (fun _ _ _ _ => ⟨rfl, rfl⟩) (fun _ _ _ _ _ => ⟨rfl, rfl, rfl⟩)
    (fun _ _ _ _ _ => ⟨rfl, rfl, rfl,
      (by decide : FirstNamedSlot defaultTeamB exampleRotation "B4" 3)⟩)
    (fun _ _ _ _ _ => rfl)
    (fun _ _ _ _ _ _ => rfl)

/-! ## The loop states -/

theorem loopStateAt_succ {R : Type} (env : Env) (sim : Simulators R) (game : GameState)
    (ls0 ls1 : LoopState R) (k : Nat)
    (h : loopStateAt env sim game ls0 (k + 1) = some ls1) :
    ∃ ls, loopStateAt env sim game ls0 k = some ls ∧
      rallyStep env sim game ls = .ok (.next ls1) := by
  simp only [loopStateAt] at h
  split at h
  · cases h
  · rename_i ls hls
    refine ⟨ls, hls, ?_⟩
    split at h
    · rename_i ls2 hst
      cases h
      exact hst
    · cases h

theorem rallyLoop_loopStateAt {R : Type} (env : Env) (sim : Simulators R) (game : GameState)
    (ls0 : LoopState R) (k : Nat) : ∀ (ls : LoopState R) (n : Nat),
    loopStateAt env sim game ls0 k = some ls →
    rallyLoop env sim game (k + n) ls0 = rallyLoop env sim game n ls := by
  induction k with
  | zero =>
    intro ls n h
    simp only [loopStateAt, Option.some.injEq] at h
    subst h
    simp
  | succ k ih =>
    intro ls1 n h
    obtain ⟨ls, hls, hst⟩ := loopStateAt_succ env sim game ls0 ls1 k h
    have := ih ls (n + 1) hls
    rw [show k + 1 + n = k + (n + 1) by omega, this, rallyLoop_of_next env sim game n ls ls1 hst]

theorem loopStateAt_teams {R : Type} (env : Env) (sim : Simulators R) (game : GameState)
    (ls0 : LoopState R)
    (h0 : (ls0.currentAttackingTeam = 0 ∧ ls0.currentDefendingTeam = 1) ∨
      (ls0.currentAttackingTeam = 1 ∧ ls0.currentDefendingTeam = 0))
    (k : Nat) : ∀ ls : LoopState R, loopStateAt env sim game ls0 k = some ls →
    (ls.currentAttackingTeam = 0 ∧ ls.currentDefendingTeam = 1) ∨
      (ls.currentAttackingTeam = 1 ∧ ls.currentDefendingTeam = 0) := by
  induction k with
  | zero =>
    intro ls h
    simp only [loopStateAt, Option.some.injEq] at h
    subst h
    exact h0
  | succ k ih =>
    intro ls1 h
    obtain ⟨ls, hls, hst⟩ := loopStateAt_succ env sim game ls0 ls1 k h
    have hk := ih ls hls
    rcases rallyStep_next env sim game ls ls1 hst with ⟨ha, hd⟩ | ⟨ha, hd⟩
    · rw [ha, hd]; exact hk
    · rw [ha, hd]; exact hk.symm.imp And.symm And.symm

/-- C10: let the loop of a rally started by processRallyFromServe (serveSide 0
or 1) be at the head of an iteration, after `k` completed iterations. (1) The
attacking and the defending team are the two distinct values 0 and 1. (2) The
Set call of the iteration is made for the current attacking team with the
current receive result as input. (3) If the iteration loops back, its Defense
call returned a non-fault outcome, the next receive result is that outcome
converted by convertDefenseToReceive, and the next attacking team is the team
that made the defense: after a direct attack the defending team of this
iteration (roles swapped), after a BlockBack the attacking team of this
iteration again (roles kept); by (2) the next Set call is made for that team
with the converted outcome. (4) The state is the one the loop reaches: running
the loop from its entry with `k + n` iterations left equals running it from
this state with `n` left. -/
theorem C10_loop_back_roles {R : Type} (env : Env) (sim : Simulators R) (game : GameState)
    (rng : R) (hs : game.serveSide = 0 ∨ game.serveSide = 1) (ls0 : LoopState R)
    (h0 : serveAndReceive env sim game rng = .ok (.next ls0)) (k : Nat) (ls : LoopState R)
    (hk : loopStateAt env sim game ls0 k = some ls) :
    ((ls.currentAttackingTeam = 0 ∧ ls.currentDefendingTeam = 1) ∨
      (ls.currentAttackingTeam = 1 ∧ ls.currentDefendingTeam = 0)) ∧
    (∀ st, rallyStep env sim game ls = .ok st →
      ∃ setter p tail, st.trace = ls.trace ++
        PhaseCall.set setter ls.currentAttackingTeam ls.currentReceiveResult p :: tail) ∧
    (∀ ls1, rallyStep env sim game ls = .ok (.next ls1) →
      ∃ d : DefenseResult, d.quality ≠ .DEFENSE_FAULT ∧
        ls1.currentReceiveResult = convertDefenseToReceive d ∧
        ((∃ sp b, b.result ≠ .BLOCK_BACK ∧
            ls1.trace.getLast? = some (PhaseCall.defenseSpike ls.currentDefendingTeam
              ls.currentAttackingTeam sp b d) ∧
            ls1.currentAttackingTeam = ls.currentDefendingTeam ∧
            ls1.currentDefendingTeam = ls.currentAttackingTeam) ∨
         (∃ b, b.result = .BLOCK_BACK ∧
            ls1.trace.getLast? = some (PhaseCall.defenseBlockBack ls.currentAttackingTeam
              ls.currentDefendingTeam b d) ∧
            ls1.currentAttackingTeam = ls.currentAttackingTeam ∧
            ls1.currentDefendingTeam = ls.currentDefendingTeam))) ∧
    (∀ n, rallyLoop env sim game (k + n) ls0 = rallyLoop env sim game n ls) := by
  refine ⟨?_, ?_, ?_, fun n => rallyLoop_loopStateAt env sim game ls0 k ls n hk⟩
  · obtain ⟨ha, hd⟩ := serveAndReceive_next env sim game rng ls0 h0
    refine loopStateAt_teams env sim game ls0 ?_ k ls hk
    rw [ha, hd]
    rcases hs with h | h <;> simp [h]
  · intro st hst
    obtain ⟨setter, p, ⟨tail, ht⟩, -⟩ := rallyStep_cases env sim game ls st hst
    exact ⟨setter, p, tail, ht⟩
  · intro ls1 hst
    obtain ⟨setter, p, -, ⟨res, hres, -⟩ | ⟨aid, sp, r1, tr1, hb⟩⟩ :=
      rallyStep_cases env sim game ls _ hst
    · cases hres
    · obtain ⟨b, d, -, ⟨hbb, htr, hd⟩ | ⟨hbb, htr, hd⟩⟩ :=
        blockPhase_cases sim game _ _ aid sp r1 tr1 _ hb
      · rcases hd with ⟨-, res, hres, -⟩ | ⟨hq, ls2, hls2, ha, hdf, hr⟩
        · cases hres
        · cases hls2
          exact ⟨d, hq, hr, Or.inr ⟨b, hbb, by rw [show ls1.trace = _ from htr,
            getLast?_append_pair], ha, hdf⟩⟩
      · rcases hd with ⟨-, -, -, res, hres, -⟩ | ⟨hq, ls2, hls2, ha, hdf, hr⟩
        · cases hres
        · cases hls2
          exact ⟨d, hq, hr, Or.inl ⟨_, b, hbb, by rw [show ls1.trace = _ from htr,
            getLast?_append_pair], ha, hdf⟩⟩

/-- C10 (witness): the default rosters with team A serving and simulators that
always loop back; after one completed iteration team A (0) attacks and team B
(1) defends. -/
theorem C10_loop_back_roles_witness :
    ∃ ls0 ls, serveAndReceive exampleEnv simLoopBack (exampleGame 0) () = .ok (.next ls0) ∧
      loopStateAt exampleEnv simLoopBack (exampleGame 0) ls0 1 = some ls ∧
      ls0.currentAttackingTeam = 1 ∧ ls.currentAttackingTeam = 0 ∧
      ((ls.currentAttackingTeam = 0 ∧ ls.currentDefendingTeam = 1) ∨
        (ls.currentAttackingTeam = 1 ∧ ls.currentDefendingTeam = 0)) :=
  ⟨_, _, rfl, rfl, rfl, rfl,
    (C10_loop_back_roles exampleEnv simLoopBack (exampleGame 0) () (Or.inl rfl) _ rfl 1 _ rfl).1⟩

/-! ## The Set calls of a rally -/

theorem rallyStep_trace {R : Type} (env : Env) (sim : Simulators R) (game : GameState)
    (ls : LoopState R) (st : Step R) (h : rallyStep env sim game ls = .ok st) :
    ∃ (setter : Player) (p : PassResult) (tail : List PhaseCall),
      st.trace = ls.trace ++
        PhaseCall.set setter ls.currentAttackingTeam ls.currentReceiveResult p :: tail ∧
      ∀ c ∈ tail, c.isSet = false := by
  unfold rallyStep at h
  simp only at h
  split at h
  · cases h
  · rename_i s hs
    refine ⟨s.1, (sim.simulateSet ls.rng s.1 game ls.currentAttackingTeam
      ls.currentReceiveResult).1, ?_⟩
    split at h
    · split at h
      · cases h
      · cases h
        exact ⟨[], rfl, by simp⟩
    · split at h
      · split at h
        · split at h
          · cases h
          · cases h
            exact ⟨_, by simp [Step.trace]; rfl, by simp [PhaseCall.isSet]⟩
        · obtain ⟨b, d, -, ⟨-, ht, -⟩ | ⟨-, ht, -⟩⟩ := blockPhase_cases _ _ _ _ _ _ _ _ _ h
          · exact ⟨_, by rw [ht]; simp; rfl, by simp [PhaseCall.isSet]⟩
          · exact ⟨_, by rw [ht]; simp; rfl, by simp [PhaseCall.isSet]⟩
      · split at h
        · cases h
        · split at h
          · split at h
            · cases h
            · cases h
              exact ⟨_, by simp [Step.trace]; rfl, by simp [PhaseCall.isSet]⟩
          · obtain ⟨b, d, -, ⟨-, ht, -⟩ | ⟨-, ht, -⟩⟩ := blockPhase_cases _ _ _ _ _ _ _ _ _ h
            · exact ⟨_, by rw [ht]; simp; rfl, by simp [PhaseCall.isSet]⟩
            · exact ⟨_, by rw [ht]; simp; rfl, by simp [PhaseCall.isSet]⟩

theorem rallyStep_setCount {R : Type} (env : Env) (sim : Simulators R) (game : GameState)
    (ls : LoopState R) (st : Step R) (h : rallyStep env sim game ls = .ok st) :
    setCount st.trace = setCount ls.trace + 1 := by
  obtain ⟨setter, p, tail, ht, hno⟩ := rallyStep_trace env sim game ls st h
  have h0 : List.countP PhaseCall.isSet tail = 0 := by
    rw [List.countP_eq_zero]
    intro c hc
    simp [hno c hc]
  rw [ht]
  simp [setCount, List.countP_append, List.countP_cons, PhaseCall.isSet, h0]

theorem rallyLoop_setCount {R : Type} (env : Env) (sim : Simulators R) (game : GameState)
    (n : Nat) : ∀ (ls : LoopState R) (res : RallyResult R),
    rallyLoop env sim game n ls = .ok res →
    setCount res.trace ≤ setCount ls.trace + n ∧
    (res.ending = .ceiling → setCount res.trace = setCount ls.trace + n) := by
  induction n with
  | zero =>
    intro ls res h
    simp only [rallyLoop] at h
    cases h
    simp
  | succ n ih =>
    intro ls res h
    rw [rallyLoop_succ] at h
    split at h
    · cases h
    · rename_i res1 hst
      cases h
      have hc := rallyStep_setCount env sim game ls _ hst
      have hd := rallyStep_done env sim game ls _ hst
      simp only [Step.trace] at hc
      refine ⟨by omega, fun he => ?_⟩
      rcases hd.2 with ⟨hb, -⟩ | ⟨-, hne, -⟩
      · rw [hb] at he; cases he
      · exact absurd he hne
    · rename_i ls1 hst
      have hc := rallyStep_setCount env sim game ls _ hst
      simp only [Step.trace] at hc
      obtain ⟨h1, h2⟩ := ih ls1 res h
      exact ⟨by omega, fun he => by have := h2 he; omega⟩

theorem rallyStep_next_convert {R : Type} (env : Env) (sim : Simulators R) (game : GameState)
    (ls ls1 : LoopState R) (h : rallyStep env sim game ls = .ok (.next ls1)) :
    ∃ d : DefenseResult, d.quality ≠ .DEFENSE_FAULT ∧
      ls1.currentReceiveResult = convertDefenseToReceive d := by
  obtain ⟨setter, p, -, ⟨res, hres, -⟩ | ⟨aid, sp, r1, tr1, hb⟩⟩ :=
    rallyStep_cases env sim game ls _ h
  · cases hres
  · obtain ⟨b, d, -, ⟨-, -, hd⟩ | ⟨-, -, hd⟩⟩ :=
      blockPhase_cases sim game _ _ aid sp r1 tr1 _ hb
    · rcases hd with ⟨-, res, hres, -⟩ | ⟨hq, ls2, hls2, -, -, hr⟩
      · cases hres
      · cases hls2; exact ⟨d, hq, hr⟩
    · rcases hd with ⟨-, -, -, res, hres, -⟩ | ⟨hq, ls2, hls2, -, -, hr⟩
      · cases hres
      · cases hls2; exact ⟨d, hq, hr⟩

theorem convertDefenseToReceive_quality (d : DefenseResult) (h : d.quality ≠ .DEFENSE_FAULT) :
    (convertDefenseToReceive d).quality ≠ .RECEIVE_FAULT := by
  unfold convertDefenseToReceive
  split <;> simp_all

/-- Every Set call recorded so far received an input whose tier is not Fault. -/
theorem rallyLoop_set_inputs {R : Type} (env : Env) (sim : Simulators R) (game : GameState)
    (n : Nat) : ∀ (ls : LoopState R) (res : RallyResult R),
    ls.currentReceiveResult.quality ≠ .RECEIVE_FAULT →
    (∀ setter team input p, PhaseCall.set setter team input p ∈ ls.trace →
      input.quality ≠ .RECEIVE_FAULT) →
    rallyLoop env sim game n ls = .ok res →
    ∀ setter team input p, PhaseCall.set setter team input p ∈ res.trace →
      input.quality ≠ .RECEIVE_FAULT := by
  have step : ∀ (ls : LoopState R) (st : Step R),
      ls.currentReceiveResult.quality ≠ .RECEIVE_FAULT →
      (∀ setter team input p, PhaseCall.set setter team input p ∈ ls.trace →
        input.quality ≠ .RECEIVE_FAULT) →
      rallyStep env sim game ls = .ok st →
      ∀ setter team input p, PhaseCall.set setter team input p ∈ st.trace →
        input.quality ≠ .RECEIVE_FAULT := by
    intro ls st hq htr hst setter team input p hmem
    obtain ⟨s1, p1, tail, ht, hno⟩ := rallyStep_trace env sim game ls st hst
    rw [ht, List.mem_append, List.mem_cons] at hmem
    rcases hmem with hm | hm | hm
    · exact htr _ _ _ _ hm
    · cases hm; exact hq
    · have := hno _ hm
      simp [PhaseCall.isSet] at this
  induction n with
  | zero =>
    intro ls res hq htr h
    simp only [rallyLoop] at h
    cases h
    exact htr
  | succ n ih =>
    intro ls res hq htr h
    rw [rallyLoop_succ] at h
    split at h
    · cases h
    · rename_i res1 hst
      cases h
      exact step ls _ hq htr hst
    · rename_i ls1 hst
      obtain ⟨d, hd, hr⟩ := rallyStep_next_convert env sim game ls ls1 hst
      refine ih ls1 res ?_ (step ls _ hq htr hst) h
      rw [hr]
      exact convertDefenseToReceive_quality d hd

/-! ## Frame of a rally -/

theorem Credited.frame {g g1 : GameState} (h : Credited g g1) :
    g1.scoreA = g.scoreA ∧ g1.scoreB = g.scoreB ∧ g1.setNum = g.setNum ∧
    g1.serveSide = g.serveSide ∧ g1.rotateA = g.rotateA ∧ g1.rotateB = g.rotateB ∧
    g1.liberoReplaceA = g.liberoReplaceA ∧ g1.liberoReplaceB = g.liberoReplaceB := by
  obtain ⟨team, k, -, -, rfl | rfl⟩ := h
  · unfold GameState.creditFault
    split <;> exact ⟨rfl, rfl, rfl, rfl, rfl, rfl, rfl, rfl⟩
  · unfold GameState.creditScored
    split <;> exact ⟨rfl, rfl, rfl, rfl, rfl, rfl, rfl, rfl⟩

theorem processRallyFromServe_frame {R : Type} (env : Env) (sim : Simulators R)
    (game : GameState) (rng : R) (res : RallyResult R)
    (h : processRallyFromServe env sim game rng = .ok res) :
    res.game.scoreA = game.scoreA ∧ res.game.scoreB = game.scoreB ∧
    res.game.setNum = game.setNum ∧ res.game.serveSide = game.serveSide ∧
    res.game.rotateA = game.rotateA ∧ res.game.rotateB = game.rotateB ∧
    res.game.liberoReplaceA = game.liberoReplaceA ∧
    res.game.liberoReplaceB = game.liberoReplaceB := by
  rcases processRallyFromServe_game env sim game rng res h with ⟨-, hg⟩ | ⟨-, -, hc⟩
  · rw [hg]; exact ⟨rfl, rfl, rfl, rfl, rfl, rfl, rfl, rfl⟩
  · exact hc.frame

/-! ## The claims on the ceiling, the conversion, the block and the frame -/

/-- C11: processRallyFromReceive makes at most MAX_RALLY_COUNT Set calls, one per
loop iteration, a BlockBack iteration included. If every one of the
MAX_RALLY_COUNT iterations loops back, it returns at the ceiling after exactly
MAX_RALLY_COUNT Set calls, the result is the attacking or the defending team
of the final loop state and one of the two teams it was called with, hence 0
or 1 when these are 0 and 1, and the match state with all its counters is
unchanged. The loop is defined by recursion on the iterations left, and on a
well-formed state it returns. -/
theorem C11_rally_ceiling {R : Type} (env : Env) (sim : Simulators R) (game : GameState)
    (att dfd : Int) (recv : ReceiveResult) (rng : R) (tr : List PhaseCall) :
    (∀ res, processRallyFromReceive env sim game att dfd recv rng tr = .ok res →
      setCount res.trace ≤ setCount tr + env.maxRallyCount) ∧
    (∀ lsEnd, loopStateAt env sim game ⟨att, dfd, recv, rng, tr⟩ env.maxRallyCount
        = some lsEnd →
      ∃ res, processRallyFromReceive env sim game att dfd recv rng tr = .ok res ∧
        res.ending = .ceiling ∧
        setCount res.trace = setCount tr + env.maxRallyCount ∧
        (res.winner = lsEnd.currentAttackingTeam ∨ res.winner = lsEnd.currentDefendingTeam) ∧
        (res.winner = att ∨ res.winner = dfd) ∧
        ((att = 0 ∧ dfd = 1 ∨ att = 1 ∧ dfd = 0) → res.winner = 0 ∨ res.winner = 1) ∧
        res.game = game) ∧
    (env.WellFormed game →
      ∃ res, processRallyFromReceive env sim game att dfd recv rng tr = .ok res) := by
  refine ⟨fun res h => ?_, fun lsEnd hEnd => ?_, fun hwf => ?_⟩
  · exact (rallyLoop_setCount env sim game _ _ res h).1
  · have hrun := rallyLoop_loopStateAt env sim game ⟨att, dfd, recv, rng, tr⟩
      env.maxRallyCount lsEnd 0 hEnd
    rw [Nat.add_zero] at hrun
    have h0 : ∃ res, rallyLoop env sim game 0 lsEnd = .ok res ∧ res.ending = .ceiling ∧
        (res.winner = lsEnd.currentAttackingTeam ∨ res.winner = lsEnd.currentDefendingTeam) ∧
        res.game = game := by
      refine ⟨_, rfl, rfl, ?_, rfl⟩
      simp only
      split
      · exact Or.inl rfl
      · exact Or.inr rfl
    obtain ⟨res, hres, hend, hlast, hgame⟩ := h0
    have hfull : processRallyFromReceive env sim game att dfd recv rng tr = .ok res := by
      unfold processRallyFromReceive
      rw [hrun, hres]
    have hw := rallyLoop_winner env sim game _ _ res hfull
    have hc := (rallyLoop_setCount env sim game _ _ res hfull).2 hend
    simp only at hw hc
    exact ⟨res, hfull, hend, hc, hlast, hw, fun hp => by omega, hgame⟩
  · exact rallyLoop_total env sim game hwf _ _

/-- C11 (witness): the default rosters with a ceiling of 50 and simulators that
always loop back; the rally ends at the ceiling after 50 Set calls. -/
theorem C11_rally_ceiling_witness :
    ∃ res, processRallyFromReceive exampleEnv simLoopBack (exampleGame 0) 1 0 receiveGood () []
        = .ok res ∧
      res.ending = .ceiling ∧ setCount res.trace = 50 ∧ (res.winner = 0 ∨ res.winner = 1) ∧
      res.game = exampleGame 0 :=
  ((C11_rally_ceiling exampleEnv simLoopBack (exampleGame 0) 1 0 receiveGood () []).2.1 _
    rfl).imp fun _ h => ⟨h.1, h.2.1, h.2.2.1, h.2.2.2.2.2.1 (Or.inr ⟨rfl, rfl⟩), h.2.2.2.2.2.2⟩

/-- C12: convertDefenseToReceive keeps the quality value, makes the defender the
receiver and maps the tier Perfect to Perfect, Good to Good and Bad to Bad. In a
loop iteration that loops back, the next receive result is the conversion of a
defense outcome whose tier is not Fault, and in a rally run by
processRallyFromServe every Set call receives an input whose tier is not
Fault. On a well-formed state the rally returns. -/
theorem C12_convert_defense {R : Type} (env : Env) (sim : Simulators R) (game : GameState)
    (rng : R) :
    (∀ d : DefenseResult,
      (convertDefenseToReceive d).qualityValue = d.qualityValue ∧
      (convertDefenseToReceive d).receiver = d.defender ∧
      (d.quality = .DEFENSE_PERFECT → (convertDefenseToReceive d).quality = .RECEIVE_PERFECT) ∧
      (d.quality = .DEFENSE_GOOD → (convertDefenseToReceive d).quality = .RECEIVE_GOOD) ∧
      (d.quality = .DEFENSE_BAD → (convertDefenseToReceive d).quality = .RECEIVE_BAD)) ∧
    (∀ ls ls1 : LoopState R, rallyStep env sim game ls = .ok (.next ls1) →
      ∃ d : DefenseResult, d.quality ≠ .DEFENSE_FAULT ∧
        ls1.currentReceiveResult = convertDefenseToReceive d) ∧
    (∀ res, processRallyFromServe env sim game rng = .ok res →
      ∀ setter team input p, PhaseCall.set setter team input p ∈ res.trace →
        input.quality ≠ .RECEIVE_FAULT) ∧
    (env.WellFormed game → ∃ res, processRallyFromServe env sim game rng = .ok res) := by
  refine ⟨fun d => ?_, rallyStep_next_convert env sim game, fun res h => ?_,
    processRallyFromServe_total env sim game rng⟩
  · unfold convertDefenseToReceive
    split <;> simp_all
  · unfold processRallyFromServe at h
    split at h
    · cases h
    · rename_i res1 hst
      cases h
      unfold serveAndReceive at hst
      simp only at hst
      split at hst
      · cases hst
      · split at hst
        · split at hst
          · cases hst
          · cases hst
            intro setter team input p hm
            simp at hm
        · split at hst
          · split at hst
            · cases hst
            · cases hst
              intro setter team input p hm
              simp at hm
          · cases hst
    · rename_i ls hst
      unfold serveAndReceive at hst
      simp only at hst
      split at hst
      · cases hst
      · split at hst
        · split at hst <;> cases hst
        · split at hst
          · split at hst <;> cases hst
          · rename_i hq
            cases hst
            exact rallyLoop_set_inputs env sim game _ _ res hq
              (fun setter team input p hm => by simp at hm) h

/-- C12 (witness): in the one-iteration rally of the default rosters the Set call
of team B receives the Good reception of B1. -/
theorem C12_convert_defense_witness :
    ∃ res, processRallyFromServe exampleEnv simDefenseFault (exampleGame 0) () = .ok res ∧
      PhaseCall.set (makeP "B2" "S") 1 receiveGood setGood ∈ res.trace ∧
      receiveGood.quality ≠ .RECEIVE_FAULT :=
  ⟨_, rfl, by decide,
    (C12_convert_defense exampleEnv simDefenseFault (exampleGame 0) ()).2.2.1 _ rfl
      (makeP "B2" "S") 1 _ setGood (by decide)⟩

/-- C13: in every loop iteration whose last call is the Defense against a direct
attack, that call directly follows the Block call of the iteration, is made
for the same defending and attacking team as the Block call, the teams of the
iteration, and with the same block outcome; the block result is not BlockBack,
and the spike handed to the defense has power increasedSpikePower after
BlockBreak, reducedSpikePower after LimitPath and after Touch, and the power of
the attack handed to the block after NoTouch. On a well-formed state the
iteration produces an outcome. -/
theorem C13_block_power {R : Type} (env : Env) (sim : Simulators R) (game : GameState)
    (ls : LoopState R) :
    (env.WellFormed game → ∃ st, rallyStep env sim game ls = .ok st) ∧
    ∀ st, rallyStep env sim game ls = .ok st →
      ∀ dteam ateam sp1 b d,
        st.trace.getLast? = some (PhaseCall.defenseSpike dteam ateam sp1 b d) →
        dteam = ls.currentDefendingTeam ∧ ateam = ls.currentAttackingTeam ∧
        b.result ≠ .BLOCK_BACK ∧
        ∃ pre sp, st.trace = pre ++ [PhaseCall.block dteam ateam sp b,
            PhaseCall.defenseSpike dteam ateam sp1 b d] ∧
          (b.result = .BLOCK_BREAK → sp1.spikePower = b.increasedSpikePower) ∧
          (b.result = .LIMIT_PATH → sp1.spikePower = b.reducedSpikePower) ∧
          (b.result = .BLOCK_TOUCH → sp1.spikePower = b.reducedSpikePower) ∧
          (b.result = .NO_TOUCH → sp1.spikePower = sp.spikePower) := by
  refine ⟨rallyStep_total env sim game ls, fun st h dteam ateam sp1 b1 d1 hc => ?_⟩
  obtain ⟨setter, p, -, ⟨res, -, -, hlast, -⟩ | ⟨aid, sp, r1, tr1, hb⟩⟩ :=
    rallyStep_cases env sim game ls st h
  · have := hlast _ hc
    simp [PhaseCall.isDefense] at this
  · obtain ⟨b, d, -, ⟨hbb, htr, -⟩ | ⟨hbb, htr, -⟩⟩ :=
      blockPhase_cases sim game _ _ aid sp r1 tr1 st hb
    · rw [htr, getLast?_append_pair] at hc
      simp at hc
    · rw [htr, getLast?_append_pair] at hc
      simp only [Option.some.injEq, PhaseCall.defenseSpike.injEq] at hc
      obtain ⟨rfl, rfl, rfl, rfl, rfl⟩ := hc
      refine ⟨rfl, rfl, hbb, tr1, sp, htr, ?_, ?_, ?_, ?_⟩ <;>
        intro hr <;> simp [blockedSpike, hr]

/-- C13 (witness): team B of the default rosters attacks with power 80 and the
block breaks with increased power 90; the defense of team A (0) against team B
(1) receives power 90. -/
theorem C13_block_power_witness :
    ∃ st, rallyStep exampleEnv simBlockBreak (exampleGame 0) exampleLoopState = .ok st ∧
      st.trace.getLast? = some (PhaseCall.defenseSpike 0 1
        { spikeStrong with spikePower := 90 } (blockOf .BLOCK_BREAK)
        (defenseOf .DEFENSE_FAULT)) ∧
      (blockOf .BLOCK_BREAK).result ≠ .BLOCK_BACK :=
  ⟨_, rfl, by decide,
    ((C13_block_power exampleEnv simBlockBreak (exampleGame 0) exampleLoopState).2 _ rfl
      0 1 { spikeStrong with spikePower := 90 } (blockOf .BLOCK_BREAK)
      (defenseOf .DEFENSE_FAULT) (by decide)).2.2.1⟩

/-- C14: for all simulators and random sources, the match state after
processRallyFromServe has the scoreA, scoreB, setNum, serveSide, rotateA,
rotateB, liberoReplaceA and liberoReplaceB of the match state before; only the
fault and score-credit counters can differ. The simulators of the embedding
read the match state and return no new one. On a well-formed state the rally
returns. -/
theorem C14_rally_frame {R : Type} (env : Env) (sim : Simulators R) (game : GameState)
    (rng : R) :
    (∀ res, processRallyFromServe env sim game rng = .ok res →
      res.game.scoreA = game.scoreA ∧ res.game.scoreB = game.scoreB ∧
      res.game.setNum = game.setNum ∧ res.game.serveSide = game.serveSide ∧
      res.game.rotateA = game.rotateA ∧ res.game.rotateB = game.rotateB ∧
      res.game.liberoReplaceA = game.liberoReplaceA ∧
      res.game.liberoReplaceB = game.liberoReplaceB) ∧
    (env.WellFormed game → ∃ res, processRallyFromServe env sim game rng = .ok res) :=
  ⟨processRallyFromServe_frame env sim game rng, processRallyFromServe_total env sim game rng⟩

/-- C14 (witness): the one-iteration rally of the default rosters changes a score
credit and leaves the rotation of team B as it was. -/
theorem C14_rally_frame_witness :
    ∃ res, processRallyFromServe exampleEnv simDefenseFault (exampleGame 0) () = .ok res ∧
      res.game.scoredB 3 = 1 ∧ res.game.rotateB = (exampleGame 0).rotateB :=
  ⟨_, rfl, by decide,
    ((C14_rally_frame exampleEnv simDefenseFault (exampleGame 0) ()).1 _ rfl).2.2.2.2.2.1⟩

/-! ## The set-end test and playSet -/

theorem setEnds_iff (t a b : Int) :
    setEnds t a b = true ↔ (a ≥ t ∨ b ≥ t) ∧ (a - b ≥ 2 ∨ b - a ≥ 2) := by
  simp only [setEnds, Bool.and_eq_true, Bool.or_eq_true, decide_eq_true_eq, ge_iff_le, le_abs']
  constructor
  · rintro ⟨h1, h2⟩
    exact ⟨h1, by omega⟩
  · rintro ⟨h1, h2⟩
    exact ⟨h1, by omega⟩

theorem rotateTeam_scores (env : Env) (g g1 : GameState) (t : Int)
    (h : rotateTeam env g t = .ok g1) : g1.scoreA = g.scoreA ∧ g1.scoreB = g.scoreB := by
  unfold rotateTeam at h
  split at h
  · split at h
    · cases h
    · cases h; exact ⟨rfl, rfl⟩
  · split at h
    · cases h
    · cases h; exact ⟨rfl, rfl⟩

theorem liberoIn_scores (server : Player) (g : GameState) (t : Int) :
    (liberoIn server g t).scoreA = g.scoreA ∧ (liberoIn server g t).scoreB = g.scoreB := by
  unfold liberoIn
  split
  · split <;> exact ⟨rfl, rfl⟩
  · exact ⟨rfl, rfl⟩

theorem updateAfterRally_scores (env : Env) (server : Player) (g g1 : GameState)
    (scorer : Int) (h : updateAfterRally env server g scorer = .ok g1) :
    (g1.scoreA = g.scoreA + 1 ∧ g1.scoreB = g.scoreB) ∨
    (g1.scoreA = g.scoreA ∧ g1.scoreB = g.scoreB + 1) := by
  unfold updateAfterRally at h
  simp only at h
  split at h
  · split at h
    · cases h; exact Or.inl ⟨rfl, rfl⟩
    · split at h
      · cases h
      · rename_i g2 hg2
        cases h
        obtain ⟨ha, hb⟩ := rotateTeam_scores _ _ _ _ hg2
        obtain ⟨hc, hd⟩ := liberoIn_scores server { g2 with serveSide := 0 } 1
        exact Or.inl ⟨by rw [hc]; exact ha, by rw [hd]; exact hb⟩
  · split at h
    · cases h; exact Or.inr ⟨rfl, rfl⟩
    · split at h
      · cases h
      · rename_i g2 hg2
        cases h
        obtain ⟨ha, hb⟩ := rotateTeam_scores _ _ _ _ hg2
        obtain ⟨hc, hd⟩ := liberoIn_scores server { g2 with serveSide := 1 } 0
        exact Or.inr ⟨by rw [hc]; exact ha, by rw [hd]; exact hb⟩

theorem playSetLoop_result {R : Type} (env : Env) (sim : Simulators R) (target : Int)
    (n : Nat) : ∀ (g : GameState) (rng : R) (res : SetResult R),
    g.scoreA ≤ max target (g.scoreB + 2) → g.scoreB ≤ max target (g.scoreA + 2) →
    playSetLoop env sim target n g rng = .ok (some res) →
    (res.game.scoreA > res.game.scoreB → res.winner = 0 ∧
      res.game.scoreA = max target (res.game.scoreB + 2)) ∧
    (¬ res.game.scoreA > res.game.scoreB → res.winner = 1 ∧
      res.game.scoreB > res.game.scoreA ∧
      res.game.scoreB = max target (res.game.scoreA + 2)) := by
  have fin : ∀ (g : GameState) (rng : R) (res : SetResult R),
      g.scoreA ≤ max target (g.scoreB + 2) → g.scoreB ≤ max target (g.scoreA + 2) →
      setEnds target g.scoreA g.scoreB = true →
      (⟨if g.scoreA > g.scoreB then 0 else 1, g, rng⟩ : SetResult R) = res →
      (res.game.scoreA > res.game.scoreB → res.winner = 0 ∧
        res.game.scoreA = max target (res.game.scoreB + 2)) ∧
      (¬ res.game.scoreA > res.game.scoreB → res.winner = 1 ∧
        res.game.scoreB > res.game.scoreA ∧
        res.game.scoreB = max target (res.game.scoreA + 2)) := by
    intro g rng res ha hb ht hres
    subst hres
    rw [setEnds_iff] at ht
    simp only
    constructor
    · intro hgt
      rw [if_pos hgt]
      exact ⟨rfl, by omega⟩
    · intro hgt
      rw [if_neg hgt]
      exact ⟨rfl, by omega, by omega⟩
  induction n with
  | zero =>
    intro g rng res ha hb h
    simp only [playSetLoop] at h
    split at h
    · rename_i ht
      simp only [Except.ok.injEq, Option.some.injEq] at h
      exact fin g rng res ha hb ht h
    · cases h
  | succ n ih =>
    intro g rng res ha hb h
    simp only [playSetLoop] at h
    split at h
    · rename_i ht
      simp only [Except.ok.injEq, Option.some.injEq] at h
      exact fin g rng res ha hb ht h
    · rename_i ht
      have hne : ¬ ((g.scoreA ≥ target ∨ g.scoreB ≥ target) ∧
          (g.scoreA - g.scoreB ≥ 2 ∨ g.scoreB - g.scoreA ≥ 2)) := by
        rw [← setEnds_iff]; exact ht
      split at h
      · cases h
      · split at h
        · cases h
        · split at h
          · cases h
          · rename_i rr hrr
            split at h
            · cases h
            · rename_i g1 hg1
              obtain ⟨hsa, hsb, -⟩ := processRallyFromServe_frame env sim g rng rr hrr
              have hsc := updateAfterRally_scores env _ rr.game g1 rr.winner hg1
              rw [hsa, hsb] at hsc
              refine ih g1 rr.rng res ?_ ?_ h
              · rcases hsc with ⟨h1, h2⟩ | ⟨h1, h2⟩ <;> rw [h1, h2] <;> omega
              · rcases hsc with ⟨h1, h2⟩ | ⟨h1, h2⟩ <;> rw [h1, h2] <;> omega

/-- C15: the set-end test of playSet and of GameDisplay::simulateRound holds for
scores (a, b) exactly when max(a, b) >= target and |a - b| >= 2; playSet
returns at once when it holds and plays on when it does not; the target of
simulateRound is 15 when setNum is 3 and 25 otherwise, and newGame calls
playSet with 25, 25 and 15 for sets 1, 2 and 3. With target 25, 24-24 and 25-24
do not end the set while 25-23 and 26-24 do; with target 15, 14-14 does not
while 16-14 does. -/
theorem C15_set_end_test :
    (∀ t a b : Int, setEnds t a b = true ↔ (max a b ≥ t ∧ |a - b| ≥ 2)) ∧
    (∀ g : GameState, simulateRoundSetEnds g = true ↔
      (max g.scoreA g.scoreB ≥ (if g.setNum = 3 then 15 else 25) ∧
        |g.scoreA - g.scoreB| ≥ 2)) ∧
    newGameSets = [(1, 25), (2, 25), (3, 15)] ∧
    (∀ (R : Type) (env : Env) (sim : Simulators R) (t : Int) (n : Nat) (g : GameState)
      (rng : R),
      (setEnds t g.scoreA g.scoreB = true →
        playSetLoop env sim t n g rng =
          .ok (some ⟨if g.scoreA > g.scoreB then 0 else 1, g, rng⟩)) ∧
      (setEnds t g.scoreA g.scoreB = false → playSetLoop env sim t 0 g rng = .ok none)) ∧
    setEnds 25 24 24 = false ∧ setEnds 25 25 24 = false ∧ setEnds 25 25 23 = true ∧
    setEnds 25 26 24 = true ∧ setEnds 15 14 14 = false ∧ setEnds 15 16 14 = true := by
  have key : ∀ t a b : Int, setEnds t a b = true ↔ (max a b ≥ t ∧ |a - b| ≥ 2) := by
    intro t a b
    simp only [setEnds, Bool.and_eq_true, Bool.or_eq_true, decide_eq_true_eq, ge_iff_le,
      le_max_iff]
  refine ⟨key, fun g => ?_, rfl, ?_, by decide, by decide, by decide, by decide, by decide,
    by decide⟩
  · unfold simulateRoundSetEnds currentSetTarget
    exact key _ _ _
  · intro R env sim t n g rng
    constructor
    · intro h
      cases n <;> simp [playSetLoop, h]
    · intro h
      simp [playSetLoop, h]

/-- C15 (witness): 26-24 ends a set with target 25. -/
theorem C15_set_end_test_witness : max (26 : Int) 24 ≥ 25 ∧ |(26 : Int) - 24| ≥ 2 :=
  (C15_set_end_test.1 25 26 24).mp (by decide)

/-- C16: whenever playSet returns, whatever the simulators and however many
rallies it took, it returns 0 if scoreA > scoreB and 1 otherwise, the returned
side has the strictly higher score, and that score equals max(target, loser's
score + 2). -/
theorem C16_playSet_result {R : Type} (env : Env) (sim : Simulators R) (target : Int)
    (game : GameState) (rng : R) (rallies : Nat) (res : SetResult R)
    (h : playSet env sim target game rng rallies = .ok (some res)) :
    (res.game.scoreA > res.game.scoreB → res.winner = 0 ∧
      res.game.scoreA = max target (res.game.scoreB + 2)) ∧
    (¬ res.game.scoreA > res.game.scoreB → res.winner = 1 ∧
      res.game.scoreB > res.game.scoreA ∧
      res.game.scoreB = max target (res.game.scoreA + 2)) := by
  unfold playSet at h
  exact playSetLoop_result env sim target rallies _ rng res (by simp) (by simp) h

/-- C16 (witness): with the default rosters, team A serving and every serve an
ace, playSet(25) returns after 25 rallies with team A (0) at 25-0. -/
theorem C16_playSet_result_witness :
    ∃ res, playSet exampleEnv simReceiveFault 25 (exampleGame 0) () 25 = .ok (some res) ∧
      res.winner = 0 ∧ res.game.scoreA = 25 ∧ res.game.scoreB = 0 ∧
      res.game.scoreA = max 25 (res.game.scoreB + 2) :=
  ⟨_, rfl, by decide, by decide, by decide,
    ((C16_playSet_result exampleEnv simReceiveFault 25 (exampleGame 0) () 25 _ rfl).1
      (by decide)).2⟩

/-! ## rotateTeam and the update after a rally -/

theorem shiftRotation_apply (r : Rotation) :
    shiftRotation r 0 = r 1 ∧ shiftRotation r 1 = r 2 ∧ shiftRotation r 2 = r 3 ∧
    shiftRotation r 3 = r 4 ∧ shiftRotation r 4 = r 5 ∧ shiftRotation r 5 = r 0 :=
  ⟨rfl, rfl, rfl, rfl, rfl, rfl⟩

theorem rotateRotation_plain (team : Roster) (r : Rotation) (lr : Option Int)
    (h0 : 0 ≤ r 4) (h7 : r 4 < 7) (hp : (team.player (r 4)).position ≠ "L") :
    rotateRotation team r lr = .ok (shiftRotation r) := by
  unfold rotateRotation
  simp only [(shiftRotation_apply r).2.2.2.1, Roster.at_of_range team (r 4) h0 h7, hp, if_false]

theorem rotateRotation_libero (team : Roster) (r : Rotation) (m : Int)
    (h0 : 0 ≤ r 4) (h7 : r 4 < 7) (hp : (team.player (r 4)).position = "L") :
    rotateRotation team r (some m) = .ok ((shiftRotation r).write 3 m) := by
  unfold rotateRotation
  simp only [(shiftRotation_apply r).2.2.2.1, Roster.at_of_range team (r 4) h0 h7, hp, if_true]

theorem rotateTeam_eq (env : Env) (g : GameState) (t : Int) (r1 : Rotation)
    (h : rotateRotation (env.rosterOf t) (g.rotationOf t) (g.liberoReplaceOf t) = .ok r1) :
    rotateTeam env g t =
      .ok (if t = 0 then { g with rotateA := r1 } else { g with rotateB := r1 }) := by
  unfold rotateTeam
  unfold Env.rosterOf GameState.rotationOf GameState.liberoReplaceOf at h
  split
  · rename_i ht
    simp only [ht, if_true] at h
    rw [h]
  · rename_i ht
    simp only [ht, if_false] at h
    rw [h]

theorem rotateRotation_ready (team : Roster) (r : Rotation) (lr : Option Int)
    (h4 : 0 ≤ r 4 ∧ r 4 < 7)
    (hL : (team.player (r 4)).position = "L" → ∃ m, lr = some m) :
    ∃ r1, rotateRotation team r lr = .ok r1 ∧
      r1 0 = r 1 ∧ r1 1 = r 2 ∧ r1 2 = r 3 ∧ r1 4 = r 5 ∧ r1 5 = r 0 ∧
      ((team.player (r 4)).position ≠ "L" → r1 3 = r 4) ∧
      ((team.player (r 4)).position = "L" → some (r1 3) = lr) := by
  by_cases hp : (team.player (r 4)).position = "L"
  · obtain ⟨m, rfl⟩ := hL hp
    exact ⟨_, rotateRotation_libero team r m h4.1 h4.2 hp, rfl, rfl, rfl, rfl, rfl,
      fun hn => absurd hp hn, fun _ => rfl⟩
  · exact ⟨_, rotateRotation_plain team r lr h4.1 h4.2 hp, rfl, rfl, rfl, rfl, rfl,
      fun _ => rfl, fun hn => absurd hn hp⟩

/-- C17: when the rally winner (0 or 1) is the serving side, the update after the
rally returns a match state in which the winner's score is 1 higher and the
other score, serveSide, both rotations and both liberoReplace fields are the
ones before. -/
theorem C17_server_keeps_serve (env : Env) (server : Player) (game : GameState)
    (scorer : Int) (hsc : scorer = 0 ∨ scorer = 1) (hs : scorer = game.serveSide) :
    ∃ g1, updateAfterRally env server game scorer = .ok g1 ∧
      g1.scoreOf scorer = game.scoreOf scorer + 1 ∧
      g1.scoreOf (1 - scorer) = game.scoreOf (1 - scorer) ∧
      g1.serveSide = game.serveSide ∧
      g1.rotateA = game.rotateA ∧ g1.rotateB = game.rotateB ∧
      g1.liberoReplaceA = game.liberoReplaceA ∧ g1.liberoReplaceB = game.liberoReplaceB := by
  rcases hsc with h | h
  · subst h
    unfold updateAfterRally
    simp only [← hs, if_true]
    exact ⟨_, rfl, rfl, rfl, rfl, rfl, rfl, rfl, rfl⟩
  · subst h
    unfold updateAfterRally
    simp only [← hs, if_true, one_ne_zero, if_false]
    exact ⟨_, rfl, rfl, rfl, rfl, rfl, rfl, rfl, rfl⟩

/-- C17 (witness): team A of the default rosters serves and wins the rally. -/
theorem C17_server_keeps_serve_witness :
    ∃ g1, updateAfterRally exampleEnv (makeP "A1" "OH") (exampleGame 0) 0 = .ok g1 ∧
      g1.scoreOf 0 = (exampleGame 0).scoreOf 0 + 1 ∧
      g1.scoreOf (1 - 0) = (exampleGame 0).scoreOf (1 - 0) ∧
      g1.serveSide = (exampleGame 0).serveSide ∧
      g1.rotateA = (exampleGame 0).rotateA ∧ g1.rotateB = (exampleGame 0).rotateB ∧
      g1.liberoReplaceA = (exampleGame 0).liberoReplaceA ∧
      g1.liberoReplaceB = (exampleGame 0).liberoReplaceB :=
  C17_server_keeps_serve exampleEnv (makeP "A1" "OH") (exampleGame 0) 0 (Or.inl rfl) rfl

/-- C18 (counterexample): the first side-out of a set of the default rosters. Team
B serves, team A wins the rally; the rotation 0,1,2,3,6,5 of team A holds the
libero at index 4, and after the update index 3 holds the middle blocker 4
from liberoReplaceA, not the old entry 6 of index 4. -/
theorem C18_side_out_counterexample :
    ∃ g1, updateAfterRally exampleEnv (makeP "B1" "OH") (exampleGame 1) 0 = .ok g1 ∧
      currentServer exampleEnv (exampleGame 1) = .ok (makeP "B1" "OH") ∧
      (exampleGame 1).rotateA 4 = 6 ∧ g1.rotateA 3 = 4 ∧
      g1.rotateA 3 ≠ (exampleGame 1).rotateA 4 :=
  ⟨_, rfl, rfl, by decide⟩

/-- C18 (amended): when the rally winner (0 or 1) is not the serving side, the
update after the rally returns a match state in which the winner's score is 1
higher, the other score is unchanged, serveSide is the winner, and the
winner's rotation is the old one shifted once, new[i] = old[i+1] for i = 0, 1,
2, 4 and new[5] = old[0], with new[3] = old[4] unless the player at old[4] has
the Libero position, in which case new[3] is the winner's liberoReplace. The
entry old[4] is a roster index, and liberoReplace has been assigned when the
player at old[4] is the Libero. -/
theorem C18_side_out (env : Env) (server : Player) (game : GameState) (scorer : Int)
    (hsc : scorer = 0 ∨ scorer = 1) (hne : scorer ≠ game.serveSide)
    (h4 : 0 ≤ game.rotationOf scorer 4 ∧ game.rotationOf scorer 4 < 7)
    (hL : ((env.rosterOf scorer).player (game.rotationOf scorer 4)).position = "L" →
      ∃ m, game.liberoReplaceOf scorer = some m) :
    ∃ g1, updateAfterRally env server game scorer = .ok g1 ∧
      g1.scoreOf scorer = game.scoreOf scorer + 1 ∧
      g1.scoreOf (1 - scorer) = game.scoreOf (1 - scorer) ∧
      g1.serveSide = scorer ∧
      g1.rotationOf scorer 0 = game.rotationOf scorer 1 ∧
      g1.rotationOf scorer 1 = game.rotationOf scorer 2 ∧
      g1.rotationOf scorer 2 = game.rotationOf scorer 3 ∧
      g1.rotationOf scorer 4 = game.rotationOf scorer 5 ∧
      g1.rotationOf scorer 5 = game.rotationOf scorer 0 ∧
      (((env.rosterOf scorer).player (game.rotationOf scorer 4)).position ≠ "L" →
        g1.rotationOf scorer 3 = game.rotationOf scorer 4) ∧
      (((env.rosterOf scorer).player (game.rotationOf scorer 4)).position = "L" →
        some (g1.rotationOf scorer 3) = game.liberoReplaceOf scorer) := by
  obtain ⟨r1, hr, e0, e1, e2, e4, e5, e3, e3L⟩ :=
    rotateRotation_ready (env.rosterOf scorer) (game.rotationOf scorer)
      (game.liberoReplaceOf scorer) h4 hL
  rcases hsc with h | h
  · subst h
    have hrt := rotateTeam_eq env { game with scoreA := game.scoreA + 1 } 0 r1 hr
    have hs : ¬ game.serveSide = 0 := fun h => hne h.symm
    unfold updateAfterRally
    simp only [if_true, hs, if_false, hrt]
    refine ⟨_, rfl, ?_⟩
    unfold liberoIn
    split <;>
      exact ⟨rfl, rfl, rfl, e0, e1, e2, e4, e5, e3, e3L⟩
  · subst h
    have hrt := rotateTeam_eq env { game with scoreB := game.scoreB + 1 } 1 r1 hr
    have hs : ¬ game.serveSide = 1 := fun h => hne h.symm
    unfold updateAfterRally
    simp only [one_ne_zero, if_false, hs, hrt]
    refine ⟨_, rfl, ?_⟩
    unfold liberoIn
    split <;>
      exact ⟨rfl, rfl, rfl, e0, e1, e2, e4, e5, e3, e3L⟩

/-- C18 (witness): team A of the default rosters serves with the outside hitter
A1 and team B wins the rally; the libero of team B comes to index 3 and is
replaced by the middle blocker 4. -/
theorem C18_side_out_witness :
    ∃ g1, updateAfterRally exampleEnv (makeP "A1" "OH") (exampleGame 0) 1 = .ok g1 ∧
      g1.serveSide = 1 ∧ g1.rotationOf 1 0 = (exampleGame 0).rotationOf 1 1 ∧
      some (g1.rotationOf 1 3) = (exampleGame 0).liberoReplaceOf 1 :=
  (C18_side_out exampleEnv (makeP "A1" "OH") (exampleGame 0) 1 (Or.inr rfl) (by decide)
    (by decide) (fun _ => ⟨4, rfl⟩)).imp
    fun _ h => ⟨h.1, h.2.2.2.1, h.2.2.2.2.1, h.2.2.2.2.2.2.2.2.2.2 (by decide)⟩

/-- C19: on a serve change (the rally winner, 0 or 1, is not the serving side 0 or
1) the update after the rally is made with the player at rotation index 0 of
the serving team as server. If that player has the Middle-Blocker position
"MB", afterwards the losing team's rotation index 0 holds 6, its liberoReplace
holds the roster index that was at index 0, and its other five entries are
unchanged; otherwise the losing team's rotation and liberoReplace are
unchanged. The winner's rotation must allow rotateTeam to run: its entry at
index 4 is a roster index, and liberoReplace is assigned if that player is the
Libero. -/
theorem C19_libero_substitution (env : Env) (game : GameState) (scorer : Int)
    (hsc : scorer = 0 ∨ scorer = 1) (hside : game.serveSide = 0 ∨ game.serveSide = 1)
    (hne : scorer ≠ game.serveSide)
    (hk : 0 ≤ game.rotationOf game.serveSide 0 ∧ game.rotationOf game.serveSide 0 < 7)
    (h4 : 0 ≤ game.rotationOf scorer 4 ∧ game.rotationOf scorer 4 < 7)
    (hL : ((env.rosterOf scorer).player (game.rotationOf scorer 4)).position = "L" →
      ∃ m, game.liberoReplaceOf scorer = some m) :
    currentServer env game =
      .ok ((env.rosterOf game.serveSide).player (game.rotationOf game.serveSide 0)) ∧
    ∃ g1, updateAfterRally env
        ((env.rosterOf game.serveSide).player (game.rotationOf game.serveSide 0)) game scorer
        = .ok g1 ∧
      (((env.rosterOf game.serveSide).player (game.rotationOf game.serveSide 0)).position
          = "MB" →
        g1.rotationOf game.serveSide 0 = 6 ∧
        g1.liberoReplaceOf game.serveSide = some (game.rotationOf game.serveSide 0) ∧
        ∀ i : Fin 6, i ≠ 0 → g1.rotationOf game.serveSide i = game.rotationOf game.serveSide i) ∧
      (((env.rosterOf game.serveSide).player (game.rotationOf game.serveSide 0)).position
          ≠ "MB" →
        g1.rotationOf game.serveSide = game.rotationOf game.serveSide ∧
        g1.liberoReplaceOf game.serveSide = game.liberoReplaceOf game.serveSide) := by
  refine ⟨by unfold currentServer; exact Roster.at_of_range _ _ hk.1 hk.2, ?_⟩
  obtain ⟨r1, hr, -⟩ :=
    rotateRotation_ready (env.rosterOf scorer) (game.rotationOf scorer)
      (game.liberoReplaceOf scorer) h4 hL
  rcases hsc with h | h
  · subst h
    have hs1 : game.serveSide = 1 := by
      rcases hside with h | h
      · exact absurd h.symm hne
      · exact h
    have hrt := rotateTeam_eq env { game with scoreA := game.scoreA + 1 } 0 r1 hr
    have hs : ¬ game.serveSide = 0 := fun h => hne h.symm
    unfold updateAfterRally
    simp only [if_true, hs, if_false, hrt]
    refine ⟨_, rfl, ?_, ?_⟩
    · intro hmb
      simp only [hs1, GameState.rotationOf, GameState.liberoReplaceOf, one_ne_zero,
        if_false] at hmb ⊢
      simp only [liberoIn, hmb, if_true, one_ne_zero, if_false, Rotation.write, true_and]
      intro i hi
      simp [hi]
    · intro hmb
      simp only [hs1, GameState.rotationOf, GameState.liberoReplaceOf, one_ne_zero,
        if_false] at hmb ⊢
      simp [liberoIn, hmb]
  · subst h
    have hs0 : game.serveSide = 0 := by
      rcases hside with h | h
      · exact h
      · exact absurd h.symm hne
    have hrt := rotateTeam_eq env { game with scoreB := game.scoreB + 1 } 1 r1 hr
    have hs : ¬ game.serveSide = 1 := fun h => hne h.symm
    unfold updateAfterRally
    simp only [one_ne_zero, if_false, hs, hrt]
    refine ⟨_, rfl, ?_, ?_⟩
    · intro hmb
      simp only [hs0, GameState.rotationOf, GameState.liberoReplaceOf, if_true] at hmb ⊢
      simp only [liberoIn, hmb, if_true, Rotation.write, true_and]
      intro i hi
      simp [hi]
    · intro hmb
      simp only [hs0, GameState.rotationOf, GameState.liberoReplaceOf, if_true] at hmb ⊢
      simp [liberoIn, hmb]

/-- C19 (witness): team A of the default rosters serves with the middle blocker A3
(roster index 2) and team B wins the rally: index 0 of team A becomes 6 and
liberoReplaceA becomes 2. -/
theorem C19_libero_substitution_witness :
    ∃ g1, updateAfterRally exampleEnv (makeP "A3" "MB") mbServerGame 1 = .ok g1 ∧
      g1.rotateA 0 = 6 ∧ g1.liberoReplaceA = some 2 ∧ g1.rotateA 1 = mbServerGame.rotateA 1 :=
  (C19_libero_substitution exampleEnv mbServerGame 1 (Or.inr rfl) (Or.inl rfl) (by decide)
    (by decide) (by decide) (fun _ => ⟨4, rfl⟩)).2.imp
    fun _ h => ⟨h.1, (h.2.1 rfl).1, (h.2.1 rfl).2.1, (h.2.1 rfl).2.2 1 (by decide)⟩

/-! ## The libero leaves the court -/

theorem rotateTeam_withRotation (env : Env) (g : GameState) (t : Int) (r1 : Rotation)
    (h : rotateRotation (env.rosterOf t) (g.rotationOf t) (g.liberoReplaceOf t) = .ok r1) :
    rotateTeam env g t = .ok (g.withRotation t r1) :=
  rotateTeam_eq env g t r1 h

theorem withRotation_rotationOf (g : GameState) (t : Int) (r : Rotation) :
    (g.withRotation t r).rotationOf t = r := by
  unfold GameState.withRotation GameState.rotationOf
  split <;> rfl

theorem withRotation_liberoReplaceOf (g : GameState) (t : Int) (r : Rotation) :
    (g.withRotation t r).liberoReplaceOf t = g.liberoReplaceOf t := by
  unfold GameState.withRotation GameState.liberoReplaceOf
  split <;> rfl

theorem liberoIn_of_not_mb (server : Player) (g : GameState) (t : Int)
    (h : server.position ≠ "MB") : liberoIn server g t = g := by
  unfold liberoIn
  rw [if_neg h]

/-- C20 (failing input): the default rosters, team B serving first, after eight
rallies won in turn by A and B. Team A has the libero at index 0,
liberoReplaceA holds the middle blocker 4, index 6 is the only Libero of the
roster and the next two servers (roster indices 5 and 0) are not middle
blockers; but the libero is also still at index 4, where it entered for the
middle blocker 2, who is in neither the rotation nor liberoReplaceA. After
three applications of rotateTeam index 3 holds 4 and no 6 is left, yet the
middle blocker 4 stands at indices 1 and 3, the middle blocker 2 has not come
back, and the entries are no cyclic shift of the rotation before the
substitution. -/
theorem C20_libero_out_not_restored :
    ∃ g g1 g2 g3, updatesAfter exampleEnv (exampleGame 1) [0, 1, 0, 1, 0, 1, 0, 1] = .ok g ∧
      rotateTeam exampleEnv g 0 = .ok g1 ∧ rotateTeam exampleEnv g1 0 = .ok g2 ∧
      rotateTeam exampleEnv g2 0 = .ok g3 ∧
      g.rotateA = twoLiberoRotation ∧ g.rotateA 0 = 6 ∧ g.liberoReplaceA = some 4 ∧
      (defaultTeamA.player 4).position = "MB" ∧ (defaultTeamA.player 6).position = "L" ∧
      (∀ k : Fin 6, (defaultTeamA.player k.val).position ≠ "L") ∧
      (defaultTeamA.player (g.rotateA 1)).position ≠ "MB" ∧
      (defaultTeamA.player (g.rotateA 2)).position ≠ "MB" ∧
      g.rotateA 4 = 6 ∧ (defaultTeamA.player 2).position = "MB" ∧
      (∀ i, g.rotateA i ≠ 2) ∧
      g3.rotateA 3 = 4 ∧ (∀ i, g3.rotateA i ≠ 6) ∧ g3.rotateA 1 = 4 ∧
      (∀ i, g3.rotateA i ≠ 2) ∧
      ¬ ∃ k : Fin 6, ∀ i : Fin 6, g3.rotateA i = (g.rotateA.write 0 4) (i + k) :=
  ⟨_, _, _, _, rfl, rfl, rfl, rfl, by decide⟩

/-- Let a team's rotation have the libero (index 6) at index 0 and
roster indices in [0,5] at the other five indices, let its liberoReplace hold
the middle blocker m, let index 6 be the only Libero of its roster, and let
neither of its next two servers, the players at rotation indices 1 and 2, be
a middle blocker. Then the three next applications of rotateTeam to that team
succeed, the serve losses between them leave its rotation untouched, the
libero is still in the rotation after the first and the second, and after
the third index 3 holds m, index 6 no longer occurs, and the rotation is the
one before the substitution (m at index 0) shifted cyclically by three. -/
theorem rotateTeam_thrice_single_libero (env : Env) (game : GameState) (t m : Int)
    (h0 : game.rotationOf t 0 = 6)
    (hothers : ∀ i : Fin 6, i ≠ 0 → 0 ≤ game.rotationOf t i ∧ game.rotationOf t i ≤ 5)
    (hlr : game.liberoReplaceOf t = some m)
    (hm : 0 ≤ m ∧ m < 7) (hmb : ((env.rosterOf t).player m).position = "MB")
    (hlib : ((env.rosterOf t).player 6).position = "L")
    (honly : ∀ k : Int, 0 ≤ k → k ≤ 5 → ((env.rosterOf t).player k).position ≠ "L")
    (hs1 : ((env.rosterOf t).player (game.rotationOf t 1)).position ≠ "MB")
    (hs2 : ((env.rosterOf t).player (game.rotationOf t 2)).position ≠ "MB") :
    ∃ g1 g2 g3, rotateTeam env game t = .ok g1 ∧
      liberoIn ((env.rosterOf t).player (g1.rotationOf t 0)) g1 t = g1 ∧
      rotateTeam env g1 t = .ok g2 ∧
      liberoIn ((env.rosterOf t).player (g2.rotationOf t 0)) g2 t = g2 ∧
      rotateTeam env g2 t = .ok g3 ∧
      g1.rotationOf t 5 = 6 ∧ g2.rotationOf t 4 = 6 ∧
      g3.rotationOf t 3 = m ∧ (∀ i, g3.rotationOf t i ≠ 6) ∧
      (∀ i : Fin 6, g3.rotationOf t i = (game.rotationOf t).write 0 m (i + 3)) := by
  have hm6 : m ≠ 6 := by
    rintro rfl
    rw [hlib] at hmb
    exact absurd hmb (by decide)
  have o1 := hothers 1 (by decide)
  have o2 := hothers 2 (by decide)
  have o3 := hothers 3 (by decide)
  have o4 := hothers 4 (by decide)
  have o5 := hothers 5 (by decide)
  have e1 : rotateRotation (env.rosterOf t) (game.rotationOf t) (game.liberoReplaceOf t)
      = .ok (shiftRotation (game.rotationOf t)) :=
    rotateRotation_plain _ _ _ o4.1 (by omega) (honly _ o4.1 o4.2)
  have hg1 := rotateTeam_withRotation env game t _ e1
  have e2 : rotateRotation (env.rosterOf t)
      ((game.withRotation t (shiftRotation (game.rotationOf t))).rotationOf t)
      ((game.withRotation t (shiftRotation (game.rotationOf t))).liberoReplaceOf t)
      = .ok (shiftRotation (shiftRotation (game.rotationOf t))) := by
    rw [withRotation_rotationOf]
    exact rotateRotation_plain _ _ _ (show 0 ≤ game.rotationOf t 5 from o5.1)
      (show game.rotationOf t 5 < 7 by omega) (honly _ o5.1 o5.2)
  have hg2 := rotateTeam_withRotation env _ t _ e2
  have e3 : rotateRotation (env.rosterOf t)
      (((game.withRotation t (shiftRotation (game.rotationOf t))).withRotation t
        (shiftRotation (shiftRotation (game.rotationOf t)))).rotationOf t)
      (((game.withRotation t (shiftRotation (game.rotationOf t))).withRotation t
        (shiftRotation (shiftRotation (game.rotationOf t)))).liberoReplaceOf t)
      = .ok ((shiftRotation (shiftRotation (shiftRotation (game.rotationOf t)))).write 3 m) := by
    rw [withRotation_rotationOf, withRotation_liberoReplaceOf, withRotation_liberoReplaceOf, hlr]
    have h6 : shiftRotation (shiftRotation (game.rotationOf t)) 4 = 6 := h0
    exact rotateRotation_libero _ _ m (by rw [h6]; decide) (by rw [h6]; decide)
      (by rw [h6]; exact hlib)
  have hg3 := rotateTeam_withRotation env _ t _ e3
  refine ⟨_, _, _, hg1, ?_, hg2, ?_, hg3, ?_, ?_, ?_, ?_, ?_⟩
  · exact liberoIn_of_not_mb _ _ _ (by rw [withRotation_rotationOf]; exact hs1)
  · exact liberoIn_of_not_mb _ _ _ (by rw [withRotation_rotationOf]; exact hs2)
  · rw [withRotation_rotationOf]; exact h0
  · rw [withRotation_rotationOf]; exact h0
  · rw [withRotation_rotationOf]; simp [Rotation.write]
  · intro i
    rw [withRotation_rotationOf]
    fin_cases i <;> simp [Rotation.write, shiftRotation] <;> omega
  · intro i
    rw [withRotation_rotationOf]
    fin_cases i <;> simp [Rotation.write, shiftRotation]

/-! ## Safe rotations -/

theorem player_libero_iff (team : Roster) (hL : team.OnlyLiberoAtSix) (k : Int)
    (h0 : 0 ≤ k) (h7 : k < 7) : (team.player k).position = "L" ↔ k = 6 := by
  obtain ⟨h6, hne⟩ := hL
  interval_cases k
  · simpa [Roster.player] using hne 0 (by decide)
  · simpa [Roster.player] using hne 1 (by decide)
  · simpa [Roster.player] using hne 2 (by decide)
  · simpa [Roster.player] using hne 3 (by decide)
  · simpa [Roster.player] using hne 4 (by decide)
  · simpa [Roster.player] using hne 5 (by decide)
  · simpa [Roster.player] using h6

theorem rotateRotation_safe (team : Roster) (hL : team.OnlyLiberoAtSix) (r : Rotation)
    (lr : Option Int) (hs : RotationSafe r lr) :
    ∃ r1, rotateRotation team r lr = .ok r1 ∧ RotationSafe r1 lr ∧
      r1 0 = r 1 ∧ r1 4 = r 5 ∧ r1 5 = r 0 := by
  obtain ⟨hv, h6⟩ := hs
  have hlib : (team.player (r 4)).position = "L" → ∃ m, lr = some m := by
    intro hp
    have h46 := (player_libero_iff team hL (r 4) (hv 4).1 (hv 4).2).mp hp
    obtain ⟨m, hm, -⟩ := h6 ⟨4, h46⟩
    exact ⟨m, hm⟩
  obtain ⟨r1, hr1, e0, e1, e2, e4, e5, hn, hy⟩ := rotateRotation_ready team r lr (hv 4) hlib
  refine ⟨r1, hr1, ⟨?_, ?_⟩, e0, e4, e5⟩
  · by_cases hp : (team.player (r 4)).position = "L"
    · have h46 := (player_libero_iff team hL (r 4) (hv 4).1 (hv 4).2).mp hp
      obtain ⟨m, hm, hm0, hm6⟩ := h6 ⟨4, h46⟩
      have h3 : r1 3 = m := by
        have := hy hp
        rw [Option.mem_def.mp hm] at this
        exact Option.some.inj this
      intro i
      fin_cases i
      · show 0 ≤ r1 0 ∧ r1 0 < 7
        rw [e0]; exact hv 1
      · show 0 ≤ r1 1 ∧ r1 1 < 7
        rw [e1]; exact hv 2
      · show 0 ≤ r1 2 ∧ r1 2 < 7
        rw [e2]; exact hv 3
      · show 0 ≤ r1 3 ∧ r1 3 < 7
        rw [h3]; exact ⟨hm0, by omega⟩
      · show 0 ≤ r1 4 ∧ r1 4 < 7
        rw [e4]; exact hv 5
      · show 0 ≤ r1 5 ∧ r1 5 < 7
        rw [e5]; exact hv 0
    · have h3 := hn hp
      intro i
      fin_cases i
      · show 0 ≤ r1 0 ∧ r1 0 < 7
        rw [e0]; exact hv 1
      · show 0 ≤ r1 1 ∧ r1 1 < 7
        rw [e1]; exact hv 2
      · show 0 ≤ r1 2 ∧ r1 2 < 7
        rw [e2]; exact hv 3
      · show 0 ≤ r1 3 ∧ r1 3 < 7
        rw [h3]; exact hv 4
      · show 0 ≤ r1 4 ∧ r1 4 < 7
        rw [e4]; exact hv 5
      · show 0 ≤ r1 5 ∧ r1 5 < 7
        rw [e5]; exact hv 0
  · rintro ⟨i, hi⟩
    by_cases hp : (team.player (r 4)).position = "L"
    · exact h6 ⟨4, (player_libero_iff team hL (r 4) (hv 4).1 (hv 4).2).mp hp⟩
    · have h3 := hn hp
      apply h6
      fin_cases i
      · exact ⟨1, by rw [← e0]; exact hi⟩
      · exact ⟨2, by rw [← e1]; exact hi⟩
      · exact ⟨3, by rw [← e2]; exact hi⟩
      · exact ⟨4, by rw [← h3]; exact hi⟩
      · exact ⟨5, by rw [← e4]; exact hi⟩
      · exact ⟨0, by rw [← e5]; exact hi⟩

theorem rotateRotation_keeps (team : Roster) (r : Rotation) (lr : Option Int) (r1 : Rotation)
    (h : rotateRotation team r lr = .ok r1) (k : Int)
    (hk : (team.player k).position ≠ "L") (hin : ∃ i, r i = k) : ∃ i, r1 i = k := by
  obtain ⟨i, hi⟩ := hin
  unfold rotateRotation at h
  simp only [(shiftRotation_apply r).2.2.2.1] at h
  have shifted : ∀ j : Fin 6, j ≠ 4 → ∃ i1 : Fin 6, i1 ≠ 3 ∧ shiftRotation r i1 = r j := by
    intro j hj
    fin_cases j
    · exact ⟨5, by decide, rfl⟩
    · exact ⟨0, by decide, rfl⟩
    · exact ⟨1, by decide, rfl⟩
    · exact ⟨2, by decide, rfl⟩
    · exact absurd rfl hj
    · exact ⟨4, by decide, rfl⟩
  split at h
  · cases h
  · rename_i p hp
    have hpp : p = team.player (r 4) := by
      unfold Roster.at at hp
      split at hp
      · cases hp; rfl
      · cases hp
    split at h
    · rename_i hL
      split at h
      · cases h
      · rename_i m
        cases h
        have hi4 : i ≠ 4 := by
          rintro rfl
          rw [hpp, hi] at hL
          exact hk hL
        obtain ⟨i1, hne, he⟩ := shifted i hi4
        exact ⟨i1, by simp only [Rotation.write, if_neg hne, he, hi]⟩
    · cases h
      by_cases hi4 : i = 4
      · exact ⟨3, by rw [(shiftRotation_apply r).2.2.2.1, ← hi4, hi]⟩
      · obtain ⟨i1, -, he⟩ := shifted i hi4
        exact ⟨i1, by rw [he, hi]⟩

theorem write_libero_safe (team : Roster) (hL : team.OnlyLiberoAtSix) (r : Rotation)
    (hv : r.Valid) (hmb : (team.player (r 0)).position = "MB") :
    RotationSafe (r.write 0 6) (some (r 0)) := by
  constructor
  · intro i
    unfold Rotation.write
    split
    · exact ⟨by decide, by decide⟩
    · exact hv i
  · intro _
    refine ⟨r 0, rfl, (hv 0).1, ?_⟩
    have hne : r 0 ≠ 6 := by
      intro h6
      have := (player_libero_iff team hL (r 0) (hv 0).1 (hv 0).2).mpr h6
      rw [hmb] at this
      exact absurd this (by decide)
    have := (hv 0).2
    omega
/-! ## The update after a rally, team by team -/

theorem liberoIn_cases (server : Player) (g : GameState) (t : Int) :
    (liberoIn server g t).serveSide = g.serveSide ∧
    (liberoIn server g t).setNum = g.setNum ∧
    (liberoIn server g t).rotationOf (if t = 0 then 1 else 0) =
      g.rotationOf (if t = 0 then 1 else 0) ∧
    (liberoIn server g t).liberoReplaceOf (if t = 0 then 1 else 0) =
      g.liberoReplaceOf (if t = 0 then 1 else 0) ∧
    ((server.position = "MB" ∧
        (liberoIn server g t).rotationOf t = (g.rotationOf t).write 0 6 ∧
        (liberoIn server g t).liberoReplaceOf t = some (g.rotationOf t 0)) ∨
      (server.position ≠ "MB" ∧ liberoIn server g t = g)) := by
  unfold liberoIn GameState.rotationOf GameState.liberoReplaceOf
  by_cases hmb : server.position = "MB"
  · by_cases ht : t = 0
    · simp [hmb, ht]
    · simp [hmb, ht]
  · by_cases ht : t = 0
    · simp [hmb, ht]
    · simp [hmb, ht]

/-- What the update after a rally does, told for the side `w` that it treats as
the scorer (0 when `scorer` is 0, otherwise 1) and the other side `1 - w`. -/
theorem updateAfterRally_cases (env : Env) (server : Player) (g g1 : GameState)
    (scorer : Int) (h : updateAfterRally env server g scorer = .ok g1) :
    ∃ w : Int, ((scorer = 0 ∧ w = 0) ∨ (scorer ≠ 0 ∧ w = 1)) ∧
      g1.serveSide = w ∧ g1.setNum = g.setNum ∧
      ((g.serveSide = w ∧ g1.rotateA = g.rotateA ∧ g1.rotateB = g.rotateB ∧
          g1.liberoReplaceA = g.liberoReplaceA ∧ g1.liberoReplaceB = g.liberoReplaceB) ∨
        (g.serveSide ≠ w ∧
          rotateRotation (env.rosterOf w) (g.rotationOf w) (g.liberoReplaceOf w) =
            .ok (g1.rotationOf w) ∧
          g1.liberoReplaceOf w = g.liberoReplaceOf w ∧
          ((server.position = "MB" ∧
              g1.rotationOf (1 - w) = (g.rotationOf (1 - w)).write 0 6 ∧
              g1.liberoReplaceOf (1 - w) = some (g.rotationOf (1 - w) 0)) ∨
            (server.position ≠ "MB" ∧ g1.rotationOf (1 - w) = g.rotationOf (1 - w) ∧
              g1.liberoReplaceOf (1 - w) = g.liberoReplaceOf (1 - w))))) := by
  unfold updateAfterRally at h
  simp only at h
  split at h
  · rename_i hsc
    refine ⟨0, Or.inl ⟨hsc, rfl⟩, ?_⟩
    split at h
    · rename_i hs
      cases h
      exact ⟨hs, rfl, Or.inl ⟨hs, rfl, rfl, rfl, rfl⟩⟩
    · rename_i hs
      split at h
      · cases h
      · rename_i g2 hg2
        cases h
        unfold rotateTeam at hg2
        simp only [if_true] at hg2
        split at hg2
        · cases hg2
        · rename_i r1 hr1
          cases hg2
          obtain ⟨c1, c2, c3, c4, c5⟩ := liberoIn_cases server
            { scoreA := g.scoreA + 1, scoreB := g.scoreB, setNum := g.setNum, serveSide := 0,
              rotateA := r1, rotateB := g.rotateB, faultA := g.faultA, faultB := g.faultB,
              scoredA := g.scoredA, scoredB := g.scoredB,
              liberoReplaceA := g.liberoReplaceA, liberoReplaceB := g.liberoReplaceB } 1
          simp only [one_ne_zero, if_false] at c3 c4
          refine ⟨c1, c2, Or.inr ⟨hs, ?_, ?_, ?_⟩⟩
          · rw [c3]; exact hr1
          · rw [c4]; rfl
          · rcases c5 with ⟨hmb, e1, e2⟩ | ⟨hmb, e⟩
            · exact Or.inl ⟨hmb, e1, e2⟩
            · exact Or.inr ⟨hmb, by rw [e]; rfl, by rw [e]; rfl⟩
  · rename_i hsc
    refine ⟨1, Or.inr ⟨hsc, rfl⟩, ?_⟩
    split at h
    · rename_i hs
      cases h
      exact ⟨hs, rfl, Or.inl ⟨hs, rfl, rfl, rfl, rfl⟩⟩
    · rename_i hs
      split at h
      · cases h
      · rename_i g2 hg2
        cases h
        unfold rotateTeam at hg2
        simp only [one_ne_zero, if_false] at hg2
        split at hg2
        · cases hg2
        · rename_i r1 hr1
          cases hg2
          obtain ⟨c1, c2, c3, c4, c5⟩ := liberoIn_cases server
            { scoreA := g.scoreA, scoreB := g.scoreB + 1, setNum := g.setNum, serveSide := 1,
              rotateA := g.rotateA, rotateB := r1, faultA := g.faultA, faultB := g.faultB,
              scoredA := g.scoredA, scoredB := g.scoredB,
              liberoReplaceA := g.liberoReplaceA, liberoReplaceB := g.liberoReplaceB } 0
          simp only [if_true] at c3 c4
          refine ⟨c1, c2, Or.inr ⟨hs, ?_, ?_, ?_⟩⟩
          · rw [c3]; exact hr1
          · rw [c4]; rfl
          · rcases c5 with ⟨hmb, e1, e2⟩ | ⟨hmb, e⟩
            · exact Or.inl ⟨hmb, e1, e2⟩
            · exact Or.inr ⟨hmb, by rw [e]; rfl, by rw [e]; rfl⟩

theorem updateAfterRally_total (env : Env) (server : Player) (g : GameState) (scorer : Int)
    (hA : ∃ r, rotateRotation env.teamA g.rotateA g.liberoReplaceA = .ok r)
    (hB : ∃ r, rotateRotation env.teamB g.rotateB g.liberoReplaceB = .ok r) :
    ∃ g1, updateAfterRally env server g scorer = .ok g1 := by
  obtain ⟨ra, hra⟩ := hA
  obtain ⟨rb, hrb⟩ := hB
  unfold updateAfterRally rotateTeam
  simp only [if_true, one_ne_zero, if_false, hra, hrb]
  split
  · split
    · exact ⟨_, rfl⟩
    · exact ⟨_, rfl⟩
  · split
    · exact ⟨_, rfl⟩
    · exact ⟨_, rfl⟩
theorem updateAfterRally_safe (env : Env) (hA : env.teamA.OnlyLiberoAtSix)
    (hB : env.teamB.OnlyLiberoAtSix) (g : GameState) (scorer : Int)
    (hs : g.serveSide = 0 ∨ g.serveSide = 1) (hsafe : g.Safe) :
    ∃ g1, updateAfterRally env
        ((env.rosterOf g.serveSide).player (g.rotationOf g.serveSide 0)) g scorer = .ok g1 ∧
      g1.Safe ∧ (g1.serveSide = 0 ∨ g1.serveSide = 1) := by
  obtain ⟨ra, hra, sa, -⟩ := rotateRotation_safe env.teamA hA g.rotateA g.liberoReplaceA hsafe.1
  obtain ⟨rb, hrb, sb, -⟩ := rotateRotation_safe env.teamB hB g.rotateB g.liberoReplaceB hsafe.2
  obtain ⟨g1, hg1⟩ := updateAfterRally_total env
    ((env.rosterOf g.serveSide).player (g.rotationOf g.serveSide 0)) g scorer ⟨ra, hra⟩ ⟨rb, hrb⟩
  refine ⟨g1, hg1, ?_⟩
  obtain ⟨w, hw, hs1, -, hc⟩ := updateAfterRally_cases env _ g g1 scorer hg1
  have hw01 : w = 0 ∨ w = 1 := by
    rcases hw with ⟨-, h⟩ | ⟨-, h⟩
    · exact Or.inl h
    · exact Or.inr h
  refine ⟨?_, by rw [hs1]; exact hw01⟩
  rcases hc with ⟨-, e1, e2, e3, e4⟩ | ⟨hne, hrot, hlr, hother⟩
  · unfold GameState.Safe
    rw [e1, e2, e3, e4]
    exact hsafe
  · rcases hw01 with rfl | rfl
    · have hs1 : g.serveSide = 1 := by
        rcases hs with h | h
        · exact absurd h hne
        · exact h
      simp only [GameState.rotationOf, GameState.liberoReplaceOf, Env.rosterOf, if_true,
        one_ne_zero, if_false, sub_zero, hs1] at hrot hlr hother
      rw [hra] at hrot
      have hra1 : ra = g1.rotateA := Except.ok.inj hrot
      constructor
      · rw [← hra1, hlr]; exact sa
      · rcases hother with ⟨hmb, e1, e2⟩ | ⟨-, e1, e2⟩
        · rw [e1, e2]
          exact write_libero_safe env.teamB hB g.rotateB hsafe.2.1 hmb
        · rw [e1, e2]; exact hsafe.2
    · have hs0 : g.serveSide = 0 := by
        rcases hs with h | h
        · exact h
        · exact absurd h hne
      simp only [GameState.rotationOf, GameState.liberoReplaceOf, Env.rosterOf, if_true,
        one_ne_zero, if_false, sub_self, hs0] at hrot hlr hother
      rw [hrb] at hrot
      have hrb1 : rb = g1.rotateB := Except.ok.inj hrot
      constructor
      · rcases hother with ⟨hmb, e1, e2⟩ | ⟨-, e1, e2⟩
        · rw [e1, e2]
          exact write_libero_safe env.teamA hA g.rotateA hsafe.1.1 hmb
        · rw [e1, e2]; exact hsafe.1
      · rw [← hrb1, hlr]; exact sb

theorem write_libero_backRow (team : Roster) (hL : team.OnlyLiberoAtSix) (r : Rotation)
    (serving : Prop) (h : BackRowFree team r True) : BackRowFree team (r.write 0 6) serving := by
  refine ⟨?_, ?_, fun _ => ?_⟩
  · simpa [Rotation.write] using h.1
  · simpa [Rotation.write] using h.2.1
  · have : (team.player 6).position = "L" := hL.1
    simp only [Rotation.write, if_true, this]
    decide

theorem updateAfterRally_backRow (env : Env) (hA : env.teamA.OnlyLiberoAtSix)
    (hB : env.teamB.OnlyLiberoAtSix) (g g1 : GameState) (scorer : Int)
    (hs : g.serveSide = 0 ∨ g.serveSide = 1) (hsafe : g.Safe) (hfree : env.NoBackRowMB g)
    (h : updateAfterRally env
        ((env.rosterOf g.serveSide).player (g.rotationOf g.serveSide 0)) g scorer = .ok g1) :
    env.NoBackRowMB g1 := by
  obtain ⟨ra, hra, -, a0, a4, a5⟩ :=
    rotateRotation_safe env.teamA hA g.rotateA g.liberoReplaceA hsafe.1
  obtain ⟨rb, hrb, -, b0, b4, b5⟩ :=
    rotateRotation_safe env.teamB hB g.rotateB g.liberoReplaceB hsafe.2
  obtain ⟨w, hw, hs1, -, hc⟩ := updateAfterRally_cases env _ g g1 scorer h
  have hw01 : w = 0 ∨ w = 1 := by
    rcases hw with ⟨-, h⟩ | ⟨-, h⟩
    · exact Or.inl h
    · exact Or.inr h
  rcases hc with ⟨hsw, e1, e2, e3, e4⟩ | ⟨hne, hrot, hlr, hother⟩
  · unfold Env.NoBackRowMB
    rw [e1, e2, hs1, ← hsw]
    exact hfree
  · rcases hw01 with rfl | rfl
    · have hs1 : g.serveSide = 1 := by
        rcases hs with h | h
        · exact absurd h hne
        · exact h
      simp only [GameState.rotationOf, GameState.liberoReplaceOf, Env.rosterOf, if_true,
        one_ne_zero, if_false, sub_zero, hs1] at hrot hlr hother
      rw [hra] at hrot
      have hra1 : ra = g1.rotateA := Except.ok.inj hrot
      obtain ⟨⟨fa4, fa5, fa0⟩, fb4, fb5, -⟩ := hfree
      unfold Env.NoBackRowMB
      rw [‹g1.serveSide = 0›]
      constructor
      · rw [← hra1]
        refine ⟨by rw [a4]; exact fa5, by rw [a5]; exact fa0 (by rw [hs1]; decide),
          fun hn => absurd rfl hn⟩
      · rcases hother with ⟨-, e1, -⟩ | ⟨hmb, e1, -⟩
        · rw [e1]
          exact write_libero_backRow env.teamB hB g.rotateB _ ⟨fb4, fb5, fun hn => absurd trivial hn⟩
        · rw [e1]
          exact ⟨fb4, fb5, fun _ => hmb⟩
    · have hs0 : g.serveSide = 0 := by
        rcases hs with h | h
        · exact h
        · exact absurd h hne
      simp only [GameState.rotationOf, GameState.liberoReplaceOf, Env.rosterOf, if_true,
        one_ne_zero, if_false, sub_self, hs0] at hrot hlr hother
      rw [hrb] at hrot
      have hrb1 : rb = g1.rotateB := Except.ok.inj hrot
      obtain ⟨⟨fa4, fa5, -⟩, fb4, fb5, fb0⟩ := hfree
      unfold Env.NoBackRowMB
      rw [‹g1.serveSide = 1›]
      constructor
      · rcases hother with ⟨-, e1, -⟩ | ⟨hmb, e1, -⟩
        · rw [e1]
          exact write_libero_backRow env.teamA hA g.rotateA _ ⟨fa4, fa5, fun hn => absurd trivial hn⟩
        · rw [e1]
          exact ⟨fa4, fa5, fun _ => hmb⟩
      · rw [← hrb1]
        refine ⟨by rw [b4]; exact fb5, by rw [b5]; exact fb0 (by rw [hs0]; decide),
          fun hn => absurd rfl hn⟩

/-! ## The start of a set -/

theorem identityRotation_apply :
    identityRotation 0 = 0 ∧ identityRotation 1 = 1 ∧ identityRotation 2 = 2 ∧
    identityRotation 3 = 3 ∧ identityRotation 4 = 4 ∧ identityRotation 5 = 5 :=
  ⟨rfl, rfl, rfl, rfl, rfl, rfl⟩

theorem liberoSetup_identity (team : Roster) (serving : Prop) [Decidable serving]
    (lr0 : Option Int) :
    ∃ s, liberoSetup team (decide (¬ serving)) (identityRotation, lr0) = .ok s ∧
      StartsSet team serving s.1 s.2 lr0 := by
  obtain ⟨i0, i1, i2, i3, i4, i5⟩ := identityRotation_apply
  unfold liberoSetup liberoInit StartsSet
  by_cases h5 : (team.player 5).position = "MB" <;>
  by_cases h4 : (team.player 4).position = "MB" <;>
  by_cases h0 : (team.player 0).position = "MB" <;>
  by_cases hs : serving <;>
  simp [Roster.at, Rotation.write, i0, i1, i2, i3, i4, i5, h5, h4, h0, hs]
theorem StartsSet.safe {team : Roster} {serving : Prop} [Decidable serving] {r : Rotation}
    {lr lr0 : Option Int} (h : StartsSet team serving r lr lr0) : RotationSafe r lr := by
  obtain ⟨e1, e2, e3, e5, e4, e0, elr⟩ := h
  constructor
  · intro i
    fin_cases i
    · show 0 ≤ r 0 ∧ r 0 < 7
      rw [e0]; split <;> exact ⟨by decide, by decide⟩
    · show 0 ≤ r 1 ∧ r 1 < 7
      rw [e1]; exact ⟨by decide, by decide⟩
    · show 0 ≤ r 2 ∧ r 2 < 7
      rw [e2]; exact ⟨by decide, by decide⟩
    · show 0 ≤ r 3 ∧ r 3 < 7
      rw [e3]; exact ⟨by decide, by decide⟩
    · show 0 ≤ r 4 ∧ r 4 < 7
      rw [e4]; split <;> exact ⟨by decide, by decide⟩
    · show 0 ≤ r 5 ∧ r 5 < 7
      rw [e5]; split <;> exact ⟨by decide, by decide⟩
  · rintro ⟨i, hi⟩
    have hany : ((team.player 0).position = "MB" ∧ ¬ serving) ∨
        (team.player 4).position = "MB" ∨ (team.player 5).position = "MB" := by
      fin_cases i
      · left
        by_contra hn
        have h := hi
        simp only [Fin.zero_eta] at h
        rw [e0, if_neg hn] at h
        exact absurd h (by decide)
      · exact absurd (e1.symm.trans hi) (by decide)
      · exact absurd (e2.symm.trans hi) (by decide)
      · exact absurd (e3.symm.trans hi) (by decide)
      · right; left
        by_contra hn
        have h : r 4 = 6 := hi
        rw [e4, if_neg hn] at h
        exact absurd h (by decide)
      · right; right
        by_contra hn
        have h : r 5 = 6 := hi
        rw [e5, if_neg hn] at h
        exact absurd h (by decide)
    rw [elr]
    by_cases h0 : (team.player 0).position = "MB" ∧ ¬ serving
    · rw [if_pos h0]; exact ⟨0, rfl, by decide, by decide⟩
    · rw [if_neg h0]
      by_cases h4 : (team.player 4).position = "MB"
      · rw [if_pos h4]; exact ⟨4, rfl, by decide, by decide⟩
      · rw [if_neg h4]
        by_cases h5 : (team.player 5).position = "MB"
        · rw [if_pos h5]; exact ⟨5, rfl, by decide, by decide⟩
        · rcases hany with h | h | h
          · exact absurd h h0
          · exact absurd h h4
          · exact absurd h h5

theorem StartsSet.backRow {team : Roster} {serving : Prop} [Decidable serving] {r : Rotation}
    {lr lr0 : Option Int} (hL : team.OnlyLiberoAtSix) (h : StartsSet team serving r lr lr0) :
    BackRowFree team r serving := by
  obtain ⟨e1, e2, e3, e5, e4, e0, elr⟩ := h
  have h6 : (team.player 6).position ≠ "MB" := by
    have : (team.player 6).position = "L" := hL.1
    rw [this]; decide
  refine ⟨?_, ?_, fun hs => ?_⟩
  · rw [e4]
    split
    · exact h6
    · assumption
  · rw [e5]
    split
    · exact h6
    · assumption
  · rw [e0]
    split
    · exact h6
    · rename_i hn
      intro hmb
      exact hn ⟨hmb, hs⟩

theorem startRotations_spec (env : Env) (game : GameState) :
    ∃ g, startRotations env game = .ok g ∧
      StartsSet env.teamA (game.serveSide = 0) g.rotateA g.liberoReplaceA game.liberoReplaceA ∧
      StartsSet env.teamB (game.serveSide = 1) g.rotateB g.liberoReplaceB game.liberoReplaceB ∧
      g.serveSide = game.serveSide ∧ g.setNum = game.setNum ∧ g.scoreA = game.scoreA ∧
      g.scoreB = game.scoreB ∧ g.faultA = game.faultA ∧ g.faultB = game.faultB ∧
      g.scoredA = game.scoredA ∧ g.scoredB = game.scoredB := by
  obtain ⟨a, ha, sa⟩ := liberoSetup_identity env.teamA (game.serveSide = 0) game.liberoReplaceA
  obtain ⟨b, hb, sb⟩ := liberoSetup_identity env.teamB (game.serveSide = 1) game.liberoReplaceB
  unfold startRotations
  simp only [ne_eq] 
  rw [ha, hb]
  exact ⟨_, rfl, sa, sb, rfl, rfl, rfl, rfl, rfl, rfl, rfl, rfl⟩

theorem startRotations_safe (env : Env) (hA : env.teamA.OnlyLiberoAtSix)
    (hB : env.teamB.OnlyLiberoAtSix) (game g : GameState)
    (h : startRotations env game = .ok g) :
    g.Safe ∧ env.NoBackRowMB g := by
  obtain ⟨g1, hg1, sa, sb, hs, -⟩ := startRotations_spec env game
  rw [h] at hg1
  cases hg1
  refine ⟨⟨sa.safe, sb.safe⟩, ?_, ?_⟩
  · rw [hs]; exact sa.backRow hA
  · rw [hs]; exact sb.backRow hB

/-! ## States reachable from the start of a set -/

theorem currentServer_of_safe (env : Env) (g : GameState) (hsafe : g.Safe) :
    currentServer env g =
      .ok ((env.rosterOf g.serveSide).player (g.rotationOf g.serveSide 0)) := by
  unfold currentServer
  apply Roster.at_of_range
  · unfold GameState.rotationOf
    split
    · exact (hsafe.1.1 0).1
    · exact (hsafe.2.1 0).1
  · unfold GameState.rotationOf
    split
    · exact (hsafe.1.1 0).2
    · exact (hsafe.2.1 0).2

theorem rotateTeam_of_safe (env : Env) (hA : env.teamA.OnlyLiberoAtSix)
    (hB : env.teamB.OnlyLiberoAtSix) (g : GameState) (hsafe : g.Safe) (t : Int) :
    ∃ g1, rotateTeam env g t = .ok g1 := by
  obtain ⟨ra, hra, -⟩ := rotateRotation_safe env.teamA hA g.rotateA g.liberoReplaceA hsafe.1
  obtain ⟨rb, hrb, -⟩ := rotateRotation_safe env.teamB hB g.rotateB g.liberoReplaceB hsafe.2
  unfold rotateTeam
  rw [hra, hrb]
  split
  · exact ⟨_, rfl⟩
  · exact ⟨_, rfl⟩

theorem updatesAfter_safe (env : Env) (hA : env.teamA.OnlyLiberoAtSix)
    (hB : env.teamB.OnlyLiberoAtSix) (winners : List Int) :
    ∀ g : GameState, (g.serveSide = 0 ∨ g.serveSide = 1) → g.Safe →
      ∃ g1, updatesAfter env g winners = .ok g1 ∧ g1.Safe ∧
        (g1.serveSide = 0 ∨ g1.serveSide = 1) := by
  induction winners with
  | nil => exact fun g hs hsafe => ⟨g, rfl, hsafe, hs⟩
  | cons w rest ih =>
    intro g hs hsafe
    obtain ⟨g1, hg1, hsafe1, hs1⟩ := updateAfterRally_safe env hA hB g w hs hsafe
    obtain ⟨g2, hg2, h2⟩ := ih g1 hs1 hsafe1
    refine ⟨g2, ?_, h2⟩
    simp only [updatesAfter, currentServer_of_safe env g hsafe, hg1]
    exact hg2

theorem updatesAfter_backRow (env : Env) (hA : env.teamA.OnlyLiberoAtSix)
    (hB : env.teamB.OnlyLiberoAtSix) (winners : List Int) :
    ∀ g g1 : GameState, (g.serveSide = 0 ∨ g.serveSide = 1) → g.Safe → env.NoBackRowMB g →
      updatesAfter env g winners = .ok g1 → env.NoBackRowMB g1 := by
  induction winners with
  | nil =>
    intro g g1 _ _ hfree h
    cases h
    exact hfree
  | cons w rest ih =>
    intro g g1 hs hsafe hfree h
    obtain ⟨g2, hg2, hsafe2, hs2⟩ := updateAfterRally_safe env hA hB g w hs hsafe
    simp only [updatesAfter, currentServer_of_safe env g hsafe, hg2] at h
    exact ih g2 g1 hs2 hsafe2 (updateAfterRally_backRow env hA hB g g2 w hs hsafe hfree hg2) h

/-- A rally leaves the rotations, `liberoReplace` and the serve side as they
are, so the states before and after it are safe together and have the same
server. -/
theorem rally_frame_safe {R : Type} (env : Env) (sim : Simulators R) (g : GameState) (rng : R)
    (res : RallyResult R) (h : processRallyFromServe env sim g rng = .ok res) :
    (g.Safe → res.game.Safe) ∧ (env.NoBackRowMB g → env.NoBackRowMB res.game) ∧
    res.game.serveSide = g.serveSide ∧
    (env.rosterOf res.game.serveSide).player (res.game.rotationOf res.game.serveSide 0) =
      (env.rosterOf g.serveSide).player (g.rotationOf g.serveSide 0) := by
  obtain ⟨-, -, -, hs, ha, hb, hla, hlb⟩ := processRallyFromServe_frame env sim g rng res h
  unfold GameState.Safe Env.NoBackRowMB GameState.rotationOf
  rw [hs, ha, hb, hla, hlb]
  exact ⟨id, id, rfl, rfl⟩

theorem nextSet_spec {R : Type} (env : Env) (sim : Simulators R) (d : DisplayState) (rng : R) :
    ∃ d1 r1, nextSet env sim d rng = .ok (d1, r1) ∧
      d1.setsWonA = d.setsWonA ∧ d1.setsWonB = d.setsWonB ∧ d1.matchOver = d.matchOver ∧
      d1.gameState.scoreA = 0 ∧ d1.gameState.scoreB = 0 ∧
      ((d.gameState.setNum = 1 ∧ d1.gameState.setNum = 2 ∧
          d1.gameState.serveSide = 1 - d.gameState.serveSide ∧ r1 = rng) ∨
        (d.gameState.setNum ≠ 1 ∧ d1.gameState.setNum = 3 ∧
          d1.gameState.serveSide = ((sim.rand rng).1 : Int) % 2 ∧ r1 = (sim.rand rng).2)) ∧
      StartsSet env.teamA (d1.gameState.serveSide = 0) d1.gameState.rotateA
        d1.gameState.liberoReplaceA d.gameState.liberoReplaceA ∧
      StartsSet env.teamB (d1.gameState.serveSide = 1) d1.gameState.rotateB
        d1.gameState.liberoReplaceB d.gameState.liberoReplaceB := by
  unfold nextSet
  simp only
  split
  · rename_i h1
    obtain ⟨g, hg, sa, sb, e1, e2, e3, e4, -⟩ := startRotations_spec env
      { d.gameState with
        scoreA := 0, scoreB := 0, setNum := 2, serveSide := 1 - d.gameState.serveSide }
    rw [hg]
    refine ⟨_, _, rfl, rfl, rfl, rfl, e3, e4, Or.inl ⟨h1, e2, e1, rfl⟩, ?_, ?_⟩
    · simp only [e1]; exact sa
    · simp only [e1]; exact sb
  · rename_i h1
    obtain ⟨g, hg, sa, sb, e1, e2, e3, e4, -⟩ := startRotations_spec env
      { d.gameState with
        scoreA := 0, scoreB := 0, setNum := 3, serveSide := ((sim.rand rng).1 : Int) % 2 }
    rw [hg]
    refine ⟨_, _, rfl, rfl, rfl, rfl, e3, e4, Or.inr ⟨h1, e2, e1, rfl⟩, ?_, ?_⟩
    · simp only [e1]; exact sa
    · simp only [e1]; exact sb

theorem finishSet_cases {R : Type} (env : Env) (sim : Simulators R) (d d1 : DisplayState)
    (rng r1 : R) (h : finishSet env sim d rng = .ok (d1, r1)) :
    ((d.gameState.scoreA > d.gameState.scoreB ∧ d1.setsWonA = d.setsWonA + 1 ∧
        d1.setsWonB = d.setsWonB) ∨
      (¬ d.gameState.scoreA > d.gameState.scoreB ∧ d1.setsWonA = d.setsWonA ∧
        d1.setsWonB = d.setsWonB + 1)) ∧
    (((d1.setsWonA = 2 ∨ d1.setsWonB = 2 ∨ d.gameState.setNum ≥ 3) ∧ d1.matchOver = true ∧
        d1.gameState = d.gameState ∧ r1 = rng) ∨
      (¬ (d1.setsWonA = 2 ∨ d1.setsWonB = 2 ∨ d.gameState.setNum ≥ 3) ∧
        nextSet env sim { d1 with gameState := d.gameState, matchOver := d.matchOver } rng =
          .ok (d1, r1))) := by
  unfold finishSet at h
  simp only at h
  by_cases hgt : d.gameState.scoreA > d.gameState.scoreB
  · simp only [hgt, if_true] at h
    split at h
    · rename_i hc
      cases h
      exact ⟨Or.inl ⟨hgt, rfl, rfl⟩, Or.inl ⟨hc, rfl, rfl, rfl⟩⟩
    · rename_i hc
      obtain ⟨d2, r2, h2, a, b, -⟩ := nextSet_spec env sim
        { d with setsWonA := d.setsWonA + 1 } rng
      rw [h] at h2
      cases h2
      refine ⟨Or.inl ⟨hgt, a, b⟩, Or.inr ⟨by rw [a, b]; exact hc, ?_⟩⟩
      rw [← h]
      congr 1
      cases d1
      simp only at a b
      subst a b
      rfl
  · simp only [hgt, if_false] at h
    split at h
    · rename_i hc
      cases h
      exact ⟨Or.inr ⟨hgt, rfl, rfl⟩, Or.inl ⟨hc, rfl, rfl, rfl⟩⟩
    · rename_i hc
      obtain ⟨d2, r2, h2, a, b, -⟩ := nextSet_spec env sim
        { d with setsWonB := d.setsWonB + 1 } rng
      rw [h] at h2
      cases h2
      refine ⟨Or.inr ⟨hgt, a, b⟩, Or.inr ⟨by rw [a, b]; exact hc, ?_⟩⟩
      rw [← h]
      congr 1
      cases d1
      simp only at a b
      subst a b
      rfl

theorem simulateRound_cases {R : Type} (env : Env) (sim : Simulators R) (d d1 : DisplayState)
    (rng r1 : R) (h : simulateRound env sim d rng = .ok (d1, r1)) :
    (d.matchOver = true ∧ d1 = d ∧ r1 = rng) ∨
    (d.matchOver = false ∧ ∃ server res g1,
      currentServer env d.gameState = .ok server ∧
      processRallyFromServe env sim d.gameState rng = .ok res ∧
      updateAfterRally env server res.game res.winner = .ok g1 ∧
      ((simulateRoundSetEnds g1 = true ∧
          finishSet env sim { d with gameState := g1 } res.rng = .ok (d1, r1)) ∨
        (simulateRoundSetEnds g1 = false ∧ d1 = { d with gameState := g1 } ∧
          r1 = res.rng))) := by
  unfold simulateRound at h
  split at h
  · rename_i hm
    cases h
    exact Or.inl ⟨hm, rfl, rfl⟩
  · rename_i hm
    right
    refine ⟨by simpa using hm, ?_⟩
    split at h
    · cases h
    · rename_i server hserver
      split at h
      · cases h
      · rename_i res hres
        split at h
        · cases h
        · rename_i g1 hg1
          refine ⟨server, res, g1, hserver, hres, hg1, ?_⟩
          split at h
          · rename_i ht
            exact Or.inl ⟨ht, h⟩
          · rename_i ht
            cases h
            exact Or.inr ⟨by simpa using ht, rfl, rfl⟩
theorem nextSet_inv {R : Type} (env : Env) (hA : env.teamA.OnlyLiberoAtSix)
    (hB : env.teamB.OnlyLiberoAtSix) (sim : Simulators R) (d d1 : DisplayState) (rng r1 : R)
    (hs : d.gameState.serveSide = 0 ∨ d.gameState.serveSide = 1)
    (h : nextSet env sim d rng = .ok (d1, r1)) :
    (d1.gameState.serveSide = 0 ∨ d1.gameState.serveSide = 1) ∧ d1.gameState.Safe ∧
      env.NoBackRowMB d1.gameState := by
  obtain ⟨d2, r2, h2, -, -, -, -, -, hset, sa, sb⟩ := nextSet_spec env sim d rng
  rw [h] at h2
  cases h2
  refine ⟨?_, ⟨sa.safe, sb.safe⟩, sa.backRow hA, sb.backRow hB⟩
  rcases hset with ⟨-, -, e, -⟩ | ⟨-, -, e, -⟩
  · rw [e]; omega
  · rw [e]; omega

/-- The invariant of the match controller on rosters whose only Libero is index
6: the serve side is 0 or 1, the rotations are safe and no middle blocker
stands in the back row of a team that does not serve. -/
theorem simulateRound_inv {R : Type} (env : Env) (hA : env.teamA.OnlyLiberoAtSix)
    (hB : env.teamB.OnlyLiberoAtSix) (sim : Simulators R) (d d1 : DisplayState) (rng r1 : R)
    (hs : d.gameState.serveSide = 0 ∨ d.gameState.serveSide = 1) (hsafe : d.gameState.Safe)
    (hfree : env.NoBackRowMB d.gameState)
    (h : simulateRound env sim d rng = .ok (d1, r1)) :
    (d1.gameState.serveSide = 0 ∨ d1.gameState.serveSide = 1) ∧ d1.gameState.Safe ∧
      env.NoBackRowMB d1.gameState := by
  rcases simulateRound_cases env sim d d1 rng r1 h with
    ⟨-, rfl, -⟩ | ⟨-, server, res, g1, hserver, hres, hg1, hend⟩
  · exact ⟨hs, hsafe, hfree⟩
  · rw [currentServer_of_safe env _ hsafe] at hserver
    cases hserver
    obtain ⟨f1, f2, f3, f4⟩ := rally_frame_safe env sim _ rng res hres
    rw [← f4] at hg1
    have hs' : res.game.serveSide = 0 ∨ res.game.serveSide = 1 := by rw [f3]; exact hs
    obtain ⟨g2, hg2, hsafe1, hs1⟩ :=
      updateAfterRally_safe env hA hB res.game res.winner hs' (f1 hsafe)
    rw [hg1] at hg2
    cases hg2
    have hfree1 := updateAfterRally_backRow env hA hB res.game g1 res.winner hs' (f1 hsafe)
      (f2 hfree) hg1
    rcases hend with ⟨-, hfin⟩ | ⟨-, rfl, -⟩
    · rcases (finishSet_cases env sim _ d1 _ r1 hfin).2 with ⟨-, -, e, -⟩ | ⟨-, hnext⟩
      · rw [e]; exact ⟨hs1, hsafe1, hfree1⟩
      · exact nextSet_inv env hA hB sim _ d1 _ r1 hs1 hnext
    · exact ⟨hs1, hsafe1, hfree1⟩

theorem simulateRounds_inv {R : Type} (env : Env) (hA : env.teamA.OnlyLiberoAtSix)
    (hB : env.teamB.OnlyLiberoAtSix) (sim : Simulators R) (n : Nat) :
    ∀ (d d1 : DisplayState) (rng r1 : R),
      (d.gameState.serveSide = 0 ∨ d.gameState.serveSide = 1) → d.gameState.Safe →
      env.NoBackRowMB d.gameState → simulateRounds env sim n d rng = .ok (d1, r1) →
      (d1.gameState.serveSide = 0 ∨ d1.gameState.serveSide = 1) ∧ d1.gameState.Safe ∧
        env.NoBackRowMB d1.gameState := by
  induction n with
  | zero =>
    intro d d1 rng r1 hs hsafe hfree h
    cases h
    exact ⟨hs, hsafe, hfree⟩
  | succ n ih =>
    intro d d1 rng r1 hs hsafe hfree h
    simp only [simulateRounds] at h
    split at h
    · cases h
    · rename_i s hstep
      obtain ⟨a, b, c⟩ := simulateRound_inv env hA hB sim d s.1 rng s.2 hs hsafe hfree hstep
      exact ih s.1 d1 s.2 r1 a b c h

theorem initMatchState_spec {R : Type} (env : Env) (sim : Simulators R) (d : DisplayState)
    (rng : R) :
    ∃ d1, initMatchState env sim d rng = .ok (d1, (sim.rand rng).2) ∧
      d1.setsWonA = 0 ∧ d1.setsWonB = 0 ∧ d1.matchOver = false ∧
      d1.gameState.scoreA = 0 ∧ d1.gameState.scoreB = 0 ∧ d1.gameState.setNum = 1 ∧
      d1.gameState.serveSide = ((sim.rand rng).1 : Int) % 2 ∧
      StartsSet env.teamA (d1.gameState.serveSide = 0) d1.gameState.rotateA
        d1.gameState.liberoReplaceA d.gameState.liberoReplaceA ∧
      StartsSet env.teamB (d1.gameState.serveSide = 1) d1.gameState.rotateB
        d1.gameState.liberoReplaceB d.gameState.liberoReplaceB := by
  unfold initMatchState
  simp only
  obtain ⟨g, hg, sa, sb, e1, e2, e3, e4, -⟩ := startRotations_spec env
    { d.gameState with
      serveSide := ((sim.rand rng).1 : Int) % 2, setNum := 1, scoreA := 0, scoreB := 0 }
  rw [hg]
  refine ⟨_, rfl, rfl, rfl, rfl, e3, e4, e2, e1, ?_, ?_⟩
  · simp only [e1]; exact sa
  · simp only [e1]; exact sb

theorem initMatchState_inv {R : Type} (env : Env) (hA : env.teamA.OnlyLiberoAtSix)
    (hB : env.teamB.OnlyLiberoAtSix) (sim : Simulators R) (d d1 : DisplayState) (rng r1 : R)
    (h : initMatchState env sim d rng = .ok (d1, r1)) :
    (d1.gameState.serveSide = 0 ∨ d1.gameState.serveSide = 1) ∧ d1.gameState.Safe ∧
      env.NoBackRowMB d1.gameState := by
  obtain ⟨d2, h2, -, -, -, -, -, -, e, sa, sb⟩ := initMatchState_spec env sim d rng
  rw [h] at h2
  cases h2
  refine ⟨?_, ⟨sa.safe, sb.safe⟩, sa.backRow hA, sb.backRow hB⟩
  rw [e]; omega

theorem newGameSet1_spec (env : Env) (game : GameState) (rnd : Nat) :
    ∃ g, newGameSet1 env game rnd = .ok g ∧ g.setNum = 1 ∧
      g.serveSide = (rnd : Int) % 2 ∧
      StartsSet env.teamA (g.serveSide = 0) g.rotateA g.liberoReplaceA game.liberoReplaceA ∧
      StartsSet env.teamB (g.serveSide = 1) g.rotateB g.liberoReplaceB
        game.liberoReplaceB := by
  unfold newGameSet1
  obtain ⟨g, hg, sa, sb, e1, -⟩ := startRotations_spec env
    { game with serveSide := (rnd : Int) % 2 }
  rw [hg]
  refine ⟨_, rfl, rfl, e1, ?_, ?_⟩
  · simp only [e1]; exact sa
  · simp only [e1]; exact sb

theorem identityRotation_safe (lr : Option Int) : RotationSafe identityRotation lr := by
  constructor
  · intro i
    fin_cases i <;> exact ⟨by decide, by decide⟩
  · rintro ⟨i, hi⟩
    fin_cases i <;> exact absurd hi (by decide)

/-! ## The claims on the rotations of reachable states and on the start of a set -/

/-- C21 (failing input): the built-in default rosters, whose only Libero is index
6, with team B serving first and every rally won by the receiving team. After
eight calls of simulateRound the score is 4-4 in set 1 and team A's rotation
is 6,5,0,1,6,3: the entry 6 stands at indices 0 and 4, so the six entries are
not pairwise distinct, and the middle blocker 2 is in neither the rotation nor
liberoReplaceA. After thirteen calls it is 1,4,3,4,5,0, with the middle
blocker 4 at indices 1 and 3. The same states are reached by the updates
after rallies with these winners. -/
theorem C21_default_roster_repeats_entries :
    defaultTeamA.OnlyLiberoAtSix ∧ defaultTeamB.OnlyLiberoAtSix ∧
    ∃ d0 d8 d13 g8,
      initMatchState exampleEnv (simServerLoses 1) freshDisplay () = .ok (d0, ()) ∧
      simulateRounds exampleEnv (simServerLoses 1) 8 d0 () = .ok (d8, ()) ∧
      simulateRounds exampleEnv (simServerLoses 1) 13 d0 () = .ok (d13, ()) ∧
      updatesAfter exampleEnv d0.gameState [0, 1, 0, 1, 0, 1, 0, 1] = .ok g8 ∧
      d0.gameState.serveSide = 1 ∧ (∀ i, d0.gameState.rotateA i = exampleRotation i) ∧
      d8.gameState.setNum = 1 ∧ d8.gameState.scoreA = 4 ∧ d8.gameState.scoreB = 4 ∧
      (∀ i, d8.gameState.rotateA i = twoLiberoRotation i) ∧
      d8.gameState.rotateA 0 = 6 ∧ d8.gameState.rotateA 4 = 6 ∧
      (∀ i, d8.gameState.rotateA i ≠ 2) ∧ d8.gameState.liberoReplaceA = some 4 ∧
      (∀ i, g8.rotateA i = twoLiberoRotation i) ∧
      d13.gameState.setNum = 1 ∧ d13.gameState.rotateA 1 = 4 ∧
      d13.gameState.rotateA 3 = 4 :=
  ⟨by decide, by decide, _, _, _, _, rfl, rfl, rfl, rfl, by decide⟩

/-- C22: GameDisplay::initMatchState, GameDisplay::nextSet and the part of newGame
before set 1 always succeed and leave each team's rotation in the identity
order 0..5, except that the entry at index 5 and the entry at index 4 are 6
when the roster player 5, respectively 4, has position "MB", and the entry at
index 0 is 6 exactly when the roster player 0 has position "MB" and the team
is not the serving side; liberoReplace holds the roster index of the last
entry replaced in the order 5, 4, 0, and its former value when no entry was
replaced. -/
theorem C22_set_start_rotations {R : Type} (env : Env) (sim : Simulators R)
    (d : DisplayState) (rng : R) (game : GameState) (rnd : Nat) :
    (∃ d1 r1, initMatchState env sim d rng = .ok (d1, r1) ∧
      StartsSet env.teamA (d1.gameState.serveSide = 0) d1.gameState.rotateA
        d1.gameState.liberoReplaceA d.gameState.liberoReplaceA ∧
      StartsSet env.teamB (d1.gameState.serveSide = 1) d1.gameState.rotateB
        d1.gameState.liberoReplaceB d.gameState.liberoReplaceB) ∧
    (∃ d1 r1, nextSet env sim d rng = .ok (d1, r1) ∧
      StartsSet env.teamA (d1.gameState.serveSide = 0) d1.gameState.rotateA
        d1.gameState.liberoReplaceA d.gameState.liberoReplaceA ∧
      StartsSet env.teamB (d1.gameState.serveSide = 1) d1.gameState.rotateB
        d1.gameState.liberoReplaceB d.gameState.liberoReplaceB) ∧
    (∃ g, newGameSet1 env game rnd = .ok g ∧
      StartsSet env.teamA (g.serveSide = 0) g.rotateA g.liberoReplaceA game.liberoReplaceA ∧
      StartsSet env.teamB (g.serveSide = 1) g.rotateB g.liberoReplaceB
        game.liberoReplaceB) := by
  refine ⟨?_, ?_, ?_⟩
  · obtain ⟨d1, h, -, -, -, -, -, -, -, sa, sb⟩ := initMatchState_spec env sim d rng
    exact ⟨d1, _, h, sa, sb⟩
  · obtain ⟨d1, r1, h, -, -, -, -, -, -, sa, sb⟩ := nextSet_spec env sim d rng
    exact ⟨d1, r1, h, sa, sb⟩
  · obtain ⟨g, h, -, -, sa, sb⟩ := newGameSet1_spec env game rnd
    exact ⟨g, h, sa, sb⟩

/-- C23 (failing input): the default rosters, middle blockers at roster indices 2
and 4, after a set 1 that ends with team B serving, and after a set 2. For
set 2 GameDisplay::nextSet and newGame choose the same serve side 0, but
nextSet starts team A with the libero at index 4 (rotation 0,1,2,3,6,5) and
liberoReplaceA = 4, while newGame starts it with the identity order, the
middle blocker 4 standing at the back-row index 4 and no libero in the
rotation. The same happens for set 3 with the same value of rand(). -/
theorem C23_newGame_starts_without_libero :
    (defaultTeamA.player 4).position = "MB" ∧
    (∃ d1, nextSet exampleEnv (simServerLoses 0)
        { freshDisplay with gameState := exampleGame 1 } () = .ok (d1, ()) ∧
      d1.gameState.setNum = 2 ∧ (newGameSet2 (exampleGame 1)).setNum = 2 ∧
      d1.gameState.serveSide = 0 ∧ (newGameSet2 (exampleGame 1)).serveSide = 0 ∧
      (∀ i, d1.gameState.rotateA i = exampleRotation i) ∧ d1.gameState.rotateA 4 = 6 ∧
      d1.gameState.liberoReplaceA = some 4 ∧
      (∀ i, (newGameSet2 (exampleGame 1)).rotateA i = identityRotation i) ∧
      (newGameSet2 (exampleGame 1)).rotateA 4 = 4 ∧
      (∀ i, (newGameSet2 (exampleGame 1)).rotateA i ≠ 6)) ∧
    (∃ d1, nextSet exampleEnv (simServerLoses 0)
        { freshDisplay with gameState := { exampleGame 1 with setNum := 2 } } () =
          .ok (d1, ()) ∧
      d1.gameState.setNum = 3 ∧ (newGameSet3 { exampleGame 1 with setNum := 2 } 0).setNum = 3 ∧
      d1.gameState.serveSide = 0 ∧
      (newGameSet3 { exampleGame 1 with setNum := 2 } 0).serveSide = 0 ∧
      d1.gameState.rotateA 4 = 6 ∧
      (newGameSet3 { exampleGame 1 with setNum := 2 } 0).rotateA 4 = 4) :=
  ⟨by decide, ⟨_, rfl, by decide⟩, ⟨_, rfl, by decide⟩⟩
/-- C27: for rosters whose only Libero is index 6, in every state that
GameDisplay::initMatchState followed by any number of simulateRound calls
(with the nextSet calls they make) reaches, all rotation entries are roster
indices in [0,6], no player with position "MB" stands at rotation index 4 or
5 of either team, and a player with position "MB" stands at index 0 only on
the team that serves. -/
theorem C27_no_back_row_middle_blocker {R : Type} (env : Env)
    (hA : env.teamA.OnlyLiberoAtSix) (hB : env.teamB.OnlyLiberoAtSix) (sim : Simulators R)
    (d d0 d1 : DisplayState) (rng r0 r1 : R) (n : Nat)
    (h0 : initMatchState env sim d rng = .ok (d0, r0))
    (h : simulateRounds env sim n d0 r0 = .ok (d1, r1)) :
    d1.gameState.rotateA.Valid ∧ d1.gameState.rotateB.Valid ∧
    (env.teamA.player (d1.gameState.rotateA 4)).position ≠ "MB" ∧
    (env.teamA.player (d1.gameState.rotateA 5)).position ≠ "MB" ∧
    (env.teamB.player (d1.gameState.rotateB 4)).position ≠ "MB" ∧
    (env.teamB.player (d1.gameState.rotateB 5)).position ≠ "MB" ∧
    ((env.teamA.player (d1.gameState.rotateA 0)).position = "MB" →
      d1.gameState.serveSide = 0) ∧
    ((env.teamB.player (d1.gameState.rotateB 0)).position = "MB" →
      d1.gameState.serveSide = 1) := by
  obtain ⟨a, b, c⟩ := initMatchState_inv env hA hB sim d d0 rng r0 h0
  obtain ⟨-, hsafe, ⟨a4, a5, a0⟩, b4, b5, b0⟩ :=
    simulateRounds_inv env hA hB sim n d0 d1 r0 r1 a b c h
  exact ⟨hsafe.1.1, hsafe.2.1, a4, a5, b4, b5, fun hmb => by_contra fun hn => a0 hn hmb,
    fun hmb => by_contra fun hn => b0 hn hmb⟩

/-- C27 (witness): the default rosters, team B serving first, after three rallies
won in turn by A, B and A: team A serves with its middle blocker 2 at index
0. -/
theorem C27_no_back_row_middle_blocker_witness :
    ∃ d0 d1, initMatchState exampleEnv (simServerLoses 1) freshDisplay () = .ok (d0, ()) ∧
      simulateRounds exampleEnv (simServerLoses 1) 3 d0 () = .ok (d1, ()) ∧
      d1.gameState.rotateA 0 = 2 ∧ (defaultTeamA.player 2).position = "MB" ∧
      (d1.gameState.rotateA.Valid ∧ d1.gameState.rotateB.Valid ∧
        (exampleEnv.teamA.player (d1.gameState.rotateA 4)).position ≠ "MB" ∧
        (exampleEnv.teamA.player (d1.gameState.rotateA 5)).position ≠ "MB" ∧
        (exampleEnv.teamB.player (d1.gameState.rotateB 4)).position ≠ "MB" ∧
        (exampleEnv.teamB.player (d1.gameState.rotateB 5)).position ≠ "MB" ∧
        ((exampleEnv.teamA.player (d1.gameState.rotateA 0)).position = "MB" →
          d1.gameState.serveSide = 0) ∧
        ((exampleEnv.teamB.player (d1.gameState.rotateB 0)).position = "MB" →
          d1.gameState.serveSide = 1)) :=
  ⟨_, _, rfl, rfl, by decide, by decide,
    C27_no_back_row_middle_blocker exampleEnv (by decide) (by decide) (simServerLoses 1)
      freshDisplay _ _ () () () 3 rfl rfl⟩

/-- C29: for rosters whose only Libero is index 6, every set start is safe: after
the part of newGame before set 1, after GameDisplay::initMatchState, after
GameDisplay::nextSet and after the resets of newGame before sets 2 and 3 the
serve side is 0 or 1, every rotation entry is in [0,6], and a team whose
rotation contains 6 has a liberoReplace that was assigned an index in [0,5].
From a safe state the updates after any sequence of rallies succeed, so
rotateTeam never reads an unassigned liberoReplace and no roster lookup leaves
the array, and they end in a safe state, in which rotateTeam succeeds for
both teams. -/
theorem C29_rotations_stay_safe (env : Env) (hA : env.teamA.OnlyLiberoAtSix)
    (hB : env.teamB.OnlyLiberoAtSix) :
    (∀ (game : GameState) (rnd : Nat), ∃ g0, newGameSet1 env game rnd = .ok g0 ∧
      g0.Safe ∧ (g0.serveSide = 0 ∨ g0.serveSide = 1)) ∧
    (∀ (R : Type) (sim : Simulators R) (d : DisplayState) (rng : R),
      ∃ d0 r0, initMatchState env sim d rng = .ok (d0, r0) ∧
        d0.gameState.Safe ∧ (d0.gameState.serveSide = 0 ∨ d0.gameState.serveSide = 1)) ∧
    (∀ (R : Type) (sim : Simulators R) (d : DisplayState) (rng : R),
      (d.gameState.serveSide = 0 ∨ d.gameState.serveSide = 1) →
      ∃ d0 r0, nextSet env sim d rng = .ok (d0, r0) ∧
        d0.gameState.Safe ∧ (d0.gameState.serveSide = 0 ∨ d0.gameState.serveSide = 1)) ∧
    (∀ (game : GameState) (rnd : Nat), (game.serveSide = 0 ∨ game.serveSide = 1) →
      (newGameSet2 game).Safe ∧
      ((newGameSet2 game).serveSide = 0 ∨ (newGameSet2 game).serveSide = 1) ∧
      (newGameSet3 game rnd).Safe ∧
      ((newGameSet3 game rnd).serveSide = 0 ∨ (newGameSet3 game rnd).serveSide = 1)) ∧
    (∀ (g0 : GameState) (winners : List Int), g0.Safe →
      (g0.serveSide = 0 ∨ g0.serveSide = 1) →
      ∃ g, updatesAfter env g0 winners = .ok g ∧
        g.rotateA.Valid ∧ g.rotateB.Valid ∧
        ((∃ i, g.rotateA i = 6) → ∃ m, g.liberoReplaceA = some m ∧ 0 ≤ m ∧ m < 6) ∧
        ((∃ i, g.rotateB i = 6) → ∃ m, g.liberoReplaceB = some m ∧ 0 ≤ m ∧ m < 6) ∧
        (g.serveSide = 0 ∨ g.serveSide = 1) ∧
        (∃ ga, rotateTeam env g 0 = .ok ga) ∧ (∃ gb, rotateTeam env g 1 = .ok gb)) := by
  refine ⟨?_, ?_, ?_, ?_, ?_⟩
  · intro game rnd
    obtain ⟨g, h, -, e, sa, sb⟩ := newGameSet1_spec env game rnd
    exact ⟨g, h, ⟨sa.safe, sb.safe⟩, by rw [e]; omega⟩
  · intro R sim d rng
    obtain ⟨d1, h, -⟩ := initMatchState_spec env sim d rng
    obtain ⟨a, b, -⟩ := initMatchState_inv env hA hB sim d d1 rng _ h
    exact ⟨d1, _, h, b, a⟩
  · intro R sim d rng hs
    obtain ⟨d1, r1, h, -⟩ := nextSet_spec env sim d rng
    obtain ⟨a, b, -⟩ := nextSet_inv env hA hB sim d d1 rng r1 hs h
    exact ⟨d1, r1, h, b, a⟩
  · intro game rnd hs
    refine ⟨⟨identityRotation_safe _, identityRotation_safe _⟩, ?_,
      ⟨identityRotation_safe _, identityRotation_safe _⟩, ?_⟩
    · show 1 - game.serveSide = 0 ∨ 1 - game.serveSide = 1
      omega
    · show (rnd : Int) % 2 = 0 ∨ (rnd : Int) % 2 = 1
      omega
  · intro g0 winners hsafe hs
    obtain ⟨g, hg, hsafe1, hs1⟩ := updatesAfter_safe env hA hB winners g0 hs hsafe
    refine ⟨g, hg, hsafe1.1.1, hsafe1.2.1, ?_, ?_, hs1, rotateTeam_of_safe env hA hB g hsafe1 0,
      rotateTeam_of_safe env hA hB g hsafe1 1⟩
    · intro h6
      obtain ⟨m, hm, hb⟩ := hsafe1.1.2 h6
      exact ⟨m, hm, hb⟩
    · intro h6
      obtain ⟨m, hm, hb⟩ := hsafe1.2.2 h6
      exact ⟨m, hm, hb⟩

/-- C29 (witness): the default rosters from the state that initMatchState leaves
with team B serving first, after eight rallies won in turn by A and B: team
A's rotation contains 6 and liberoReplaceA is 4. -/
theorem C29_rotations_stay_safe_witness :
    ∃ d0, initMatchState exampleEnv (simServerLoses 1) freshDisplay () = .ok (d0, ()) ∧
      ∃ g, updatesAfter exampleEnv d0.gameState [0, 1, 0, 1, 0, 1, 0, 1] = .ok g ∧
        g.rotateA.Valid ∧ g.rotateB.Valid ∧
        ((∃ i, g.rotateA i = 6) → ∃ m, g.liberoReplaceA = some m ∧ 0 ≤ m ∧ m < 6) ∧
        ((∃ i, g.rotateB i = 6) → ∃ m, g.liberoReplaceB = some m ∧ 0 ≤ m ∧ m < 6) ∧
        (g.serveSide = 0 ∨ g.serveSide = 1) ∧
        (∃ ga, rotateTeam exampleEnv g 0 = .ok ga) ∧
        (∃ gb, rotateTeam exampleEnv g 1 = .ok gb) :=
  ⟨_, rfl,
    (C29_rotations_stay_safe exampleEnv (by decide) (by decide)).2.2.2.2 _
      [0, 1, 0, 1, 0, 1, 0, 1] (by decide) (by decide)⟩

/-! ## The setter stays in the rotation -/

theorem isSetter_position (p : Player) (h : p.isSetter = true) :
    p.position ≠ "L" ∧ p.position ≠ "MB" := by
  unfold Player.isSetter at h
  simp only [Bool.or_eq_true, beq_iff_eq] at h
  rcases h with h | h <;> rw [h] <;> exact ⟨by decide, by decide⟩

theorem currentServer_ok (env : Env) (g : GameState) (server : Player)
    (h : currentServer env g = .ok server) :
    server = (env.rosterOf g.serveSide).player (g.rotationOf g.serveSide 0) := by
  unfold currentServer Roster.at at h
  split at h
  · cases h; rfl
  · cases h

theorem updateAfterRally_keeps (env : Env) (g g1 : GameState) (scorer : Int)
    (hs : g.serveSide = 0 ∨ g.serveSide = 1)
    (h : updateAfterRally env
        ((env.rosterOf g.serveSide).player (g.rotationOf g.serveSide 0)) g scorer = .ok g1)
    (t : Int) (ht : t = 0 ∨ t = 1) (k : Int)
    (hk : ((env.rosterOf t).player k).isSetter = true) (hin : ∃ i, g.rotationOf t i = k) :
    (g1.serveSide = 0 ∨ g1.serveSide = 1) ∧ ∃ i, g1.rotationOf t i = k := by
  obtain ⟨hnl, hnmb⟩ := isSetter_position _ hk
  obtain ⟨w, hw, hs1, -, hc⟩ := updateAfterRally_cases env _ g g1 scorer h
  have hw01 : w = 0 ∨ w = 1 := by
    rcases hw with ⟨-, h⟩ | ⟨-, h⟩
    · exact Or.inl h
    · exact Or.inr h
  refine ⟨by rw [hs1]; exact hw01, ?_⟩
  rcases hc with ⟨-, e1, e2, -, -⟩ | ⟨hne, hrot, -, hother⟩
  · unfold GameState.rotationOf at hin ⊢
    rw [e1, e2]
    exact hin
  · by_cases htw : t = w
    · subst htw
      exact rotateRotation_keeps _ _ _ _ hrot k hnl hin
    · have h1w : 1 - w = t := by omega
      have hst : g.serveSide = t := by omega
      rw [h1w] at hother
      rw [hst] at hother
      rcases hother with ⟨hmb, e, -⟩ | ⟨-, e, -⟩
      · obtain ⟨i, hi⟩ := hin
        have hi0 : i ≠ 0 := by
          rintro rfl
          rw [hi] at hmb
          exact hnmb hmb
        exact ⟨i, by rw [e]; simp only [Rotation.write, if_neg hi0]; exact hi⟩
      · rw [e]; exact hin

theorem updatesAfter_keeps (env : Env) (winners : List Int) :
    ∀ (g g1 : GameState), (g.serveSide = 0 ∨ g.serveSide = 1) →
      updatesAfter env g winners = .ok g1 →
      ∀ (t : Int), t = 0 ∨ t = 1 → ∀ k : Int, ((env.rosterOf t).player k).isSetter = true →
        (∃ i, g.rotationOf t i = k) → ∃ i, g1.rotationOf t i = k := by
  induction winners with
  | nil =>
    intro g g1 _ h t _ k _ hin
    cases h
    exact hin
  | cons w rest ih =>
    intro g g1 hs h t ht k hk hin
    simp only [updatesAfter] at h
    split at h
    · cases h
    · rename_i server hserver
      have hsv := currentServer_ok env g server hserver
      subst hsv
      split at h
      · cases h
      · rename_i g2 hg2
        obtain ⟨hs2, hin2⟩ := updateAfterRally_keeps env g g2 w hs hg2 t ht k hk hin
        exact ih g2 g1 hs2 h t ht k hk hin2

theorem exists_firstSetterSlot (team : Roster) (r : Rotation)
    (h : ∃ i : Fin 6, (team.player (r i)).isSetter = true) : ∃ j, FirstSetterSlot team r j := by
  have hsome : (Fin.find (fun i : Fin 6 => (team.player (r i)).isSetter = true)).isSome :=
    Fin.isSome_find_iff.mpr h
  obtain ⟨j, hj⟩ := Option.isSome_iff_exists.mp hsome
  refine ⟨j, Fin.find_spec _ hj, fun i hi => ?_⟩
  have := Fin.find_min hj hi
  simpa using this
/-- C30: let a set start with serve side 0 or 1 and with a player of position
Setter, roster index k, in the rotation of team t. Whatever rallies follow, in
the state after their updates k is still in that team's rotation: rotateTeam
overwrites only an entry whose player has position "L" and the update after a
rally only the entry of a server with position "MB". On rosters whose only
Libero is index 6 and from a safe set start, the setter scan of
processRallyFromReceive then finds a Setter at a slot j, the index it returns
as setter_id is the roster index at j, in [0,6] and never -1, and the fault
counter indexed with it is inside its array. -/
theorem C30_setter_stays_in_rotation (env : Env) (g0 g : GameState) (winners : List Int)
    (hs : g0.serveSide = 0 ∨ g0.serveSide = 1)
    (h : updatesAfter env g0 winners = .ok g)
    (t : Int) (ht : t = 0 ∨ t = 1) (k : Int)
    (hk : ((env.rosterOf t).player k).isSetter = true)
    (hin : ∃ i, g0.rotationOf t i = k) :
    (∃ i, g.rotationOf t i = k) ∧
    (env.teamA.OnlyLiberoAtSix → env.teamB.OnlyLiberoAtSix → g0.Safe →
      ∃ j, ((env.rosterOf t).player (g.rotationOf t j)).isSetter = true ∧
        scanSetter (env.rosterOf t) (g.rotationOf t) env.blank slots =
          .ok ((env.rosterOf t).player (g.rotationOf t j), g.rotationOf t j) ∧
        0 ≤ g.rotationOf t j ∧ g.rotationOf t j < 7 ∧ g.rotationOf t j ≠ -1 ∧
        ∃ g1, g.incrFault t (g.rotationOf t j) = .ok g1) := by
  have hkeep := updatesAfter_keeps env winners g0 g hs h t ht k hk hin
  refine ⟨hkeep, fun hA hB hsafe => ?_⟩
  obtain ⟨g1, hg1, hsafe1, -⟩ := updatesAfter_safe env hA hB winners g0 hs hsafe
  rw [h] at hg1
  cases hg1
  have hv : (g.rotationOf t).Valid := by
    unfold GameState.rotationOf
    split
    · exact hsafe1.1.1
    · exact hsafe1.2.1
  obtain ⟨i, hi⟩ := hkeep
  obtain ⟨j, hj⟩ := exists_firstSetterSlot (env.rosterOf t) (g.rotationOf t)
    ⟨i, by rw [hi]; exact hk⟩
  refine ⟨j, hj.1, scanSetter_first _ _ _ j hv hj, (hv j).1, (hv j).2, ?_,
    ⟨_, incrFault_of_range g t _ (hv j).1 (hv j).2⟩⟩
  have := (hv j).1
  omega

/-- C30 (witness): the setter A2 (roster index 1) of the default rosters, from a
set start with team B serving first, after eight rallies won in turn by A and
B. -/
theorem C30_setter_stays_in_rotation_witness :
    ∃ g, updatesAfter exampleEnv (exampleGame 1) [0, 1, 0, 1, 0, 1, 0, 1] = .ok g ∧
      (defaultTeamA.player 1).position = "S" ∧ (exampleGame 1).rotateA 1 = 1 ∧
      g.rotateA 3 = 1 ∧ ∃ i, g.rotationOf 0 i = 1 :=
  ⟨_, rfl, by decide, by decide, by decide,
    (C30_setter_stays_in_rotation exampleEnv (exampleGame 1) _ [0, 1, 0, 1, 0, 1, 0, 1]
      (by decide) rfl 0 (by decide) 1 (by decide) ⟨1, by decide⟩).1⟩

/-! ## The serve side after a rally and at the end of a set -/

theorem updateAfterRally_point (env : Env) (server : Player) (g g1 : GameState)
    (scorer : Int) (h : updateAfterRally env server g scorer = .ok g1) :
    g1.setNum = g.setNum ∧
    ((scorer = 0 ∧ g1.serveSide = 0 ∧ g1.scoreA = g.scoreA + 1 ∧ g1.scoreB = g.scoreB) ∨
      (scorer ≠ 0 ∧ g1.serveSide = 1 ∧ g1.scoreA = g.scoreA ∧ g1.scoreB = g.scoreB + 1)) := by
  obtain ⟨w, hw, hs, hn, -⟩ := updateAfterRally_cases env server g g1 scorer h
  refine ⟨hn, ?_⟩
  have hsc := updateAfterRally_scores env server g g1 scorer h
  unfold updateAfterRally at h
  simp only at h
  rcases hw with ⟨h0, rfl⟩ | ⟨h0, rfl⟩
  · left
    refine ⟨h0, hs, ?_⟩
    simp only [h0, if_true] at h
    split at h
    · cases h; exact ⟨rfl, rfl⟩
    · split at h
      · cases h
      · rename_i g2 hg2
        cases h
        obtain ⟨ha, hb⟩ := rotateTeam_scores _ _ _ _ hg2
        obtain ⟨hc, hd⟩ := liberoIn_scores server { g2 with serveSide := 0 } 1
        exact ⟨by rw [hc]; exact ha, by rw [hd]; exact hb⟩
  · right
    refine ⟨h0, hs, ?_⟩
    simp only [h0, if_false] at h
    split at h
    · cases h; exact ⟨rfl, rfl⟩
    · split at h
      · cases h
      · rename_i g2 hg2
        cases h
        obtain ⟨ha, hb⟩ := rotateTeam_scores _ _ _ _ hg2
        obtain ⟨hc, hd⟩ := liberoIn_scores server { g2 with serveSide := 1 } 0
        exact ⟨by rw [hc]; exact ha, by rw [hd]; exact hb⟩

/-- A rally that ends a set was won by the side with the higher score, which is
the serve side after the update. -/
theorem set_end_serveSide (env : Env) (server : Player) (g g1 : GameState) (scorer t : Int)
    (hnot : setEnds t g.scoreA g.scoreB = false)
    (h : updateAfterRally env server g scorer = .ok g1)
    (hend : setEnds t g1.scoreA g1.scoreB = true) :
    g1.serveSide = (if g1.scoreA > g1.scoreB then 0 else 1) := by
  have hnot' : ¬ ((g.scoreA ≥ t ∨ g.scoreB ≥ t) ∧
      (g.scoreA - g.scoreB ≥ 2 ∨ g.scoreB - g.scoreA ≥ 2)) := by
    rw [← setEnds_iff, hnot]; decide
  rw [setEnds_iff] at hend
  rcases (updateAfterRally_point env server g g1 scorer h).2 with
    ⟨-, hs, ha, hb⟩ | ⟨-, hs, ha, hb⟩
  · rw [hs, if_pos (by omega)]
  · rw [hs, if_neg (by omega)]

theorem playSetLoop_serveSide {R : Type} (env : Env) (sim : Simulators R) (target : Int)
    (n : Nat) : ∀ (g : GameState) (rng : R) (res : SetResult R),
    (setEnds target g.scoreA g.scoreB = true →
      g.serveSide = (if g.scoreA > g.scoreB then 0 else 1)) →
    playSetLoop env sim target n g rng = .ok (some res) →
    res.game.serveSide = res.winner ∧ (res.winner = 0 ∨ res.winner = 1) := by
  have fin : ∀ (g : GameState) (rng : R) (res : SetResult R),
      g.serveSide = (if g.scoreA > g.scoreB then 0 else 1) →
      (⟨if g.scoreA > g.scoreB then 0 else 1, g, rng⟩ : SetResult R) = res →
      res.game.serveSide = res.winner ∧ (res.winner = 0 ∨ res.winner = 1) := by
    intro g rng res hs hres
    subst hres
    refine ⟨hs, ?_⟩
    simp only
    split
    · exact Or.inl rfl
    · exact Or.inr rfl
  have step : ∀ (g : GameState) (rng : R) (server : Player) (rr : RallyResult R)
      (g1 : GameState), setEnds target g.scoreA g.scoreB = false →
      processRallyFromServe env sim g rng = .ok rr →
      updateAfterRally env server rr.game rr.winner = .ok g1 →
      setEnds target g1.scoreA g1.scoreB = true →
      g1.serveSide = (if g1.scoreA > g1.scoreB then 0 else 1) := by
    intro g rng server rr g1 ht hrr hg1 hend
    obtain ⟨hsa, hsb, -⟩ := processRallyFromServe_frame env sim g rng rr hrr
    exact set_end_serveSide env server rr.game g1 rr.winner target (by rw [hsa, hsb]; exact ht)
      hg1 hend
  induction n with
  | zero =>
    intro g rng res hinv h
    simp only [playSetLoop] at h
    split at h
    · rename_i ht
      simp only [Except.ok.injEq, Option.some.injEq] at h
      exact fin g rng res (hinv ht) h
    · cases h
  | succ n ih =>
    intro g rng res hinv h
    simp only [playSetLoop] at h
    split at h
    · rename_i ht
      simp only [Except.ok.injEq, Option.some.injEq] at h
      exact fin g rng res (hinv ht) h
    · rename_i ht
      split at h
      · cases h
      · rename_i server _
        split at h
        · cases h
        · split at h
          · cases h
          · rename_i rr hrr
            split at h
            · cases h
            · rename_i g1 hg1
              exact ih g1 rr.rng res
                (step g rng server rr g1 (by simpa using ht) hrr hg1) h
/-! ## The course of a match -/

theorem simulateRoundSetEnds_zero (g : GameState) (ha : g.scoreA = 0) (hb : g.scoreB = 0) :
    simulateRoundSetEnds g = false := by
  unfold simulateRoundSetEnds
  have h : ¬ setEnds (currentSetTarget g) g.scoreA g.scoreB = true := by
    rw [setEnds_iff, ha, hb]
    omega
  simpa using h

theorem nextSet_position (n n1 wa wb wa1 wb1 s s1 : Int)
    (hpos : (n = 1 ∧ wa = 0 ∧ wb = 0) ∨ (n = 2 ∧ wa = 1 ∧ wb = 0) ∨
      (n = 2 ∧ wa = 0 ∧ wb = 1) ∨ (n = 3 ∧ wa = 1 ∧ wb = 1))
    (hwon : (s = 0 ∧ wa1 = wa + 1 ∧ wb1 = wb) ∨ (s = 1 ∧ wa1 = wa ∧ wb1 = wb + 1))
    (hc : ¬ (wa1 = 2 ∨ wb1 = 2 ∨ n ≥ 3))
    (hset : (n = 1 ∧ n1 = 2 ∧ s1 = 1 - s) ∨ (n ≠ 1 ∧ n1 = 3)) :
    (n1 = 2 ∧ wa1 = 1 ∧ wb1 = 0 ∧ s1 = 1) ∨ (n1 = 2 ∧ wa1 = 0 ∧ wb1 = 1 ∧ s1 = 0) ∨
      (n1 = 3 ∧ wa1 = 1 ∧ wb1 = 1) := by
  omega

theorem matchOver_position (n wa wb wa1 wb1 : Int)
    (hpos : (n = 1 ∧ wa = 0 ∧ wb = 0) ∨ (n = 2 ∧ wa = 1 ∧ wb = 0) ∨
      (n = 2 ∧ wa = 0 ∧ wb = 1) ∨ (n = 3 ∧ wa = 1 ∧ wb = 1))
    (hwon : (wa1 = wa + 1 ∧ wb1 = wb) ∨ (wa1 = wa ∧ wb1 = wb + 1))
    (hc : wa1 = 2 ∨ wb1 = 2 ∨ n ≥ 3) :
    (n = 2 ∧ ((wa1 = 2 ∧ wb1 = 0) ∨ (wa1 = 0 ∧ wb1 = 2))) ∨
      (n = 3 ∧ ((wa1 = 2 ∧ wb1 = 1) ∨ (wa1 = 1 ∧ wb1 = 2))) := by
  omega

theorem initMatchState_match {R : Type} (env : Env) (sim : Simulators R) (d d1 : DisplayState)
    (rng r1 : R) (h : initMatchState env sim d rng = .ok (d1, r1)) : MatchInv d1 := by
  obtain ⟨d2, h2, wa, wb, mo, sa, sb, sn, ss, -⟩ := initMatchState_spec env sim d rng
  rw [h] at h2
  cases h2
  refine ⟨by rw [sa], by rw [sb], by rw [ss]; omega,
    Or.inl ⟨mo, simulateRoundSetEnds_zero _ sa sb, Or.inl ⟨sn, wa, wb⟩⟩⟩

theorem simulateRound_match {R : Type} (env : Env) (sim : Simulators R) (d d1 : DisplayState)
    (rng r1 : R) (hinv : MatchInv d) (h : simulateRound env sim d rng = .ok (d1, r1)) :
    MatchInv d1 := by
  rcases simulateRound_cases env sim d d1 rng r1 h with
    ⟨-, rfl, -⟩ | ⟨hmo, server, res, g1, -, hres, hg1, hend⟩
  · exact hinv
  · obtain ⟨ha0, hb0, hs, hrun | hover⟩ := hinv
    swap
    · rw [hmo] at hover
      exact absurd hover.1 (by decide)
    obtain ⟨-, hnot, hpos⟩ := hrun
    obtain ⟨fa, fb, fn, fs, -⟩ := processRallyFromServe_frame env sim _ rng res hres
    obtain ⟨hn1, hpt⟩ := updateAfterRally_point env server res.game g1 res.winner hg1
    rw [fa, fb] at hpt
    rw [fn] at hn1
    have hs1 : g1.serveSide = 0 ∨ g1.serveSide = 1 := by
      rcases hpt with ⟨-, e, -⟩ | ⟨-, e, -⟩
      · exact Or.inl e
      · exact Or.inr e
    have ha1 : 0 ≤ g1.scoreA := by
      rcases hpt with ⟨-, -, e, -⟩ | ⟨-, -, e, -⟩ <;> omega
    have hb1 : 0 ≤ g1.scoreB := by
      rcases hpt with ⟨-, -, -, e⟩ | ⟨-, -, -, e⟩ <;> omega
    have hnz : ¬ (g1.scoreA = 0 ∧ g1.scoreB = 0) := by
      rcases hpt with ⟨-, -, e1, e2⟩ | ⟨-, -, e1, e2⟩ <;> omega
    rcases hend with ⟨htest, hfin⟩ | ⟨htest, rfl, -⟩
    · have hwin : g1.serveSide = (if g1.scoreA > g1.scoreB then 0 else 1) := by
        unfold simulateRoundSetEnds currentSetTarget at htest hnot
        rw [hn1] at htest
        exact set_end_serveSide env server res.game g1 res.winner _
          (by rw [fa, fb]; exact hnot) hg1 htest
      obtain ⟨hwon, hnext⟩ := finishSet_cases env sim _ d1 _ r1 hfin
      simp only at hwon hnext
      have hpos' : (d.gameState.setNum = 1 ∧ d.setsWonA = 0 ∧ d.setsWonB = 0) ∨
          (d.gameState.setNum = 2 ∧ d.setsWonA = 1 ∧ d.setsWonB = 0) ∨
          (d.gameState.setNum = 2 ∧ d.setsWonA = 0 ∧ d.setsWonB = 1) ∨
          (d.gameState.setNum = 3 ∧ d.setsWonA = 1 ∧ d.setsWonB = 1) := by
        rcases hpos with h | h | h | h
        · exact Or.inl h
        · exact Or.inr (Or.inl ⟨h.1, h.2.1, h.2.2.1⟩)
        · exact Or.inr (Or.inr (Or.inl ⟨h.1, h.2.1, h.2.2.1⟩))
        · exact Or.inr (Or.inr (Or.inr h))
      have hwon' : (g1.serveSide = 0 ∧ d1.setsWonA = d.setsWonA + 1 ∧
          d1.setsWonB = d.setsWonB) ∨
          (g1.serveSide = 1 ∧ d1.setsWonA = d.setsWonA ∧ d1.setsWonB = d.setsWonB + 1) := by
        rcases hwon with ⟨hgt, wA, wB⟩ | ⟨hgt, wA, wB⟩
        · rw [if_pos hgt] at hwin
          exact Or.inl ⟨hwin, wA, wB⟩
        · rw [if_neg hgt] at hwin
          exact Or.inr ⟨hwin, wA, wB⟩
      rw [hn1] at hnext
      rcases hnext with ⟨hc, hm, hg, -⟩ | ⟨hc, hnx⟩
      · refine ⟨by rw [hg]; exact ha1, by rw [hg]; exact hb1, by rw [hg]; exact hs1,
          Or.inr ⟨hm, by rw [hg]; exact htest, ?_⟩⟩
        rw [hg, hn1]
        refine matchOver_position _ _ _ _ _ hpos' ?_ hc
        rcases hwon' with ⟨-, a, b⟩ | ⟨-, a, b⟩
        · exact Or.inl ⟨a, b⟩
        · exact Or.inr ⟨a, b⟩
      · obtain ⟨d2, r2, h2, wa, wb, mo, sa, sb, hset, -⟩ := nextSet_spec env sim
          { d1 with gameState := g1, matchOver := d.matchOver } res.rng
        rw [hnx] at h2
        cases h2
        simp only at hset
        have hserve : d1.gameState.serveSide = 0 ∨ d1.gameState.serveSide = 1 := by
          rcases hset with ⟨-, -, e, -⟩ | ⟨-, -, e, -⟩ <;> rw [e] <;> omega
        refine ⟨by rw [sa], by rw [sb], hserve,
          Or.inl ⟨by rw [mo]; exact hmo, simulateRoundSetEnds_zero _ sa sb, ?_⟩⟩
        have hset' : (g1.setNum = 1 ∧ d1.gameState.setNum = 2 ∧
            d1.gameState.serveSide = 1 - g1.serveSide) ∨
            (g1.setNum ≠ 1 ∧ d1.gameState.setNum = 3) := by
          rcases hset with ⟨a, b, c, -⟩ | ⟨a, b, -⟩
          · exact Or.inl ⟨a, b, c⟩
          · exact Or.inr ⟨a, b⟩
        rw [hn1] at hset'
        rcases nextSet_position _ _ _ _ _ _ _ _ hpos' hwon' hc hset' with h | h | h
        · exact Or.inr (Or.inl ⟨h.1, h.2.1, h.2.2.1, fun _ _ => h.2.2.2⟩)
        · exact Or.inr (Or.inr (Or.inl ⟨h.1, h.2.1, h.2.2.1, fun _ _ => h.2.2.2⟩))
        · exact Or.inr (Or.inr (Or.inr h))
    · refine ⟨ha1, hb1, hs1, Or.inl ⟨hmo, htest, ?_⟩⟩
      simp only
      rw [hn1]
      rcases hpos with h | h | h | h
      · exact Or.inl h
      · exact Or.inr (Or.inl ⟨h.1, h.2.1, h.2.2.1, fun x y => absurd ⟨x, y⟩ hnz⟩)
      · exact Or.inr (Or.inr (Or.inl ⟨h.1, h.2.1, h.2.2.1, fun x y => absurd ⟨x, y⟩ hnz⟩))
      · exact Or.inr (Or.inr (Or.inr h))
theorem simulateRounds_match {R : Type} (env : Env) (sim : Simulators R) (n : Nat) :
    ∀ (d d1 : DisplayState) (rng r1 : R), MatchInv d →
      simulateRounds env sim n d rng = .ok (d1, r1) → MatchInv d1 := by
  induction n with
  | zero =>
    intro d d1 rng r1 hinv h
    cases h
    exact hinv
  | succ n ih =>
    intro d d1 rng r1 hinv h
    simp only [simulateRounds] at h
    split at h
    · cases h
    · rename_i s hstep
      exact ih s.1 d1 s.2 r1 (simulateRound_match env sim d s.1 rng s.2 hinv hstep) h

theorem reachable_match {R : Type} (env : Env) (sim : Simulators R) (d d0 d1 : DisplayState)
    (rng r0 r1 : R) (n : Nat) (h0 : initMatchState env sim d rng = .ok (d0, r0))
    (h : simulateRounds env sim n d0 r0 = .ok (d1, r1)) : MatchInv d1 :=
  simulateRounds_match env sim n d0 d1 r0 r1 (initMatchState_match env sim d d0 rng r0 h0) h
/-! ## The claims on the serve side between sets and on the match -/

/-- C24 (counterexample): the default rosters with team B serving first in set 1
and team A winning every rally. Set 1 ends 25-0 for team A, and the side that
serves first in set 2 is team B again, not the opposite of the side that
served first in set 1; both after 25 calls of simulateRound, where nextSet
sets it, and in newGame after playSet. -/
theorem C24_first_server_of_set_two_counterexample :
    (∃ d0 d1, initMatchState exampleEnv (simTeamAWins 1) freshDisplay () = .ok (d0, ()) ∧
      simulateRounds exampleEnv (simTeamAWins 1) 25 d0 () = .ok (d1, ()) ∧
      d0.gameState.serveSide = 1 ∧ d1.gameState.setNum = 2 ∧ d1.gameState.scoreA = 0 ∧
      d1.gameState.scoreB = 0 ∧ d1.setsWonA = 1 ∧ d1.setsWonB = 0 ∧
      d1.gameState.serveSide = 1 ∧ d1.gameState.serveSide ≠ 1 - d0.gameState.serveSide) ∧
    (∃ g1 res, newGameSet1 exampleEnv freshDisplay.gameState 1 = .ok g1 ∧
      playSet exampleEnv (simTeamAWins 1) 25 g1 () 25 = .ok (some res) ∧
      g1.serveSide = 1 ∧ res.winner = 0 ∧ res.game.scoreA = 25 ∧ res.game.scoreB = 0 ∧
      (newGameSet2 res.game).serveSide = 1 ∧
      (newGameSet2 res.game).serveSide ≠ 1 - g1.serveSide) :=
  ⟨⟨_, _, rfl, rfl, by decide⟩, ⟨_, _, rfl, rfl, by decide⟩⟩
/-- C24 (amended): the side that serves first in set 2 is the opposite of the side
that won set 1, in newGame after playSet has returned the winner of set 1 and
in every state at 0-0 points in set 2 that initMatchState followed by
simulateRound calls reaches (the winner of set 1 being the side with one set
won). So it is the opposite of the side that served first in set 1 exactly
when that side won set 1. -/
theorem C24_first_server_of_set_two {R : Type} (env : Env) (sim : Simulators R) :
    (∀ (game g1 : GameState) (rnd : Nat) (rng : R) (n : Nat) (res : SetResult R),
      newGameSet1 env game rnd = .ok g1 →
      playSet env sim 25 g1 rng n = .ok (some res) →
      (newGameSet2 res.game).serveSide = 1 - res.winner ∧
      ((newGameSet2 res.game).serveSide = 1 - g1.serveSide ↔ res.winner = g1.serveSide)) ∧
    (∀ (d d0 d1 : DisplayState) (rng r0 r1 : R) (n : Nat),
      initMatchState env sim d rng = .ok (d0, r0) →
      simulateRounds env sim n d0 r0 = .ok (d1, r1) →
      d1.gameState.setNum = 2 → d1.gameState.scoreA = 0 → d1.gameState.scoreB = 0 →
      ∃ w : Int, ((w = 0 ∧ d1.setsWonA = 1 ∧ d1.setsWonB = 0) ∨
          (w = 1 ∧ d1.setsWonA = 0 ∧ d1.setsWonB = 1)) ∧
        d1.gameState.serveSide = 1 - w ∧
        (d1.gameState.serveSide = 1 - d0.gameState.serveSide ↔ w = d0.gameState.serveSide)) := by
  constructor
  · intro game g1 rnd rng n res h1 h
    unfold playSet at h
    obtain ⟨hs, hw⟩ := playSetLoop_serveSide env sim 25 n _ rng res
      (fun ht => absurd ((setEnds_iff _ _ _).mp ht) (by simp)) h
    have e : (newGameSet2 res.game).serveSide = 1 - res.game.serveSide := rfl
    rw [e, hs]
    exact ⟨rfl, by omega⟩
  · intro d d0 d1 rng r0 r1 n h0 h hn ha hb
    obtain ⟨-, -, -, hrun | hover⟩ := reachable_match env sim d d0 d1 rng r0 r1 n h0 h
    · obtain ⟨-, -, hpos⟩ := hrun
      rcases hpos with h1 | h1 | h1 | h1
      · omega
      · have hsv := h1.2.2.2 ha hb
        exact ⟨0, Or.inl ⟨rfl, h1.2.1, h1.2.2.1⟩, by rw [hsv]; rfl, by rw [hsv]; omega⟩
      · have hsv := h1.2.2.2 ha hb
        exact ⟨1, Or.inr ⟨rfl, h1.2.1, h1.2.2.1⟩, by rw [hsv]; rfl, by rw [hsv]; omega⟩
      · omega
    · have hno : simulateRoundSetEnds d1.gameState = false :=
        simulateRoundSetEnds_zero _ ha hb
      rw [hover.2.1] at hno
      exact absurd hno (by decide)

/-- C24 (witness): the default rosters with team B serving first in set 1 and team
A winning every rally; team B, the loser of set 1, serves first in set 2. -/
theorem C24_first_server_of_set_two_witness :
    ∃ g1 res, newGameSet1 exampleEnv freshDisplay.gameState 1 = .ok g1 ∧
      playSet exampleEnv (simTeamAWins 1) 25 g1 () 25 = .ok (some res) ∧
      res.winner = 0 ∧
      ((newGameSet2 res.game).serveSide = 1 - res.winner ∧
        ((newGameSet2 res.game).serveSide = 1 - g1.serveSide ↔ res.winner = g1.serveSide)) :=
  ⟨_, _, rfl, rfl, by decide,
    (C24_first_server_of_set_two exampleEnv (simTeamAWins 1)).1 freshDisplay.gameState _ 1 () 25
      _ rfl rfl⟩
/-- C25: in every state that initMatchState followed by any number of
simulateRound calls reaches, matchOver is set if and only if one side has won
2 sets; when it is set the set totals are 2-0, 2-1, 0-2 or 1-2, never equal;
setNum is 1, 2 or 3; in set 3 both sides have won a set, and the totals are 1-1
as long as the match is running. The same holds after one more simulateRound
call, and a call that moves the match into set 3 does so at 1-1. -/
theorem C25_best_of_three {R : Type} (env : Env) (sim : Simulators R)
    (d d0 d1 : DisplayState) (rng r0 r1 : R) (n : Nat)
    (h0 : initMatchState env sim d rng = .ok (d0, r0))
    (h : simulateRounds env sim n d0 r0 = .ok (d1, r1)) :
    (d1.matchOver = true ↔ (d1.setsWonA = 2 ∨ d1.setsWonB = 2)) ∧
    (d1.matchOver = true →
      ((d1.setsWonA = 2 ∧ d1.setsWonB = 0) ∨ (d1.setsWonA = 2 ∧ d1.setsWonB = 1) ∨
        (d1.setsWonA = 0 ∧ d1.setsWonB = 2) ∨ (d1.setsWonA = 1 ∧ d1.setsWonB = 2)) ∧
      d1.setsWonA ≠ d1.setsWonB) ∧
    (1 ≤ d1.gameState.setNum ∧ d1.gameState.setNum ≤ 3) ∧
    (d1.gameState.setNum = 3 → 1 ≤ d1.setsWonA ∧ 1 ≤ d1.setsWonB ∧
      (d1.matchOver = false → d1.setsWonA = 1 ∧ d1.setsWonB = 1)) ∧
    (∀ (d2 : DisplayState) (r2 : R), simulateRound env sim d1 r1 = .ok (d2, r2) →
      (d2.matchOver = true ↔ (d2.setsWonA = 2 ∨ d2.setsWonB = 2)) ∧
      (d1.gameState.setNum ≠ 3 → d2.gameState.setNum = 3 →
        d2.matchOver = false ∧ d2.setsWonA = 1 ∧ d2.setsWonB = 1)) := by
  have key : ∀ x : DisplayState, MatchInv x →
      (x.matchOver = true ↔ (x.setsWonA = 2 ∨ x.setsWonB = 2)) ∧
      (x.matchOver = true →
        ((x.setsWonA = 2 ∧ x.setsWonB = 0) ∨ (x.setsWonA = 2 ∧ x.setsWonB = 1) ∨
          (x.setsWonA = 0 ∧ x.setsWonB = 2) ∨ (x.setsWonA = 1 ∧ x.setsWonB = 2)) ∧
        x.setsWonA ≠ x.setsWonB) ∧
      (1 ≤ x.gameState.setNum ∧ x.gameState.setNum ≤ 3) ∧
      (x.gameState.setNum = 3 → 1 ≤ x.setsWonA ∧ 1 ≤ x.setsWonB ∧
        (x.matchOver = false → x.setsWonA = 1 ∧ x.setsWonB = 1)) := by
    intro x hx
    obtain ⟨-, -, -, ⟨hm, -, hpos⟩ | ⟨hm, -, hpos⟩⟩ := hx
    · have hm' : ¬ x.matchOver = true := by rw [hm]; decide
      refine ⟨⟨fun hc => absurd hc hm', fun hc => ?_⟩, fun hc => absurd hc hm', ?_, ?_⟩
      · rcases hpos with p | p | p | p <;> omega
      · rcases hpos with p | p | p | p <;> omega
      · intro h3
        rcases hpos with p | p | p | p <;> omega
    · have hm' : ¬ x.matchOver = false := by rw [hm]; decide
      refine ⟨⟨fun _ => by omega, fun _ => hm⟩, fun _ => by omega, by omega, fun h3 => ?_⟩
      exact ⟨by omega, by omega, fun hc => absurd hc hm'⟩
  have hinv := reachable_match env sim d d0 d1 rng r0 r1 n h0 h
  obtain ⟨k1, k2, k3, k4⟩ := key d1 hinv
  refine ⟨k1, k2, k3, k4, fun d2 r2 h2 => ?_⟩
  have hinv2 := simulateRound_match env sim d1 d2 r1 r2 hinv h2
  obtain ⟨q1, -, -, q4⟩ := key d2 hinv2
  refine ⟨q1, fun hne h3 => ?_⟩
  have hrun : d2.matchOver = false := by
    rcases simulateRound_cases env sim d1 d2 r1 r2 h2 with
      ⟨-, rfl, -⟩ | ⟨hmo, server, res, g1, -, hres, hg1, hend⟩
    · exact absurd h3 hne
    · obtain ⟨-, -, fn, -⟩ := processRallyFromServe_frame env sim _ r1 res hres
      obtain ⟨hn1, -⟩ := updateAfterRally_point env server res.game g1 res.winner hg1
      rcases hend with ⟨-, hfin⟩ | ⟨-, rfl, -⟩
      · rcases (finishSet_cases env sim _ d2 _ r2 hfin).2 with ⟨-, -, e, -⟩ | ⟨-, hnx⟩
        · rw [e] at h3
          simp only at h3
          rw [hn1, fn] at h3
          exact absurd h3 hne
        · obtain ⟨d3, r3, h3', -, -, mo, -⟩ := nextSet_spec env sim
            { d2 with
              gameState := { d1 with gameState := g1 }.gameState,
              matchOver := { d1 with gameState := g1 }.matchOver } res.rng
          rw [hnx] at h3'
          cases h3'
          rw [mo]
          exact hmo
      · simp only at h3
        rw [hn1, fn] at h3
        exact absurd h3 hne
  exact ⟨hrun, (q4 h3).2.2 hrun⟩

set_option maxRecDepth 100000

/-- C25 (witness): the default rosters with team A winning every rally; after 50
calls of simulateRound the match is over at 2-0 in set 2. -/
theorem C25_best_of_three_witness :
    ∃ d0 d1, initMatchState exampleEnv (simTeamAWins 1) freshDisplay () = .ok (d0, ()) ∧
      simulateRounds exampleEnv (simTeamAWins 1) 50 d0 () = .ok (d1, ()) ∧
      d1.matchOver = true ∧ d1.setsWonA = 2 ∧ d1.setsWonB = 0 ∧ d1.gameState.setNum = 2 ∧
      (d1.matchOver = true ↔ (d1.setsWonA = 2 ∨ d1.setsWonB = 2)) :=
  ⟨_, _, rfl, rfl, by decide, by decide, by decide, by decide,
    (C25_best_of_three exampleEnv (simTeamAWins 1) freshDisplay _ _ () () () 50 rfl rfl).1⟩
/-- C28: after the update that follows a rally, in the loop body of playSet and in
simulateRound alike, serveSide equals the winner of the rally, for a serve
side 0 or 1 before it. When playSet returns, serveSide is the winner of the
set it returns, so the flip serveSide = 1 - serveSide of newGame makes the
loser of set 1 serve first in set 2. In the GUI, a simulateRound call in a
match reached from initMatchState that finds the set-end test true after its
update has serveSide at the side with the higher score, the winner of the
set; when that set is set 1, nextSet leaves the other side as the serve side
of set 2. -/
theorem C28_serve_side_is_rally_winner {R : Type} (env : Env) (sim : Simulators R) :
    (∀ (g g1 : GameState) (rng : R) (server : Player) (res : RallyResult R),
      (g.serveSide = 0 ∨ g.serveSide = 1) →
      processRallyFromServe env sim g rng = .ok res →
      updateAfterRally env server res.game res.winner = .ok g1 →
      g1.serveSide = res.winner) ∧
    (∀ (target : Int) (game : GameState) (rng : R) (n : Nat) (res : SetResult R),
      playSet env sim target game rng n = .ok (some res) →
      res.game.serveSide = res.winner ∧ (newGameSet2 res.game).serveSide = 1 - res.winner) ∧
    (∀ (d d0 d1 d2 : DisplayState) (rng r0 r1 r2 : R) (n : Nat),
      initMatchState env sim d rng = .ok (d0, r0) →
      simulateRounds env sim n d0 r0 = .ok (d1, r1) →
      d1.matchOver = false →
      simulateRound env sim d1 r1 = .ok (d2, r2) →
      ∃ server res g1, currentServer env d1.gameState = .ok server ∧
        processRallyFromServe env sim d1.gameState r1 = .ok res ∧
        updateAfterRally env server res.game res.winner = .ok g1 ∧
        g1.serveSide = res.winner ∧
        (simulateRoundSetEnds g1 = false → d2.gameState = g1) ∧
        (simulateRoundSetEnds g1 = true →
          g1.serveSide = (if g1.scoreA > g1.scoreB then 0 else 1) ∧
          (g1.setNum = 1 → d2.gameState.setNum = 2 ∧
            d2.gameState.serveSide = 1 - g1.serveSide))) := by
  have rally : ∀ (g g1 : GameState) (rng : R) (server : Player) (res : RallyResult R),
      (g.serveSide = 0 ∨ g.serveSide = 1) →
      processRallyFromServe env sim g rng = .ok res →
      updateAfterRally env server res.game res.winner = .ok g1 →
      g1.serveSide = res.winner := by
    intro g g1 rng server res hs hres hg1
    have hw := processRallyFromServe_winner env sim g rng res hres
    rcases (updateAfterRally_point env server res.game g1 res.winner hg1).2 with
      ⟨h0, e, -⟩ | ⟨h0, e, -⟩
    · rw [e, h0]
    · rw [e]; omega
  refine ⟨rally, ?_, ?_⟩
  · intro target game rng n res h
    unfold playSet at h
    obtain ⟨hs, -⟩ := playSetLoop_serveSide env sim target n _ rng res
      (fun ht => absurd ((setEnds_iff _ _ _).mp ht) (by simp)) h
    have e : (newGameSet2 res.game).serveSide = 1 - res.game.serveSide := rfl
    rw [e, hs]
    exact ⟨rfl, rfl⟩
  · intro d d0 d1 d2 rng r0 r1 r2 n h0 h hrun h2
    obtain ⟨-, -, hs, hinv⟩ := reachable_match env sim d d0 d1 rng r0 r1 n h0 h
    have hnot : simulateRoundSetEnds d1.gameState = false := by
      rcases hinv with ⟨-, hnot, -⟩ | ⟨hover, -⟩
      · exact hnot
      · rw [hrun] at hover
        exact absurd hover (by decide)
    rcases simulateRound_cases env sim d1 d2 r1 r2 h2 with
      ⟨hmo, -, -⟩ | ⟨-, server, res, g1, hserver, hres, hg1, hend⟩
    · rw [hrun] at hmo
      exact absurd hmo (by decide)
    · refine ⟨server, res, g1, hserver, hres, hg1, rally _ g1 r1 server res hs hres hg1, ?_, ?_⟩
      · intro hf
        rcases hend with ⟨ht, -⟩ | ⟨-, e, -⟩
        · rw [hf] at ht
          exact absurd ht (by decide)
        · rw [e]
      · intro ht
        obtain ⟨fa, fb, fn, -⟩ := processRallyFromServe_frame env sim _ r1 res hres
        obtain ⟨hn1, -⟩ := updateAfterRally_point env server res.game g1 res.winner hg1
        have hwin : g1.serveSide = (if g1.scoreA > g1.scoreB then 0 else 1) := by
          have ht' := ht
          unfold simulateRoundSetEnds currentSetTarget at ht' hnot
          rw [hn1, fn] at ht'
          exact set_end_serveSide env server res.game g1 res.winner _
            (by rw [fa, fb]; exact hnot) hg1 ht'
        refine ⟨hwin, fun hset1 => ?_⟩
        rcases hend with ⟨-, hfin⟩ | ⟨hf, -⟩
        swap
        · rw [ht] at hf
          exact absurd hf (by decide)
        have hinv2 := simulateRound_match env sim d1 d2 r1 r2
          (reachable_match env sim d d0 d1 rng r0 r1 n h0 h) h2
        rcases (finishSet_cases env sim _ d2 _ r2 hfin).2 with ⟨-, hm, e, -⟩ | ⟨-, hnx⟩
        · obtain ⟨-, -, -, ⟨hm', -⟩ | ⟨-, -, hp⟩⟩ := hinv2
          · rw [hm] at hm'
            exact absurd hm' (by decide)
          · rw [e] at hp
            simp only at hp
            omega
        · obtain ⟨d3, r3, h3, -, -, -, -, -, hset, -⟩ := nextSet_spec env sim
            { d2 with
              gameState := { d1 with gameState := g1 }.gameState,
              matchOver := { d1 with gameState := g1 }.matchOver } res.rng
          rw [hnx] at h3
          cases h3
          simp only at hset
          rcases hset with ⟨-, a, b, -⟩ | ⟨a, -⟩
          · exact ⟨a, b⟩
          · exact absurd hset1 a

/-- C28 (witness): the default rosters with team B serving first and team A
winning every rally: playSet(25) returns team A with serveSide 0, and newGame
lets team B serve first in set 2. -/
theorem C28_serve_side_is_rally_winner_witness :
    ∃ res, playSet exampleEnv (simTeamAWins 1) 25 (exampleGame 1) () 25 = .ok (some res) ∧
      res.winner = 0 ∧
      (res.game.serveSide = res.winner ∧ (newGameSet2 res.game).serveSide = 1 - res.winner) :=
  ⟨_, rfl, by decide,
    (C28_serve_side_is_rally_winner exampleEnv (simTeamAWins 1)).2.1 25 (exampleGame 1) () 25 _
      rfl⟩

/-! ## A rotation without a Setter -/

/-- C26 (failing input): team A of the default rosters with its Setter entered as
"OP", receiving the serve of team B, so that team A reaches the Set phase with
no Setter in its rotation. processRallyFromServe does not refuse: it calls
the Set simulator with the default-constructed player; when the set is good
the rally goes on and returns a winner after a counter was increased, and
when the set is Poor (not a dump) or the dump is an error it executes
faultA[-1]++, an access outside the array. -/
theorem C26_missing_setter_not_refused :
    (∀ i : Fin 6, (noSetterTeam.player ((exampleGame 1).rotateA i)).isSetter = false) ∧
    scanSetter noSetterTeam (exampleGame 1).rotateA blankPlayer slots = .ok (blankPlayer, -1) ∧
    (∃ res, processRallyFromServe noSetterEnv simDefenseFault (exampleGame 1) () = .ok res ∧
      res.winner = 0 ∧ res.ending = .defenseFault ∧
      res.trace[2]? = some (PhaseCall.set blankPlayer 0 receiveGood setGood) ∧
      res.game.counterSum = (exampleGame 1).counterSum + 1) ∧
    processRallyFromServe noSetterEnv simSetFault (exampleGame 1) () =
      .error .indexOutOfBounds ∧
    processRallyFromServe noSetterEnv simDumpError (exampleGame 1) () =
      .error .indexOutOfBounds :=
  ⟨by decide, rfl, ⟨_, rfl, by decide⟩, rfl, rfl⟩

end Volleyball
